import Mathlib

/-!
Height-field / shape traversal nodes of hpp-fcl.

A shallow embedding of `include/hpp/fcl/internal/traversal_node_hfield_shape.h`,
of `Plane::unitNormalTest` and `Halfspace::unitNormalTest` from
`src/shape/geometric_shapes.cpp` and of the serialization of `ContactPatchRequest`
from `include/hpp/fcl/serialization/contact_patch.h`, together with theorems about
the dual-prism merge, the collision leaf test, the early-stop predicate of the
distance node, the cell decomposition, the normalisation of planes and the archive
round trip.

Conventions of the embedding.
* `FCL_REAL` (a C++ `double`) is modelled by exact rational numbers; rounding,
  infinities and NaN are outside the model, except that the NaN test of
  `binCorrection` is kept as a predicate supplied by the environment.
* Output reference parameters become fields of a returned record.
* `assert` is modelled for both builds: unless `NDEBUG` is set, a failing
  assertion ends the call with an `Abort` value; with `NDEBUG` the assertion is
  not evaluated. Reads of `Convex` points and polygons outside their range end
  the call with an `Abort` value in both builds.
* Functions of other libraries or of files outside this development (the GJK
  solver, support functions, Eigen primitives, `Project::projectTriangle`)
  are fields of the `External` record.
-/

set_option maxRecDepth 8000

namespace hpp.fcl

/-- The scalar type of the library. -/
abbrev FCL_REAL := ℚ

/-- A vector of three scalars (Eigen `Vec3f`). -/
structure Vec3f where
  x : FCL_REAL
  y : FCL_REAL
  z : FCL_REAL
deriving DecidableEq, Repr

namespace Vec3f

def zero : Vec3f := ⟨0, 0, 0⟩

def add (a b : Vec3f) : Vec3f := ⟨a.x + b.x, a.y + b.y, a.z + b.z⟩

def sub (a b : Vec3f) : Vec3f := ⟨a.x - b.x, a.y - b.y, a.z - b.z⟩

def neg (a : Vec3f) : Vec3f := ⟨-a.x, -a.y, -a.z⟩

def smul (k : FCL_REAL) (a : Vec3f) : Vec3f := ⟨k * a.x, k * a.y, k * a.z⟩

def dot (a b : Vec3f) : FCL_REAL := a.x * b.x + a.y * b.y + a.z * b.z

def cross (a b : Vec3f) : Vec3f :=
  ⟨a.y * b.z - a.z * b.y, a.z * b.x - a.x * b.z, a.x * b.y - a.y * b.x⟩

instance : Add Vec3f := ⟨add⟩
instance : Sub Vec3f := ⟨sub⟩
instance : Neg Vec3f := ⟨neg⟩
instance : HMul FCL_REAL Vec3f Vec3f := ⟨smul⟩
instance : Inhabited Vec3f := ⟨zero⟩

end Vec3f

/-- A 3x3 matrix given by its rows (Eigen `Matrix3f`). -/
structure Matrix3f where
  r0 : Vec3f
  r1 : Vec3f
  r2 : Vec3f
deriving DecidableEq, Repr

namespace Matrix3f

def identity : Matrix3f := ⟨⟨1, 0, 0⟩, ⟨0, 1, 0⟩, ⟨0, 0, 1⟩⟩

def transpose (m : Matrix3f) : Matrix3f :=
  ⟨⟨m.r0.x, m.r1.x, m.r2.x⟩, ⟨m.r0.y, m.r1.y, m.r2.y⟩, ⟨m.r0.z, m.r1.z, m.r2.z⟩⟩

def mulVec (m : Matrix3f) (v : Vec3f) : Vec3f :=
  ⟨m.r0.dot v, m.r1.dot v, m.r2.dot v⟩

end Matrix3f

/-- A rigid transform: rotation and translation (`Transform3f`). -/
structure Transform3f where
  rotation : Matrix3f
  translation : Vec3f
deriving DecidableEq, Repr

/-- The default-constructed transform, the identity (`const Transform3f Id;`). -/
def Transform3f.Id : Transform3f := ⟨Matrix3f.identity, Vec3f.zero⟩

/-- A triangle of point indices (`Triangle`, built with `set(p1, p2, p3)`). -/
structure Triangle where
  v0 : Nat
  v1 : Nat
  v2 : Nat
deriving DecidableEq, Repr

/-- The index stored at position `i` (`operator[]`). -/
def Triangle.get (t : Triangle) (i : Nat) : Nat :=
  match i with
  | 0 => t.v0
  | 1 => t.v1
  | _ => t.v2

/-- A quadrilateral of point indices (`Quadrilateral`, built with `set(p0, p1, p2, p3)`). -/
structure Quadrilateral where
  v0 : Nat
  v1 : Nat
  v2 : Nat
  v3 : Nat
deriving DecidableEq, Repr

/-- A convex polytope: its points, their number, its polygons, their number
(`Convex<Polygone>` as filled by the constructor and by `set`). -/
structure Convex (Polygone : Type) where
  points : List Vec3f
  num_points : Nat
  polygons : List Polygone
  num_polygons : Nat
deriving DecidableEq, Repr

/-- A node of the height-field hierarchy (`HFNode<BV>`): the grid indices of
its cell and the upper bound of its heights. -/
structure HFNode where
  x_id : Nat
  y_id : Nat
  max_height : FCL_REAL
deriving DecidableEq, Repr

/-- The height-field model (`HeightField<BV>`) through its read-only accessors:
`getHeights()(row, col)`, `getXGrid()[i]`, `getYGrid()[i]`, `getMinHeight()`
and `getBV(i)`. -/
structure HeightField where
  heights : Nat → Nat → FCL_REAL
  x_grid : Nat → FCL_REAL
  y_grid : Nat → FCL_REAL
  min_height : FCL_REAL
  getBV : Nat → HFNode

/-- The ways a call can end without returning. -/
inductive Abort where
  | max_height_is_lower_than_min_height
  | normal_top_is_ill_defined
  | result_is_not_in_collision
  | no_collision_and_no_positive_lower_bound
  | index_out_of_range
deriving DecidableEq, Repr

/-- What `GJKSolver::shapeDistance` writes into its four output parameters. -/
structure SolverDistance where
  distance : FCL_REAL
  p1 : Vec3f
  p2 : Vec3f
  normal : Vec3f
deriving DecidableEq, Repr

/-- What `GJKSolver::shapeIntersect` returns and writes into its output parameters. -/
structure SolverIntersect where
  collision : Bool
  distance_lower_bound : FCL_REAL
  contact_point : Vec3f
  normal : Vec3f
deriving DecidableEq, Repr

/-- What the code depends on from outside, for a shape type `S`: the build (whether
`NDEBUG` is defined, which removes every `assert`), Eigen's `normalized()`, `norm()`,
`isApprox` and NaN test on vectors, `Project::projectTriangle` (its three barycentric
parameters), `getSupport` (called with a fresh hint), and the two queries of the
narrow-phase solver. -/
structure External (S : Type) where
  NDEBUG : Bool
  normalized : Vec3f → Vec3f
  norm : Vec3f → FCL_REAL
  isApprox : Vec3f → Vec3f → Bool
  isNaN : Vec3f → Bool
  Project_projectTriangle : Vec3f → Vec3f → Vec3f → Vec3f → FCL_REAL × FCL_REAL × FCL_REAL
  getSupport : S → Vec3f → Vec3f
  shapeDistance : Convex Triangle → Transform3f → S → Transform3f → SolverDistance
  shapeIntersect : Convex Triangle → Transform3f → S → Transform3f → SolverIntersect

/-- The plane `n . x = d` (`Plane`): normal and offset. -/
structure Plane where
  n : Vec3f
  d : FCL_REAL
deriving DecidableEq, Repr

/-- Normalisation of the plane equation (`Plane::unitNormalTest`). -/
def Plane.unitNormalTest (norm : Vec3f → FCL_REAL) (p : Plane) : Plane :=
  let l := norm p.n
  if l > 0 then
    let inv_l := 1 / l
    { n := inv_l * p.n, d := p.d * inv_l }
  else
    { n := ⟨1, 0, 0⟩, d := 0 }

/-- Modelled from the spec: the constructor `Plane(n, d)` and `Plane::signedDistance`
are declared in `shape/geometric_shapes.h`, which is missing here. The constructor
stores normal and offset and calls `unitNormalTest`; the signed distance of a point
to a plane without swept-sphere radius is `n . p - d`. -/
def Plane.make (norm : Vec3f → FCL_REAL) (n : Vec3f) (d : FCL_REAL) : Plane :=
  Plane.unitNormalTest norm { n := n, d := d }

/-- Modelled from the spec: signed plane distance of a point, see `Plane.make`. -/
def Plane.signedDistance (p : Plane) (point : Vec3f) : FCL_REAL :=
  p.n.dot point - p.d

/-- The half-space `n . x <= d` (`Halfspace`): normal and offset. -/
structure Halfspace where
  n : Vec3f
  d : FCL_REAL
deriving DecidableEq, Repr

/-- Normalisation of the half-space inequality (`Halfspace::unitNormalTest`). -/
def Halfspace.unitNormalTest (norm : Vec3f → FCL_REAL) (h : Halfspace) : Halfspace :=
  let l := norm h.n
  if l > 0 then
    let inv_l := 1 / l
    { n := inv_l * h.n, d := h.d * inv_l }
  else
    { n := ⟨1, 0, 0⟩, d := 0 }

namespace details

/-- The single convex with quadrilateral faces of a cell
(`details::buildConvexQuadrilateral`); `cell(i, j)` is `heights(y_id + i, x_id + j)`
and `cell.maxCoeff()` is the largest of the four. -/
def buildConvexQuadrilateral {S : Type} (ext : External S) (node : HFNode)
    (model : HeightField) : Except Abort (Convex Quadrilateral) :=
  let heights := model.heights
  let x_grid := model.x_grid
  let y_grid := model.y_grid
  let min_height := model.min_height
  let x0 := x_grid node.x_id
  let x1 := x_grid (node.x_id + 1)
  let y0 := y_grid node.y_id
  let y1 := y_grid (node.y_id + 1)
  let cell : Nat → Nat → FCL_REAL := fun i j => heights (node.y_id + i) (node.x_id + j)
  let maxCoeff := max (max (cell 0 0) (cell 0 1)) (max (cell 1 0) (cell 1 1))
  if ext.NDEBUG || decide (maxCoeff > min_height) then
    .ok { points := [⟨x0, y0, min_height⟩, ⟨x0, y1, min_height⟩, ⟨x1, y1, min_height⟩,
                     ⟨x1, y0, min_height⟩, ⟨x0, y0, cell 0 0⟩, ⟨x0, y1, cell 1 0⟩,
                     ⟨x1, y1, cell 1 1⟩, ⟨x1, y0, cell 0 1⟩]
          num_points := 8
          polygons := [⟨0, 3, 2, 1⟩, ⟨0, 1, 5, 4⟩, ⟨1, 2, 6, 5⟩, ⟨2, 3, 7, 6⟩,
                       ⟨3, 0, 4, 7⟩, ⟨4, 5, 6, 7⟩]
          num_polygons := 6 }
  else
    .error Abort.max_height_is_lower_than_min_height

/-- The two triangular prisms of a cell (`details::buildConvexTriangles`);
`cell(i, j)` is `heights(y_id + i, x_id + j)`. -/
def buildConvexTriangles {S : Type} (ext : External S) (node : HFNode) (model : HeightField) :
    Except Abort (Convex Triangle × Convex Triangle) :=
  let heights := model.heights
  let x_grid := model.x_grid
  let y_grid := model.y_grid
  let min_height := model.min_height
  let x0 := x_grid node.x_id
  let x1 := x_grid (node.x_id + 1)
  let y0 := y_grid node.y_id
  let y1 := y_grid (node.y_id + 1)
  let max_height := node.max_height
  let cell : Nat → Nat → FCL_REAL := fun i j => heights (node.y_id + i) (node.x_id + j)
  if ext.NDEBUG || decide (max_height > min_height) then
    let convex1 : Convex Triangle :=
      { points := [⟨x0, y0, min_height⟩, ⟨x0, y1, min_height⟩, ⟨x1, y0, min_height⟩,
                   ⟨x0, y0, cell 0 0⟩, ⟨x0, y1, cell 1 0⟩, ⟨x1, y0, cell 0 1⟩]
        num_points := 6
        polygons := [⟨0, 1, 2⟩, ⟨3, 5, 4⟩, ⟨0, 3, 1⟩, ⟨3, 4, 1⟩,
                     ⟨1, 5, 2⟩, ⟨1, 4, 5⟩, ⟨0, 2, 5⟩, ⟨5, 3, 0⟩]
        num_polygons := 8 }
    let convex2 : Convex Triangle :=
      { points := [⟨x0, y1, min_height⟩, ⟨x1, y1, min_height⟩, ⟨x1, y0, min_height⟩,
                   ⟨x0, y1, cell 1 0⟩, ⟨x1, y1, cell 1 1⟩, ⟨x1, y0, cell 0 1⟩]
        num_points := 6
        polygons := [⟨2, 0, 1⟩, ⟨3, 5, 4⟩, ⟨0, 3, 1⟩, ⟨3, 4, 1⟩,
                     ⟨0, 2, 5⟩, ⟨0, 5, 3⟩, ⟨1, 5, 2⟩, ⟨4, 2, 1⟩]
        num_polygons := 8 }
    .ok (convex1, convex2)
  else
    .error Abort.max_height_is_lower_than_min_height

/-- The point of triangle `(pointA, pointB, pointC)` with the barycentric
parameters computed by `Project::projectTriangle` (`details::projectTriangle`). -/
def projectTriangle {S : Type} (ext : External S) (pointA pointB pointC point : Vec3f) : Vec3f :=
  let result := ext.Project_projectTriangle pointA pointB pointC point
  result.1 * pointA + result.2.1 * pointB + result.2.2 * pointC

/-- The values of the reference parameters of `binCorrection` after the call,
and its return value `hfield_witness_is_on_bin_side`. -/
structure BinCorrected where
  distance : FCL_REAL
  contact_1 : Vec3f
  contact_2 : Vec3f
  normal : Vec3f
  normal_top : Vec3f
  is_collision : Bool
  hfield_witness_is_on_bin_side : Bool
deriving DecidableEq, Repr

/-- Repair of a contact the solver placed on a side face of a prism
(`details::binCorrection`, instantiated at `Triangle`). -/
def binCorrection {S : Type} (ext : External S) (convex : Convex Triangle) (shape : S)
    (shape_pose : Transform3f) (distance : FCL_REAL) (contact_1 contact_2 normal : Vec3f)
    (is_collision : Bool) : Except Abort BinCorrected :=
  match convex.polygons[1]? with
  | none => .error Abort.index_out_of_range
  | some top_triangle =>
    match convex.points[top_triangle.get 0]?, convex.points[top_triangle.get 1]?,
        convex.points[top_triangle.get 2]? with
    | some pointA, some pointB, some pointC =>
      let normal_top0 := ext.normalized ((pointB - pointA).cross (pointC - pointA))
      let normal_top := if normal_top0.z < 0 then (-1 : FCL_REAL) * normal_top0 else normal_top0
      if !ext.NDEBUG && ext.isNaN normal_top then
        .error Abort.normal_top_is_ill_defined
      else
        let contact_1_projected := projectTriangle ext pointA pointB pointC contact_1
        let hfield_witness_is_on_bin_side := !(ext.isApprox contact_1_projected contact_1)
        let normal := if hfield_witness_is_on_bin_side then normal else normal_top
        if is_collision then
          let _support := ext.getSupport shape
            (-(shape_pose.rotation.transpose.mulVec normal_top))
          let support := shape_pose.rotation.mulVec _support + shape_pose.translation
          let offset_plane := normal_top.dot pointA
          let projection_plane := Plane.make ext.norm normal_top offset_plane
          let distance_support_projection_plane := projection_plane.signedDistance support
          let projected_support := support - distance_support_projection_plane * normal_top
          let contact_1 := projectTriangle ext pointA pointB pointC projected_support
          let contact_2 := contact_1 + distance_support_projection_plane * normal_top
          let normal := normal_top
          let distance := -(ext.norm (contact_1 - contact_2))
          .ok { distance := distance, contact_1 := contact_1, contact_2 := contact_2,
                normal := normal, normal_top := normal_top, is_collision := is_collision,
                hfield_witness_is_on_bin_side := hfield_witness_is_on_bin_side }
        else
          .ok { distance := distance, contact_1 := contact_1, contact_2 := contact_2,
                normal := normal, normal_top := normal_top, is_collision := is_collision,
                hfield_witness_is_on_bin_side := hfield_witness_is_on_bin_side }
    | _, _, _ => .error Abort.index_out_of_range

/-- The values of the reference parameters of `details::shapeDistance` after the
call, and its return value `collision`. -/
structure ShapeDistanceResult where
  collision : Bool
  distance : FCL_REAL
  c1 : Vec3f
  c2 : Vec3f
  normal : Vec3f
  normal_top : Vec3f
  hfield_witness_is_on_bin_side : Bool
deriving DecidableEq, Repr

/-- The record `shapeDistance` returns when it keeps the outcome of one prism. -/
def keep (collision : Bool) (o : BinCorrected) : ShapeDistanceResult :=
  { collision := collision, distance := o.distance, c1 := o.contact_1, c2 := o.contact_2,
    normal := o.normal, normal_top := o.normal_top,
    hfield_witness_is_on_bin_side := o.hfield_witness_is_on_bin_side }

/-- Signed-distance query of a shape against the two prisms of a cell, merged
(`details::shapeDistance`, instantiated at `Triangle`). `RTIsIdentity` is the
compile-time option `Options & RelativeTransformationIsIdentity`. With that option
the second solver call writes its normal into the output parameter `normal`, which
every branch of the merge overwrites, and the local `normal2` is read without having
been written: `normal2_indeterminate` stands for its content. -/
def shapeDistance {S : Type} (ext : External S) (RTIsIdentity : Bool)
    (convex1 convex2 : Convex Triangle) (tf1 : Transform3f) (shape : S) (tf2 : Transform3f)
    (normal2_indeterminate : Vec3f) : Except Abort ShapeDistanceResult :=
  let Id := Transform3f.Id
  let s1 := if RTIsIdentity then ext.shapeDistance convex1 Id shape tf2
            else ext.shapeDistance convex1 tf1 shape tf2
  let collision1 := decide (s1.distance < 0)
  match binCorrection ext convex1 shape tf2 s1.distance s1.p1 s1.p2 s1.normal collision1 with
  | .error e => .error e
  | .ok o1 =>
    let s2 := if RTIsIdentity then ext.shapeDistance convex2 Id shape tf2
              else ext.shapeDistance convex2 tf1 shape tf2
    let normal2 := if RTIsIdentity then normal2_indeterminate else s2.normal
    let collision2 := decide (s2.distance < 0)
    match binCorrection ext convex2 shape tf2 s2.distance s2.p1 s2.p2 normal2 collision2 with
    | .error e => .error e
    | .ok o2 =>
      if collision1 && collision2 then
        if o1.distance > o2.distance then .ok (keep true o2) else .ok (keep true o1)
      else if collision1 then .ok (keep true o1)
      else if collision2 then .ok (keep true o2)
      else if o1.distance > o2.distance then .ok (keep false o2)
      else .ok (keep false o1)

/-- The largest finite `double`, `(std::numeric_limits<FCL_REAL>::max)()`:
`(2 - 2^-52) * 2^1023`. -/
def FCL_REAL_max : FCL_REAL := 2 ^ 1024 - 2 ^ 971

/-- The values of the reference parameters of `details::shapeCollision` after the
call, and its return value `collision`. -/
structure ShapeCollisionResult where
  collision : Bool
  distance_lower_bound : FCL_REAL
  contact_point : Vec3f
  normal : Vec3f
deriving DecidableEq, Repr

/-- Boolean collision query of a shape against the two prisms of a cell, merged
(`details::shapeCollision`, instantiated at `Triangle`). The first solver call writes
into the output parameters, the second into the locals `distance_lower_bound2`,
`contact_point2` and `normal2`. -/
def shapeCollision {S : Type} (ext : External S) (RTIsIdentity : Bool)
    (convex1 convex2 : Convex Triangle) (tf1 : Transform3f) (shape : S) (tf2 : Transform3f) :
    ShapeCollisionResult :=
  let Id := Transform3f.Id
  let r1 := if RTIsIdentity then ext.shapeIntersect convex1 Id shape tf2
            else ext.shapeIntersect convex1 tf1 shape tf2
  let collision1 := r1.collision
  let distance_lower_bound := r1.distance_lower_bound
  let contact_point := r1.contact_point
  let normal := r1.normal
  let r2 := if RTIsIdentity then ext.shapeIntersect convex2 Id shape tf2
            else ext.shapeIntersect convex2 tf1 shape tf2
  let collision2 := r2.collision
  let distance_lower_bound2 := r2.distance_lower_bound
  let contact_point2 := r2.contact_point
  let normal2 := r2.normal
  if collision1 && collision2 then
    if distance_lower_bound ≠ -FCL_REAL_max ∧ distance_lower_bound2 ≠ -FCL_REAL_max then
      if distance_lower_bound > distance_lower_bound2 then
        { collision := true, distance_lower_bound := distance_lower_bound2,
          contact_point := contact_point2, normal := normal2 }
      else
        { collision := true, distance_lower_bound := distance_lower_bound,
          contact_point := contact_point, normal := normal }
    else if distance_lower_bound2 ≠ -FCL_REAL_max then
      { collision := true, distance_lower_bound := distance_lower_bound2,
        contact_point := contact_point2, normal := normal2 }
    else
      { collision := true, distance_lower_bound := distance_lower_bound,
        contact_point := contact_point, normal := normal }
  else if collision1 then
    { collision := true, distance_lower_bound := distance_lower_bound,
      contact_point := contact_point, normal := normal }
  else if collision2 then
    { collision := true, distance_lower_bound := distance_lower_bound2,
      contact_point := contact_point2, normal := normal2 }
  else
    { collision := false, distance_lower_bound := distance_lower_bound,
      contact_point := contact_point, normal := normal }

end details

/-- The conversion `(int)b` of an `unsigned int` (32 bits, two's complement). -/
def int_of_unsigned (b : Nat) : Int :=
  let m : Nat := b % 2 ^ 32
  if m < 2 ^ 31 then Int.ofNat m else Int.ofNat m - 2 ^ 32

/-- Modelled from the spec: the contact record `Contact` is declared in
`collision_data.h`, which is missing here. It stores the two objects, the two
primitive ids, the two witness points, the normal and the signed distance, as
passed to its constructor `Contact(o1, o2, b1, b2, p1, p2, normal, depth)`. -/
structure Contact (S : Type) where
  o1 : HeightField
  o2 : S
  b1 : Int
  b2 : Int
  p1 : Vec3f
  p2 : Vec3f
  normal : Vec3f
  penetration_depth : FCL_REAL

/-- Modelled from the spec: the constant `Contact::NONE` is declared in
`collision_data.h`, which is missing here; it is the id that stands for no primitive. -/
def Contact.NONE : Int := -1

/-- The fields of `CollisionRequest` the leaf test reads. -/
structure CollisionRequest where
  num_max_contacts : Nat
  security_margin : FCL_REAL
  collision_distance_threshold : FCL_REAL
deriving DecidableEq, Repr

/-- Modelled from the spec: the accumulator `CollisionResult` is declared in
`collision_data.h`, which is missing here. It owns the contact records, in the
order they were added, and the running distance lower bound with its nearest points. -/
structure CollisionResult (S : Type) where
  contacts : List (Contact S)
  distance_lower_bound : FCL_REAL
  nearest_points : Vec3f × Vec3f

namespace CollisionResult

/-- Modelled from the spec: `CollisionResult::numContacts()`, the number of contacts
found (contactCount of the accumulator). -/
def numContacts {S : Type} (r : CollisionResult S) : Nat := r.contacts.length

/-- Modelled from the spec: `CollisionResult::addContact`, which appends one contact. -/
def addContact {S : Type} (r : CollisionResult S) (c : Contact S) : CollisionResult S :=
  { r with contacts := r.contacts ++ [c] }

/-- Modelled from the spec: `CollisionResult::isCollision()`, whether a contact was
found. -/
def isCollision {S : Type} (r : CollisionResult S) : Bool := decide (0 < r.contacts.length)

end CollisionResult

namespace internal

/-- Modelled from the spec: `internal::updateDistanceLowerBoundFromLeaf` is defined
in `collision_data.h`, which is missing here. It lowers the running distance lower
bound of the result, and records the two points with it, when the given distance is
smaller; it does not touch the contacts. -/
def updateDistanceLowerBoundFromLeaf {S : Type} (_request : CollisionRequest)
    (res : CollisionResult S) (distance : FCL_REAL) (p0 p1 : Vec3f) : CollisionResult S :=
  if distance < res.distance_lower_bound then
    { res with distance_lower_bound := distance, nearest_points := (p0, p1) }
  else res

end internal

/-- The state of `HeightFieldShapeCollisionTraversalNode<BV, S, _Options>`: the
request and the result it points to, the poses, the two models and the counters. -/
structure HeightFieldShapeCollisionTraversalNode (S : Type) where
  request : CollisionRequest
  result : CollisionResult S
  enable_statistics : Bool
  tf1 : Transform3f
  tf2 : Transform3f
  model1 : HeightField
  model2 : S
  num_bv_tests : Int
  num_leaf_tests : Int
  count : Int

namespace HeightFieldShapeCollisionTraversalNode

/-- The local `distToCollision` of `leafCollides`. -/
def distToCollision (request : CollisionRequest) (m : details.ShapeDistanceResult) : FCL_REAL :=
  m.distance - request.security_margin * (m.normal_top.dot m.normal)

/-- The contact `leafCollides` builds from the merged outcome. -/
def leafContact {S : Type} (self : HeightFieldShapeCollisionTraversalNode S) (b1 : Nat)
    (m : details.ShapeDistanceResult) : Contact S :=
  { o1 := self.model1, o2 := self.model2, b1 := int_of_unsigned b1, b2 := Contact.NONE,
    p1 := m.c1, p2 := m.c2, normal := m.normal, penetration_depth := m.distance }

/-- Intersection test between a leaf of the height field and the shape
(`leafCollides`). Returns the node after the call and `sqrDistLowerBound`. -/
def leafCollides {S : Type} (ext : External S) (RTIsIdentity : Bool)
    (normal2_indeterminate : Vec3f) (self : HeightFieldShapeCollisionTraversalNode S)
    (b1 : Nat) : Except Abort (HeightFieldShapeCollisionTraversalNode S × FCL_REAL) :=
  let count := self.count + 1
  let num_leaf_tests := if self.enable_statistics then self.num_leaf_tests + 1
                        else self.num_leaf_tests
  let node := self.model1.getBV b1
  match details.buildConvexTriangles ext node self.model1 with
  | .error e => .error e
  | .ok (convex1, convex2) =>
    match details.shapeDistance ext RTIsIdentity convex1 convex2 self.tf1 self.model2 self.tf2
        normal2_indeterminate with
    | .error e => .error e
    | .ok m =>
      let distToCollision := distToCollision self.request m
      let tested : Except Abort (CollisionResult S × FCL_REAL) :=
        if distToCollision ≤ self.request.collision_distance_threshold then
          if self.result.numContacts < self.request.num_max_contacts then
            if ext.isApprox m.normal_top m.normal &&
                (m.collision || !m.hfield_witness_is_on_bin_side) then
              let result := self.result.addContact (leafContact self b1 m)
              if ext.NDEBUG || result.isCollision then .ok (result, 0)
              else .error Abort.result_is_not_in_collision
            else .ok (self.result, 0)
          else .ok (self.result, 0)
        else .ok (self.result, distToCollision * distToCollision)
      match tested with
      | .error e => .error e
      | .ok (result, sqrDistLowerBound) =>
        let result := internal.updateDistanceLowerBoundFromLeaf self.request result
          distToCollision m.c1 m.c2
        if ext.NDEBUG || (result.isCollision || decide (sqrDistLowerBound > 0)) then
          .ok ({ self with result := result, count := count, num_leaf_tests := num_leaf_tests },
               sqrDistLowerBound)
        else .error Abort.no_collision_and_no_positive_lower_bound

end HeightFieldShapeCollisionTraversalNode

/-- The field of `DistanceResult` the early-stop predicate reads. -/
structure DistanceResult where
  min_distance : FCL_REAL
deriving DecidableEq, Repr

/-- The state of `HeightFieldShapeDistanceTraversalNode<BV, S, _Options>`. -/
structure HeightFieldShapeDistanceTraversalNode (S : Type) where
  result : DistanceResult
  rel_err : FCL_REAL
  abs_err : FCL_REAL
  enable_statistics : Bool
  tf1 : Transform3f
  tf2 : Transform3f
  model1 : HeightField
  model2 : S
  num_bv_tests : Int
  num_leaf_tests : Int

namespace HeightFieldShapeDistanceTraversalNode

/-- Whether the traversal can stop early (`canStop`). -/
def canStop {S : Type} (self : HeightFieldShapeDistanceTraversalNode S) (c : FCL_REAL) : Bool :=
  if decide (c ≥ self.result.min_distance - self.abs_err) &&
      decide (c * (1 + self.rel_err) ≥ self.result.min_distance) then
    true
  else
    false

end HeightFieldShapeDistanceTraversalNode

/-- Modelled from the spec: `ContactPatchRequest` is declared in `collision_data.h`,
which is missing here. It has the public field `max_num_patch` and two protected
fields, the number of samples for curved shapes and the patch tolerance, read and
written through their accessors. -/
structure ContactPatchRequest where
  max_num_patch : Nat
  m_num_samples_curved_shapes : Nat
  m_patch_tolerance : FCL_REAL
deriving DecidableEq, Repr

namespace ContactPatchRequest

/-- Modelled from the spec: `getNumSamplesCurvedShapes()`, see `ContactPatchRequest`. -/
def getNumSamplesCurvedShapes (r : ContactPatchRequest) : Nat := r.m_num_samples_curved_shapes

/-- Modelled from the spec: `getPatchTolerance()`, see `ContactPatchRequest`. -/
def getPatchTolerance (r : ContactPatchRequest) : FCL_REAL := r.m_patch_tolerance

/-- Modelled from the spec: `setNumSamplesCurvedShapes`, see `ContactPatchRequest`;
it stores the number, raised to 3 when it is smaller. -/
def setNumSamplesCurvedShapes (r : ContactPatchRequest) (num_samples_curved_shapes : Nat) :
    ContactPatchRequest :=
  if num_samples_curved_shapes < 3 then { r with m_num_samples_curved_shapes := 3 }
  else { r with m_num_samples_curved_shapes := num_samples_curved_shapes }

/-- Modelled from the spec: `setPatchTolerance`, see `ContactPatchRequest`; it
stores the tolerance, replaced by Eigen's `dummy_precision()` (`1e-12`) when it is
negative. -/
def setPatchTolerance (r : ContactPatchRequest) (patch_tolerance : FCL_REAL) :
    ContactPatchRequest :=
  if patch_tolerance < 0 then { r with m_patch_tolerance := 1 / 10 ^ 12 }
  else { r with m_patch_tolerance := patch_tolerance }

/-- Modelled from the spec: the default-constructed request, see `ContactPatchRequest`:
one patch, 12 samples, tolerance `1e-3`. -/
def default : ContactPatchRequest :=
  { max_num_patch := 1, m_num_samples_curved_shapes := 12, m_patch_tolerance := 1 / 1000 }

end ContactPatchRequest

namespace boost.serialization

/-- An archive of the serialization library: whether it loads
(`Archive::is_loading`) and the named values it holds, in the order they were
written. Every value `serialize(Archive&, ContactPatchRequest&, unsigned int)` archives
is a `size_t`. -/
structure Archive where
  is_loading : Bool
  items : List (String × Nat)
deriving DecidableEq, Repr

/-- The operation `ar & make_nvp(name, x)` on a `size_t` variable `x`: a saving
archive appends the value of `x` under `name` and leaves `x`; a loading archive reads
its next value into `x`, and fails when no value is left. Returns the archive and `x`
after the operation. -/
def Archive.nvp (ar : Archive) (name : String) (x : Nat) : Option (Archive × Nat) :=
  if ar.is_loading then
    match ar.items with
    | [] => none
    | (_, v) :: rest => some ({ ar with items := rest }, v)
  else
    some ({ ar with items := ar.items ++ [(name, x)] }, x)

/-- Saving or loading of a contact patch request
(`serialize(Archive&, ContactPatchRequest&, unsigned int)`). Returns the archive and
the request after the call. -/
def serialize (ar : Archive) (request : ContactPatchRequest) :
    Option (Archive × ContactPatchRequest) :=
  match ar.nvp "max_num_patch" request.max_num_patch with
  | none => none
  | some (ar, max_num_patch) =>
    let request := { request with max_num_patch := max_num_patch }
    let num_samples_curved_shapes := request.getNumSamplesCurvedShapes
    let patch_tolerance := request.getPatchTolerance
    match ar.nvp "num_samples_curved_shapes" num_samples_curved_shapes with
    | none => none
    | some (ar, num_samples_curved_shapes) =>
      match ar.nvp "patch_tolerance" num_samples_curved_shapes with
      | none => none
      | some (ar, num_samples_curved_shapes) =>
        if ar.is_loading then
          some (ar, (request.setNumSamplesCurvedShapes num_samples_curved_shapes).setPatchTolerance
            patch_tolerance)
        else
          some (ar, request)

end boost.serialization

/-! ## Notions used to state the properties -/

namespace details

/-- The answer of the solver for one prism: queried with the identity pose when
`RTIsIdentity` holds, with `tf1` otherwise. -/
def prismQuery {S : Type} (ext : External S) (RTIsIdentity : Bool) (convex : Convex Triangle)
    (tf1 : Transform3f) (shape : S) (tf2 : Transform3f) : SolverDistance :=
  if RTIsIdentity then ext.shapeDistance convex Transform3f.Id shape tf2
  else ext.shapeDistance convex tf1 shape tf2

/-- The outcome of the first prism in `shapeDistance`: the solver answer after
`binCorrection`. -/
def prism1Outcome {S : Type} (ext : External S) (RTIsIdentity : Bool)
    (convex1 : Convex Triangle) (tf1 : Transform3f) (shape : S) (tf2 : Transform3f) :
    Except Abort BinCorrected :=
  let s1 := prismQuery ext RTIsIdentity convex1 tf1 shape tf2
  binCorrection ext convex1 shape tf2 s1.distance s1.p1 s1.p2 s1.normal (decide (s1.distance < 0))

/-- The outcome of the second prism in `shapeDistance`: the solver answer after
`binCorrection`, which starts from the solver normal in the general path and from the
unwritten local `normal2` in the identity path. -/
def prism2Outcome {S : Type} (ext : External S) (RTIsIdentity : Bool)
    (convex2 : Convex Triangle) (tf1 : Transform3f) (shape : S) (tf2 : Transform3f)
    (normal2_indeterminate : Vec3f) : Except Abort BinCorrected :=
  let s2 := prismQuery ext RTIsIdentity convex2 tf1 shape tf2
  binCorrection ext convex2 shape tf2 s2.distance s2.p1 s2.p2
    (if RTIsIdentity then normal2_indeterminate else s2.normal) (decide (s2.distance < 0))

/-- All six merged outputs of `shapeDistance` are those of the prism outcome `o`. -/
def takenFrom (m : ShapeDistanceResult) (o : BinCorrected) : Prop :=
  m.distance = o.distance ∧ m.c1 = o.contact_1 ∧ m.c2 = o.contact_2 ∧ m.normal = o.normal ∧
    m.normal_top = o.normal_top ∧
    m.hfield_witness_is_on_bin_side = o.hfield_witness_is_on_bin_side

instance (m : ShapeDistanceResult) (o : BinCorrected) : Decidable (takenFrom m o) := by
  unfold takenFrom; infer_instance

/-- The point `(x, y)` of the plane lies in the triangle spanned by the vertical
projections of `a`, `b` and `c`: it is a convex combination of them. -/
def inTriangleXY (a b c : Vec3f) (x y : FCL_REAL) : Prop :=
  ∃ u v w : FCL_REAL, 0 ≤ u ∧ 0 ≤ v ∧ 0 ≤ w ∧ u + v + w = 1 ∧
    x = u * a.x + v * b.x + w * c.x ∧ y = u * a.y + v * b.y + w * c.y

/-- The point `(x, y)` lies in the interior of that triangle: all weights positive. -/
def insideTriangleXY (a b c : Vec3f) (x y : FCL_REAL) : Prop :=
  ∃ u v w : FCL_REAL, 0 < u ∧ 0 < v ∧ 0 < w ∧ u + v + w = 1 ∧
    x = u * a.x + v * b.x + w * c.x ∧ y = u * a.y + v * b.y + w * c.y

/-- The three points of polygon `k` of a convex, in the order of its indices. -/
def polygonPoints (convex : Convex Triangle) (k : Nat) : Option (Vec3f × Vec3f × Vec3f) :=
  match convex.polygons[k]? with
  | none => none
  | some t =>
    match convex.points[t.v0]?, convex.points[t.v1]?, convex.points[t.v2]? with
    | some a, some b, some c => some (a, b, c)
    | _, _, _ => none

/-- The xy-footprint of a prism: the triangle of the three base vertices, those of
its bottom cap (polygon 0). -/
def footprint (convex : Convex Triangle) (x y : FCL_REAL) : Prop :=
  ∃ a b c, polygonPoints convex 0 = some (a, b, c) ∧ inTriangleXY a b c x y

/-- The interior of the xy-footprint of a prism. -/
def footprintInterior (convex : Convex Triangle) (x y : FCL_REAL) : Prop :=
  ∃ a b c, polygonPoints convex 0 = some (a, b, c) ∧ insideTriangleXY a b c x y

/-- The point `P` lies on the top triangle of a prism (polygon 1, the one
`binCorrection` reads): it is a convex combination of its three vertices. -/
def onTopTriangle (convex : Convex Triangle) (P : Vec3f) : Prop :=
  ∃ a b c, polygonPoints convex 1 = some (a, b, c) ∧
    ∃ u v w : FCL_REAL, 0 ≤ u ∧ 0 ≤ v ∧ 0 ≤ w ∧ u + v + w = 1 ∧
      P = u * a + v * b + w * c

/-- Weighted sum of points. -/
def combination : List FCL_REAL → List Vec3f → Vec3f
  | w :: ws, p :: ps => w * p + combination ws ps
  | _, _ => Vec3f.zero

/-- The point `Q` lies in the convex hull of the points of a convex, the solid the
convex stands for. -/
def inSolid (convex : Convex Triangle) (Q : Vec3f) : Prop :=
  ∃ ws : List FCL_REAL, ws.length = convex.points.length ∧ (∀ w ∈ ws, 0 ≤ w) ∧ ws.sum = 1 ∧
    Q = combination ws convex.points

/-- The `normal_top` that `binCorrection` computes from the top triangle `(A, B, C)`:
the normalised cross product of the edge vectors, sign-flipped when its vertical
component is negative. -/
def topNormal {S : Type} (ext : External S) (A B C : Vec3f) : Vec3f :=
  if (ext.normalized ((B - A).cross (C - A))).z < 0 then
    (-1 : FCL_REAL) * ext.normalized ((B - A).cross (C - A))
  else ext.normalized ((B - A).cross (C - A))

/-- The support point of the shape in the world frame that `binCorrection` computes
for the direction opposite to `normal_top`. -/
def worldSupport {S : Type} (ext : External S) (shape : S) (shape_pose : Transform3f)
    (normal_top : Vec3f) : Vec3f :=
  shape_pose.rotation.mulVec
      (ext.getSupport shape (-(shape_pose.rotation.transpose.mulVec normal_top))) +
    shape_pose.translation

/-- The value `distance_support_projection_plane` of `binCorrection`: the signed
distance of the support point to the plane built from `normal_top` and the point `A`. -/
def supportPlaneDistance {S : Type} (ext : External S) (shape : S) (shape_pose : Transform3f)
    (normal_top A : Vec3f) : FCL_REAL :=
  (Plane.make ext.norm normal_top (normal_top.dot A)).signedDistance
    (worldSupport ext shape shape_pose normal_top)

/-- The answer of the solver's intersection query for one prism, as `shapeCollision`
asks it: with the identity pose when `RTIsIdentity` holds, with `tf1` otherwise. -/
def prismIntersect {S : Type} (ext : External S) (RTIsIdentity : Bool)
    (convex : Convex Triangle) (tf1 : Transform3f) (shape : S) (tf2 : Transform3f) :
    SolverIntersect :=
  if RTIsIdentity then ext.shapeIntersect convex Transform3f.Id shape tf2
  else ext.shapeIntersect convex tf1 shape tf2

/-- The state after `shapeCollision` when it returns `collision` and its three output
parameters hold what the solver wrote for one prism. -/
def outputsOf (collision : Bool) (r : SolverIntersect) : ShapeCollisionResult :=
  { collision := collision, distance_lower_bound := r.distance_lower_bound,
    contact_point := r.contact_point, normal := r.normal }

/-- The squared Euclidean distance of two points. -/
def squaredDistance (p q : Vec3f) : FCL_REAL :=
  (p.x - q.x) * (p.x - q.x) + (p.y - q.y) * (p.y - q.y) + (p.z - q.z) * (p.z - q.z)

/-- The point over the centre of the cell of a node, at height `z`. -/
def cellCentre (node : HFNode) (model : HeightField) (z : FCL_REAL) : Vec3f :=
  ⟨(model.x_grid node.x_id + model.x_grid (node.x_id + 1)) / 2,
    (model.y_grid node.y_id + model.y_grid (node.y_id + 1)) / 2, z⟩

/-- The three directed edges of a triangle, in the order of its winding. -/
def triangleEdges (t : Triangle) : List (Nat × Nat) :=
  [(t.v0, t.v1), (t.v1, t.v2), (t.v2, t.v0)]

/-- The directed edges of a list of triangles. -/
def directedEdges (polygons : List Triangle) : List (Nat × Nat) :=
  (polygons.map triangleEdges).flatten

/-- The triangles form a closed, consistently oriented surface: every directed edge
occurs once, and its reverse occurs once. -/
def closedSurface (polygons : List Triangle) : Bool :=
  (directedEdges polygons).all fun e =>
    (directedEdges polygons).count e == 1 && (directedEdges polygons).count (e.2, e.1) == 1

/-- The vertices of a triangle. -/
def triangleVertices (t : Triangle) : List Nat := [t.v0, t.v1, t.v2]

/-- The triangles of the vertical wall over the base edge `(a, b)` of a prism: those
whose vertices are all among `a`, `b` and the top vertices `a + 3`, `b + 3`. -/
def wallTriangles (polygons : List Triangle) (a b : Nat) : List Triangle :=
  polygons.filter fun t => (triangleVertices t).all fun v => [a, b, a + 3, b + 3].contains v

/-- The wall over the base edge `(a, b)` is split along one of its diagonals: it
has exactly two triangles, each with three distinct corners of the wall, and the two
corners they leave out are opposite (`a` and `b + 3`, or `b` and `a + 3`), so that
the triangles share the other diagonal and together cover the wall. -/
def wallSplit (polygons : List Triangle) (a b : Nat) : Bool :=
  match wallTriangles polygons a b with
  | [t1, t2] =>
    let left1 := [a, b, a + 3, b + 3].filter fun v => !(triangleVertices t1).contains v
    let left2 := [a, b, a + 3, b + 3].filter fun v => !(triangleVertices t2).contains v
    decide (triangleVertices t1).Nodup && decide (triangleVertices t2).Nodup &&
      ((left1 == [a] && left2 == [b + 3]) || (left1 == [b + 3] && left2 == [a]) ||
        (left1 == [b] && left2 == [a + 3]) || (left1 == [a + 3] && left2 == [b]))
  | _ => false

/-- The base corner of the cell of a node at grid offsets `(i, j)`, on the plane
`min_height`. -/
def baseCorner (node : HFNode) (model : HeightField) (ij : Nat × Nat) : Vec3f :=
  ⟨model.x_grid (node.x_id + ij.1), model.y_grid (node.y_id + ij.2), model.min_height⟩

/-- The top corner of the cell of a node at grid offsets `(i, j)`, at the sampled
height `heights(y_id + j, x_id + i)`. -/
def topCorner (node : HFNode) (model : HeightField) (ij : Nat × Nat) : Vec3f :=
  ⟨model.x_grid (node.x_id + ij.1), model.y_grid (node.y_id + ij.2),
    model.heights (node.y_id + ij.2) (node.x_id + ij.1)⟩

/-- The four directed edges of a quadrilateral, in the order of its winding. -/
def quadrilateralEdges (q : Quadrilateral) : List (Nat × Nat) :=
  [(q.v0, q.v1), (q.v1, q.v2), (q.v2, q.v3), (q.v3, q.v0)]

/-- The directed edges of a list of quadrilaterals. -/
def directedEdgesOfQuadrilaterals (polygons : List Quadrilateral) : List (Nat × Nat) :=
  (polygons.map quadrilateralEdges).flatten

/-- The number of faces that use the edge between the points `a` and `b`, in either
direction. -/
def facesOnEdge (polygons : List Quadrilateral) (a b : Nat) : Nat :=
  (polygons.filter fun q =>
    (quadrilateralEdges q).contains (a, b) || (quadrilateralEdges q).contains (b, a)).length

/-- The quadrilaterals form a closed, consistently oriented surface: every directed
edge occurs once, its reverse occurs once, and the edge is used by two faces. -/
def closedQuadrilateralSurface (polygons : List Quadrilateral) : Bool :=
  (directedEdgesOfQuadrilaterals polygons).all fun e =>
    (directedEdgesOfQuadrilaterals polygons).count e == 1 &&
      (directedEdgesOfQuadrilaterals polygons).count (e.2, e.1) == 1 &&
      facesOnEdge polygons e.1 e.2 == 2

/-- The mean of a list of points. -/
def centroid (points : List Vec3f) : Vec3f :=
  (1 / (points.length : FCL_REAL)) * points.foldr (fun p acc => p + acc) Vec3f.zero

/-- The normal `(p_j - p_i) x (p_k - p_i)` of a triangle given by its three points. -/
def faceNormal (pi pj pk : Vec3f) : Vec3f := (pj - pi).cross (pk - pi)

/-- The triangle `t` of a convex is wound outward: its normal is not zero and has a
positive dot product with the vector from the centroid of the points to its first
vertex. -/
def outwardFace (convex : Convex Triangle) (t : Triangle) : Prop :=
  match convex.points[t.v0]?, convex.points[t.v1]?, convex.points[t.v2]? with
  | some pi, some pj, some pk =>
    faceNormal pi pj pk ≠ Vec3f.zero ∧
      0 < (faceNormal pi pj pk).dot (pi - centroid convex.points)
  | _, _, _ => False

/-- The first normalised coordinate of `x` in the cell of a node: 0 at `x0`, 1 at `x1`. -/
def cellS (node : HFNode) (model : HeightField) (x : FCL_REAL) : FCL_REAL :=
  (x - model.x_grid node.x_id) / (model.x_grid (node.x_id + 1) - model.x_grid node.x_id)

/-- The second normalised coordinate of `y` in the cell of a node: 0 at `y0`, 1 at `y1`. -/
def cellT (node : HFNode) (model : HeightField) (y : FCL_REAL) : FCL_REAL :=
  (y - model.y_grid node.y_id) / (model.y_grid (node.y_id + 1) - model.y_grid node.y_id)

/-- How far the four corner heights of the cell of a node are from lying in one
plane: `h(x0, y0) - h(x1, y0) - h(x0, y1) + h(x1, y1)`. -/
def twist (node : HFNode) (model : HeightField) : FCL_REAL :=
  model.heights node.y_id node.x_id - model.heights node.y_id (node.x_id + 1) -
    model.heights (node.y_id + 1) node.x_id + model.heights (node.y_id + 1) (node.x_id + 1)

/-- Bilinear interpolation at `(x, y)` of the four corner heights of the cell of a
node, `heights(y_id + i, x_id + j)` being the height at `(x_grid[x_id + j],
y_grid[y_id + i])`. -/
def bilinear (node : HFNode) (model : HeightField) (x y : FCL_REAL) : FCL_REAL :=
  let x0 := model.x_grid node.x_id
  let x1 := model.x_grid (node.x_id + 1)
  let y0 := model.y_grid node.y_id
  let y1 := model.y_grid (node.y_id + 1)
  let s := (x - x0) / (x1 - x0)
  let t := (y - y0) / (y1 - y0)
  model.heights node.y_id node.x_id * (1 - s) * (1 - t) +
    model.heights node.y_id (node.x_id + 1) * s * (1 - t) +
    model.heights (node.y_id + 1) node.x_id * (1 - s) * t +
    model.heights (node.y_id + 1) (node.x_id + 1) * s * t

end details

/-- The point `x` lies on the plane `n . x = d`. -/
def Plane.contains (p : Plane) (x : Vec3f) : Prop := p.n.dot x = p.d

instance (p : Plane) (x : Vec3f) : Decidable (p.contains x) := by
  unfold Plane.contains; infer_instance

/-- The point `x` lies in the half-space `n . x <= d`. -/
def Halfspace.contains (h : Halfspace) (x : Vec3f) : Prop := h.n.dot x ≤ h.d

instance (h : Halfspace) (x : Vec3f) : Decidable (h.contains x) := by
  unfold Halfspace.contains; infer_instance

namespace boost.serialization

/-- The archive obtained by saving a request into an empty archive. -/
def save (r : ContactPatchRequest) : Option Archive :=
  (serialize { is_loading := false, items := [] } r).map fun p => p.1

/-- The request obtained by loading an archive into a default-constructed request. -/
def load (ar : Archive) : Option ContactPatchRequest :=
  (serialize { ar with is_loading := true } ContactPatchRequest.default).map fun p => p.2

/-- Saving a request, then loading the archive into a default-constructed request. -/
def roundTrip (r : ContactPatchRequest) : Option ContactPatchRequest :=
  (save r).bind load

end boost.serialization

namespace HeightFieldShapeCollisionTraversalNode

/-- The node after a leaf test that returned: the result as given, the counters
advanced as `leafCollides` advances them. -/
def afterLeaf {S : Type} (self : HeightFieldShapeCollisionTraversalNode S)
    (result : CollisionResult S) : HeightFieldShapeCollisionTraversalNode S :=
  { self with
    result := result
    count := self.count + 1
    num_leaf_tests := if self.enable_statistics then self.num_leaf_tests + 1
                      else self.num_leaf_tests }

/-- The condition under which `leafCollides` adds a contact, given the merged
outcome `m`. -/
def contactGuard {S : Type} (ext : External S) (self : HeightFieldShapeCollisionTraversalNode S)
    (m : details.ShapeDistanceResult) : Prop :=
  distToCollision self.request m ≤ self.request.collision_distance_threshold ∧
    self.result.numContacts < self.request.num_max_contacts ∧
    ext.isApprox m.normal_top m.normal = true ∧
    (m.collision = true ∨ m.hfield_witness_is_on_bin_side = false)

instance {S : Type} (ext : External S) (self : HeightFieldShapeCollisionTraversalNode S)
    (m : details.ShapeDistanceResult) : Decidable (contactGuard ext self m) := by
  unfold contactGuard; infer_instance

/-- A sequence of leaf tests on the nodes `bs`, each with its own content of the
unwritten local of the merge; it stops at the first call that does not return. -/
def leafCollidesAll {S : Type} (ext : External S) (RTIsIdentity : Bool) :
    HeightFieldShapeCollisionTraversalNode S → List (Nat × Vec3f) →
      Except Abort (HeightFieldShapeCollisionTraversalNode S)
  | self, [] => .ok self
  | self, (b1, n2) :: bs =>
    match leafCollides ext RTIsIdentity n2 self b1 with
    | .error e => .error e
    | .ok (self', _) => leafCollidesAll ext RTIsIdentity self' bs

end HeightFieldShapeCollisionTraversalNode

/-! ## Example data -/

namespace Examples

/-- A ball, given by its radius; its centre is the translation of its pose. -/
structure Ball where
  radius : FCL_REAL
deriving DecidableEq, Repr

/-- The sum of the absolute values of the coordinates. It is the Euclidean norm of
every vector parallel to a coordinate axis, the only vectors the examples measure. -/
def norm1 (v : Vec3f) : FCL_REAL := |v.x| + |v.y| + |v.z|

/-- Scaling to `norm1` one; exact normalisation of vectors parallel to an axis. -/
def normalized1 (v : Vec3f) : Vec3f := if norm1 v > 0 then (1 / norm1 v) * v else v

/-- Barycentric coordinates of the vertical projection of `p` on the triangle
`(a, b, c)`: the parameters of the projection on a horizontal triangle of a point
above or below it. -/
def barycentric (a b c p : Vec3f) : FCL_REAL × FCL_REAL × FCL_REAL :=
  let det := (b.x - a.x) * (c.y - a.y) - (c.x - a.x) * (b.y - a.y)
  let u := ((p.x - a.x) * (c.y - a.y) - (c.x - a.x) * (p.y - a.y)) / det
  let v := ((b.x - a.x) * (p.y - a.y) - (p.x - a.x) * (b.y - a.y)) / det
  (1 - u - v, u, v)

/-- A height field whose cells are 3 wide and 4 deep, with corner heights `h`,
base plane at -1, and whose nodes all describe cell (0, 0). -/
def fieldOf (h : Nat → Nat → FCL_REAL) (max_height : FCL_REAL) : HeightField :=
  { heights := h
    x_grid := fun i => 3 * (i : FCL_REAL)
    y_grid := fun i => 4 * (i : FCL_REAL)
    min_height := -1
    getBV := fun _ => { x_id := 0, y_id := 0, max_height := max_height } }

/-- The flat field at height 0. -/
def flatField : HeightField := fieldOf (fun _ _ => 0) 0

/-- The two prisms of cell (0, 0) of the flat field. -/
def flatPrism1 : Convex Triangle :=
  { points := [⟨0, 0, -1⟩, ⟨0, 4, -1⟩, ⟨3, 0, -1⟩, ⟨0, 0, 0⟩, ⟨0, 4, 0⟩, ⟨3, 0, 0⟩]
    num_points := 6
    polygons := [⟨0, 1, 2⟩, ⟨3, 5, 4⟩, ⟨0, 3, 1⟩, ⟨3, 4, 1⟩,
                 ⟨1, 5, 2⟩, ⟨1, 4, 5⟩, ⟨0, 2, 5⟩, ⟨5, 3, 0⟩]
    num_polygons := 8 }

def flatPrism2 : Convex Triangle :=
  { points := [⟨0, 4, -1⟩, ⟨3, 4, -1⟩, ⟨3, 0, -1⟩, ⟨0, 4, 0⟩, ⟨3, 4, 0⟩, ⟨3, 0, 0⟩]
    num_points := 6
    polygons := [⟨2, 0, 1⟩, ⟨3, 5, 4⟩, ⟨0, 3, 1⟩, ⟨3, 4, 1⟩,
                 ⟨0, 2, 5⟩, ⟨0, 5, 3⟩, ⟨1, 5, 2⟩, ⟨4, 2, 1⟩]
    num_polygons := 8 }

/-- The pose of a ball centred at `(1, 1, h)`, above the inside of the first prism. -/
def ballPose (h : FCL_REAL) : Transform3f := ⟨Matrix3f.identity, ⟨1, 1, h⟩⟩

/-- The distance answers for a ball of radius 1/2 over the flat cell `[0,3] x [0,4]`,
as a function of the height `h` of its centre `(1, 1, h)`. Over the first prism the
closest points are on the vertical through the centre. The closest point of the
second prism is `(9/5, 8/5, 0)`, at horizontal distance 1 from the centre; the
answer for it is exact at `h = 3/4` (distance `5/4 - 1/2`) and keeps that gap
above the first answer for the other heights. -/
def ballAnswers (h : FCL_REAL) (convex : Convex Triangle) : SolverDistance :=
  if convex = flatPrism1 then
    { distance := h - 1 / 2, p1 := ⟨1, 1, 0⟩, p2 := ⟨1, 1, h - 1 / 2⟩, normal := ⟨0, 0, 1⟩ }
  else
    { distance := h, p1 := ⟨9 / 5, 8 / 5, 0⟩, p2 := ⟨33 / 25, 31 / 25, 9 / 20⟩,
      normal := ⟨-16 / 25, -12 / 25, 3 / 5⟩ }

/-- The collaborators of the ball examples. -/
def ballExt : External Ball :=
  { NDEBUG := false
    normalized := normalized1
    norm := norm1
    isApprox := fun a b => decide (a = b)
    isNaN := fun _ => false
    Project_projectTriangle := barycentric
    getSupport := fun s d => s.radius * normalized1 d
    shapeDistance := fun convex _ _ tf2 => ballAnswers tf2.translation.z convex
    shapeIntersect := fun convex _ _ tf2 =>
      { collision := decide ((ballAnswers tf2.translation.z convex).distance < 0)
        distance_lower_bound := (ballAnswers tf2.translation.z convex).distance
        contact_point := (ballAnswers tf2.translation.z convex).p1
        normal := (ballAnswers tf2.translation.z convex).normal } }

/-- A collision node over the flat field and the ball of radius 1/2 centred at
`(1, 1, h)`, with an empty result. -/
def ballNode (request : CollisionRequest) (h : FCL_REAL) :
    HeightFieldShapeCollisionTraversalNode Ball :=
  { request := request
    result := { contacts := [], distance_lower_bound := 1000,
                nearest_points := (Vec3f.zero, Vec3f.zero) }
    enable_statistics := true
    tf1 := Transform3f.Id
    tf2 := ballPose h
    model1 := flatField
    model2 := ⟨1 / 2⟩
    num_bv_tests := 0
    num_leaf_tests := 0
    count := 0 }

/-- The merged outcome for the ball centred at height 3/4: no collision, distance
1/4 to the top of the first prism. -/
def mergedAbove : details.ShapeDistanceResult :=
  { collision := false, distance := 1 / 4, c1 := ⟨1, 1, 0⟩, c2 := ⟨1, 1, 1 / 4⟩,
    normal := ⟨0, 0, 1⟩, normal_top := ⟨0, 0, 1⟩, hfield_witness_is_on_bin_side := false }

/-- A request for at most one contact, without security margin, with the given
collision distance threshold. -/
def requestOne (threshold : FCL_REAL) : CollisionRequest :=
  { num_max_contacts := 1, security_margin := 0, collision_distance_threshold := threshold }

/-- The result of the leaf test on `ballNode (requestOne 0) (3 / 4)`: no contact. -/
def resultFar : CollisionResult Ball :=
  { contacts := [], distance_lower_bound := 1 / 4, nearest_points := (⟨1, 1, 0⟩, ⟨1, 1, 1 / 4⟩) }

/-- The result of the leaf test on `ballNode (requestOne (1 / 2)) (3 / 4)`: one contact. -/
def resultNear : CollisionResult Ball :=
  { contacts := [HeightFieldShapeCollisionTraversalNode.leafContact
      (ballNode (requestOne (1 / 2)) (3 / 4)) 0 mergedAbove]
    distance_lower_bound := 1 / 4
    nearest_points := (⟨1, 1, 0⟩, ⟨1, 1, 1 / 4⟩) }

/-- The field with height 1 at the corner `(x1, y1)` of cell (0, 0) and 0 elsewhere. -/
def bumpField : HeightField :=
  fieldOf (fun i j => if i = 1 ∧ j = 1 then 1 else 0) 1

/-- The two prisms of cell (0, 0) of `bumpField`. -/
def bumpPrism1 : Convex Triangle :=
  { points := [⟨0, 0, -1⟩, ⟨0, 4, -1⟩, ⟨3, 0, -1⟩, ⟨0, 0, 0⟩, ⟨0, 4, 0⟩, ⟨3, 0, 0⟩]
    num_points := 6
    polygons := [⟨0, 1, 2⟩, ⟨3, 5, 4⟩, ⟨0, 3, 1⟩, ⟨3, 4, 1⟩,
                 ⟨1, 5, 2⟩, ⟨1, 4, 5⟩, ⟨0, 2, 5⟩, ⟨5, 3, 0⟩]
    num_polygons := 8 }

def bumpPrism2 : Convex Triangle :=
  { points := [⟨0, 4, -1⟩, ⟨3, 4, -1⟩, ⟨3, 0, -1⟩, ⟨0, 4, 0⟩, ⟨3, 4, 1⟩, ⟨3, 0, 0⟩]
    num_points := 6
    polygons := [⟨2, 0, 1⟩, ⟨3, 5, 4⟩, ⟨0, 3, 1⟩, ⟨3, 4, 1⟩,
                 ⟨0, 2, 5⟩, ⟨0, 5, 3⟩, ⟨1, 5, 2⟩, ⟨4, 2, 1⟩]
    num_polygons := 8 }

/-- The collaborators of scenario A: a ball of radius 1/2 whose centre is at height
3/10 over the centre `(3/2, 2)` of cell (0, 0) of the flat field. The closest points
of either prism and of the ball are on the vertical through the centre, and the ball
enters the prisms by 1/5. -/
def scenarioAExt : External Ball :=
  { ballExt with
    shapeDistance := fun _ _ _ _ =>
      { distance := -1 / 5, p1 := ⟨3 / 2, 2, 0⟩, p2 := ⟨3 / 2, 2, -1 / 5⟩, normal := ⟨0, 0, 1⟩ } }

/-- The intersection answers for a ball of radius 1/2 that enters the first prism by
1/5, when the solver gives the unbounded value `-FCL_REAL_max` for the second prism. -/
def sentinelAnswers (convex : Convex Triangle) : SolverIntersect :=
  if convex = flatPrism1 then
    { collision := true, distance_lower_bound := -1 / 5, contact_point := ⟨1, 1, 0⟩,
      normal := ⟨0, 0, 1⟩ }
  else
    { collision := true, distance_lower_bound := -details.FCL_REAL_max,
      contact_point := ⟨9 / 5, 8 / 5, 0⟩, normal := ⟨-16 / 25, -12 / 25, 3 / 5⟩ }

/-- The collaborators of the ball examples with the answers `sentinelAnswers`. -/
def sentinelExt : External Ball :=
  { ballExt with shapeIntersect := fun convex _ _ _ => sentinelAnswers convex }

/-- The pose of a ball centred at `(2, 3, 3/4)`, above the inside of the second prism. -/
def mirrorPose : Transform3f := ⟨Matrix3f.identity, ⟨2, 3, 3 / 4⟩⟩

/-- The intersection answers for a ball of radius 1/2 centred at `(2, 3, 3/4)` over
the flat cell `[0,3] x [0,4]`. The ball is straight above the top of the second prism,
at distance `3/4 - 1/2`. The closest point of the first prism is `(6/5, 12/5, 0)` on
the diagonal, at horizontal distance 1 from the centre, hence at distance
`5/4 - 1/2` from the ball. Neither prism is touched. -/
def mirrorAnswers (convex : Convex Triangle) : SolverIntersect :=
  if convex = flatPrism1 then
    { collision := false, distance_lower_bound := 3 / 4, contact_point := ⟨6 / 5, 12 / 5, 0⟩,
      normal := ⟨16 / 25, 12 / 25, 3 / 5⟩ }
  else
    { collision := false, distance_lower_bound := 1 / 4, contact_point := ⟨2, 3, 0⟩,
      normal := ⟨0, 0, 1⟩ }

/-- The collaborators of the ball examples with the answers `mirrorAnswers`. -/
def mirrorExt : External Ball :=
  { ballExt with shapeIntersect := fun convex _ _ _ => mirrorAnswers convex }

/-- The pose of a ball centred at `(4, 2, -1/2)`, beside the wall `x = 3` of the flat
cell, at mid-height of the prisms. -/
def sidePose : Transform3f := ⟨Matrix3f.identity, ⟨4, 2, -1 / 2⟩⟩

/-- The distance answers for a ball of radius 1/2 centred at `(4, 2, -1/2)` beside the
flat cell `[0,3] x [0,4]`. The closest point of the second prism is `(3, 2, -1/2)` on
its wall `x = 3`, at distance 1 from the centre. The closest point of the first prism
is `(12/5, 4/5, -1/2)` on the diagonal wall, at distance 2 from the centre. -/
def sideAnswers (convex : Convex Triangle) : SolverDistance :=
  if convex = flatPrism1 then
    { distance := 3 / 2, p1 := ⟨12 / 5, 4 / 5, -1 / 2⟩, p2 := ⟨18 / 5, 17 / 10, -1 / 2⟩,
      normal := ⟨4 / 5, 3 / 5, 0⟩ }
  else
    { distance := 1 / 2, p1 := ⟨3, 2, -1 / 2⟩, p2 := ⟨7 / 2, 2, -1 / 2⟩, normal := ⟨1, 0, 0⟩ }

/-- The collaborators of the ball examples with the answers `sideAnswers`, in a build
with assertions. -/
def sideExt : External Ball :=
  { ballExt with shapeDistance := fun convex _ _ _ => sideAnswers convex }

/-- The collaborators `sideExt` in a build with `NDEBUG`. -/
def sideExtRelease : External Ball := { sideExt with NDEBUG := true }

/-- A collision node over the flat field and the ball of radius 1/2 centred at
`(4, 2, -1/2)`, with an empty result. -/
def sideNode (request : CollisionRequest) : HeightFieldShapeCollisionTraversalNode Ball :=
  { ballNode request 0 with tf2 := sidePose }

/-- The pose of a ball centred at `(3/2, 2, 1/2)`, resting on the flat cell at the
middle of the diagonal. -/
def restPose : Transform3f := ⟨Matrix3f.identity, ⟨3 / 2, 2, 1 / 2⟩⟩

/-- Distance answers for the ball of radius 1/2 resting on the flat cell at the middle
of the diagonal, from a solver that is exact on the first prism (distance 0) and errs
by 1/1000 on the second, for which it reports a penetration with a witness just under
the top edge. -/
def restAnswers (convex : Convex Triangle) : SolverDistance :=
  if convex = flatPrism1 then
    { distance := 0, p1 := ⟨3 / 2, 2, 0⟩, p2 := ⟨3 / 2, 2, 0⟩, normal := ⟨0, 0, 1⟩ }
  else
    { distance := -1 / 1000, p1 := ⟨3 / 2, 2, -1 / 1000⟩, p2 := ⟨3 / 2, 2, 0⟩,
      normal := ⟨0, 0, 1⟩ }

/-- The collaborators of the ball examples with the answers `restAnswers`. -/
def restExt : External Ball :=
  { ballExt with shapeDistance := fun convex _ _ _ => restAnswers convex }

/-- A request for 4 patches, 32 samples and the patch tolerance 1/100. -/
def patchRequest : ContactPatchRequest :=
  { max_num_patch := 4, m_num_samples_curved_shapes := 32, m_patch_tolerance := 1 / 100 }

/-- A distance node over the flat field with running minimum 1, absolute tolerance
1/4 and relative tolerance 1/3: both early-stop bounds meet at `c = 3/4`. -/
def distanceNode : HeightFieldShapeDistanceTraversalNode Ball :=
  { result := { min_distance := 1 }
    rel_err := 1 / 3
    abs_err := 1 / 4
    enable_statistics := false
    tf1 := Transform3f.Id
    tf2 := ballPose 2
    model1 := flatField
    model2 := ⟨1 / 2⟩
    num_bv_tests := 0
    num_leaf_tests := 0 }

end Examples

/-! ## Properties of the dual-prism merge -/

namespace details

/-- The merge of `shapeDistance` in terms of the two prism outcomes. -/
theorem shapeDistance_of_outcomes {S : Type} (ext : External S) (RTIsIdentity : Bool)
    (convex1 convex2 : Convex Triangle) (tf1 : Transform3f) (shape : S) (tf2 : Transform3f)
    (n2 : Vec3f) (o1 o2 : BinCorrected)
    (h1 : prism1Outcome ext RTIsIdentity convex1 tf1 shape tf2 = .ok o1)
    (h2 : prism2Outcome ext RTIsIdentity convex2 tf1 shape tf2 n2 = .ok o2) :
    shapeDistance ext RTIsIdentity convex1 convex2 tf1 shape tf2 n2 =
      .ok (if (prismQuery ext RTIsIdentity convex1 tf1 shape tf2).distance < 0 ∧
              (prismQuery ext RTIsIdentity convex2 tf1 shape tf2).distance < 0 then
            (if o1.distance > o2.distance then keep true o2 else keep true o1)
          else if (prismQuery ext RTIsIdentity convex1 tf1 shape tf2).distance < 0 then
            keep true o1
          else if (prismQuery ext RTIsIdentity convex2 tf1 shape tf2).distance < 0 then
            keep true o2
          else if o1.distance > o2.distance then keep false o2 else keep false o1) := by
  unfold prism1Outcome at h1
  unfold prism2Outcome at h2
  unfold prismQuery at h1 h2 ⊢
  unfold shapeDistance
  cases RTIsIdentity
  · simp only [Bool.false_eq_true, if_false] at h1 h2 ⊢
    simp only [h1, h2]
    split_ifs <;> simp_all
  · simp only [if_true] at h1 h2 ⊢
    simp only [h1, h2]
    split_ifs <;> simp_all

/-- C1. Signed-distance merge, general-pose path: when the two corrected distances
differ, all merged outputs (distance, both witness points, normal, normal_top,
bin-side flag) come from one and the same prism: the prism with the smaller corrected
distance if both raw distances are negative, the prism with the negative raw distance
if exactly one is, the prism with the smaller corrected distance if neither is. -/
theorem shapeDistance_merge_precedence {S : Type} (ext : External S)
    (convex1 convex2 : Convex Triangle) (tf1 : Transform3f) (shape : S) (tf2 : Transform3f)
    (n2 : Vec3f) (o1 o2 : BinCorrected)
    (h1 : prism1Outcome ext false convex1 tf1 shape tf2 = .ok o1)
    (h2 : prism2Outcome ext false convex2 tf1 shape tf2 n2 = .ok o2)
    (hne : o1.distance ≠ o2.distance) :
    ∃ m, shapeDistance ext false convex1 convex2 tf1 shape tf2 n2 = .ok m ∧
      (takenFrom m o1 ∨ takenFrom m o2) ∧
      ((ext.shapeDistance convex1 tf1 shape tf2).distance < 0 ∧
        (ext.shapeDistance convex2 tf1 shape tf2).distance < 0 →
          takenFrom m (if o1.distance < o2.distance then o1 else o2)) ∧
      ((ext.shapeDistance convex1 tf1 shape tf2).distance < 0 ∧
        ¬ (ext.shapeDistance convex2 tf1 shape tf2).distance < 0 → takenFrom m o1) ∧
      (¬ (ext.shapeDistance convex1 tf1 shape tf2).distance < 0 ∧
        (ext.shapeDistance convex2 tf1 shape tf2).distance < 0 → takenFrom m o2) ∧
      (¬ (ext.shapeDistance convex1 tf1 shape tf2).distance < 0 ∧
        ¬ (ext.shapeDistance convex2 tf1 shape tf2).distance < 0 →
          takenFrom m (if o1.distance < o2.distance then o1 else o2)) := by
  refine ⟨_, shapeDistance_of_outcomes ext false convex1 convex2 tf1 shape tf2 n2 o1 o2 h1 h2, ?_⟩
  have hq1 : prismQuery ext false convex1 tf1 shape tf2 = ext.shapeDistance convex1 tf1 shape tf2 :=
    by simp [prismQuery]
  have hq2 : prismQuery ext false convex2 tf1 shape tf2 = ext.shapeDistance convex2 tf1 shape tf2 :=
    by simp [prismQuery]
  rw [hq1, hq2]
  have hlt : o1.distance < o2.distance ∨ o2.distance < o1.distance := lt_or_gt_of_ne hne
  by_cases c1 : (ext.shapeDistance convex1 tf1 shape tf2).distance < 0 <;>
    by_cases c2 : (ext.shapeDistance convex2 tf1 shape tf2).distance < 0 <;>
    rcases hlt with hlt | hlt <;>
    simp [c1, c2, hlt, not_lt_of_gt hlt, takenFrom, keep]

/-- C1, at the ball of radius 1/2 centred at height 3/4 over the flat cell: neither
prism collides and the merge keeps the first prism, at distance 1/4. -/
theorem shapeDistance_merge_precedence_witness :
    ∃ m, shapeDistance Examples.ballExt false Examples.flatPrism1 Examples.flatPrism2
        Transform3f.Id ⟨1 / 2⟩ (Examples.ballPose (3 / 4)) Vec3f.zero = .ok m ∧
      takenFrom m ⟨1 / 4, ⟨1, 1, 0⟩, ⟨1, 1, 1 / 4⟩, ⟨0, 0, 1⟩, ⟨0, 0, 1⟩, false, false⟩ := by
  obtain ⟨m, hm, -, -, -, -, h⟩ :=
    shapeDistance_merge_precedence Examples.ballExt Examples.flatPrism1 Examples.flatPrism2
      Transform3f.Id ⟨1 / 2⟩ (Examples.ballPose (3 / 4)) Vec3f.zero
      ⟨1 / 4, ⟨1, 1, 0⟩, ⟨1, 1, 1 / 4⟩, ⟨0, 0, 1⟩, ⟨0, 0, 1⟩, false, false⟩
      ⟨3 / 4, ⟨9 / 5, 8 / 5, 0⟩, ⟨33 / 25, 31 / 25, 9 / 20⟩, ⟨0, 0, 1⟩, ⟨0, 0, 1⟩, false, false⟩
      (by with_unfolding_all rfl) (by with_unfolding_all rfl) (by norm_num)
  refine ⟨m, hm, ?_⟩
  have h' := h ⟨by with_unfolding_all decide, by with_unfolding_all decide⟩
  rw [if_pos (by norm_num)] at h'
  exact h'

/-- C2. `shapeDistance` returns whether the merged result is a collision: it
returns true exactly when the prism whose outcome it keeps had a negative raw
distance, and that is the case exactly when at least one of the two raw distances is
negative. Both pose paths. -/
theorem shapeDistance_returns_collision {S : Type} (ext : External S) (RTIsIdentity : Bool)
    (convex1 convex2 : Convex Triangle) (tf1 : Transform3f) (shape : S) (tf2 : Transform3f)
    (n2 : Vec3f) (o1 o2 : BinCorrected)
    (h1 : prism1Outcome ext RTIsIdentity convex1 tf1 shape tf2 = .ok o1)
    (h2 : prism2Outcome ext RTIsIdentity convex2 tf1 shape tf2 n2 = .ok o2) :
    ∃ m, shapeDistance ext RTIsIdentity convex1 convex2 tf1 shape tf2 n2 = .ok m ∧
      (m.collision = true ↔
        ((prismQuery ext RTIsIdentity convex1 tf1 shape tf2).distance < 0 ∨
          (prismQuery ext RTIsIdentity convex2 tf1 shape tf2).distance < 0)) ∧
      ((takenFrom m o1 ∧
          (m.collision = true ↔
            (prismQuery ext RTIsIdentity convex1 tf1 shape tf2).distance < 0)) ∨
        (takenFrom m o2 ∧
          (m.collision = true ↔
            (prismQuery ext RTIsIdentity convex2 tf1 shape tf2).distance < 0))) := by
  refine ⟨_, shapeDistance_of_outcomes ext RTIsIdentity convex1 convex2 tf1 shape tf2 n2 o1 o2
    h1 h2, ?_⟩
  by_cases c1 : (prismQuery ext RTIsIdentity convex1 tf1 shape tf2).distance < 0 <;>
    by_cases c2 : (prismQuery ext RTIsIdentity convex2 tf1 shape tf2).distance < 0 <;>
    by_cases hgt : o1.distance > o2.distance <;>
    simp [c1, c2, hgt, takenFrom, keep]

/-- C2, at the ball of radius 1/2 centred at height 1/4 over the flat cell, identity
path: the first prism collides and the call returns true. -/
theorem shapeDistance_returns_collision_witness :
    ∃ m, shapeDistance Examples.ballExt true Examples.flatPrism1 Examples.flatPrism2
        Transform3f.Id ⟨1 / 2⟩ (Examples.ballPose (1 / 4)) Vec3f.zero = .ok m ∧
      m.collision = true := by
  obtain ⟨m, hm, h, -⟩ :=
    shapeDistance_returns_collision Examples.ballExt true Examples.flatPrism1
      Examples.flatPrism2 Transform3f.Id ⟨1 / 2⟩ (Examples.ballPose (1 / 4)) Vec3f.zero
      ⟨-1 / 4, ⟨1, 1, 0⟩, ⟨1, 1, -1 / 4⟩, ⟨0, 0, 1⟩, ⟨0, 0, 1⟩, true, false⟩
      ⟨1 / 4, ⟨9 / 5, 8 / 5, 0⟩, ⟨33 / 25, 31 / 25, 9 / 20⟩, ⟨0, 0, 1⟩, ⟨0, 0, 1⟩, false, false⟩
      (by with_unfolding_all rfl) (by with_unfolding_all rfl)
  exact ⟨m, hm, h.2 (Or.inl (by with_unfolding_all decide))⟩

end details

/-! ## Properties of the collision leaf test -/

namespace HeightFieldShapeCollisionTraversalNode

theorem contacts_updateDistanceLowerBoundFromLeaf {S : Type} (request : CollisionRequest)
    (res : CollisionResult S) (d : FCL_REAL) (p0 p1 : Vec3f) :
    (internal.updateDistanceLowerBoundFromLeaf request res d p0 p1).contacts = res.contacts := by
  unfold internal.updateDistanceLowerBoundFromLeaf
  split_ifs <;> rfl

/-- The leaf test in terms of the merged outcome `m` of its two prisms. -/
theorem leafCollides_of_merge {S : Type} (ext : External S) (RTIsIdentity : Bool) (n2 : Vec3f)
    (self : HeightFieldShapeCollisionTraversalNode S) (b1 : Nat)
    (convex1 convex2 : Convex Triangle) (m : details.ShapeDistanceResult)
    (hb : details.buildConvexTriangles ext (self.model1.getBV b1) self.model1 = .ok (convex1, convex2))
    (hm : details.shapeDistance ext RTIsIdentity convex1 convex2 self.tf1 self.model2 self.tf2 n2
      = .ok m) :
    leafCollides ext RTIsIdentity n2 self b1 =
      if contactGuard ext self m then
        .ok (afterLeaf self (internal.updateDistanceLowerBoundFromLeaf self.request
          (self.result.addContact (leafContact self b1 m)) (distToCollision self.request m)
          m.c1 m.c2), 0)
      else if distToCollision self.request m ≤ self.request.collision_distance_threshold then
        if ext.NDEBUG = true ∨ self.result.isCollision = true then
          .ok (afterLeaf self (internal.updateDistanceLowerBoundFromLeaf self.request
            self.result (distToCollision self.request m) m.c1 m.c2), 0)
        else .error Abort.no_collision_and_no_positive_lower_bound
      else
        if ext.NDEBUG = true ∨ self.result.isCollision = true ∨
            distToCollision self.request m * distToCollision self.request m > 0 then
          .ok (afterLeaf self (internal.updateDistanceLowerBoundFromLeaf self.request
            self.result (distToCollision self.request m) m.c1 m.c2),
            distToCollision self.request m * distToCollision self.request m)
        else .error Abort.no_collision_and_no_positive_lower_bound := by
  unfold leafCollides
  simp only [hb, hm]
  unfold contactGuard
  by_cases hd : distToCollision self.request m ≤ self.request.collision_distance_threshold
  · by_cases hn : self.result.numContacts < self.request.num_max_contacts
    · by_cases hg : (ext.isApprox m.normal_top m.normal &&
          (m.collision || !m.hfield_witness_is_on_bin_side)) = true
      · have hg' : ext.isApprox m.normal_top m.normal = true ∧
            (m.collision = true ∨ m.hfield_witness_is_on_bin_side = false) := by
          simpa using hg
        simp [hd, hn, hg', afterLeaf, CollisionResult.isCollision, CollisionResult.addContact,
          contacts_updateDistanceLowerBoundFromLeaf]
      · have hg' : ¬ (ext.isApprox m.normal_top m.normal = true ∧
            (m.collision = true ∨ m.hfield_witness_is_on_bin_side = false)) := by
          simpa using hg
        simp only [hd, hn, hg, hg', if_true, if_false, and_false, and_true]
        simp [afterLeaf, CollisionResult.isCollision,
          contacts_updateDistanceLowerBoundFromLeaf]
    · simp only [hd, hn, if_true, if_false, and_false, false_and, and_true]
      simp [afterLeaf, CollisionResult.isCollision,
        contacts_updateDistanceLowerBoundFromLeaf]
  · simp only [hd, if_false, false_and]
    simp [afterLeaf, CollisionResult.isCollision,
      contacts_updateDistanceLowerBoundFromLeaf]

/-- A leaf test that returns has built its two prisms and merged their outcomes. -/
theorem leafCollides_ok_inv {S : Type} (ext : External S) (RTIsIdentity : Bool) (n2 : Vec3f)
    (self self' : HeightFieldShapeCollisionTraversalNode S) (b1 : Nat) (sq : FCL_REAL)
    (hr : leafCollides ext RTIsIdentity n2 self b1 = .ok (self', sq)) :
    ∃ convex1 convex2 m,
      details.buildConvexTriangles ext (self.model1.getBV b1) self.model1 = .ok (convex1, convex2) ∧
      details.shapeDistance ext RTIsIdentity convex1 convex2 self.tf1 self.model2 self.tf2 n2
        = .ok m := by
  unfold leafCollides at hr
  cases hb : details.buildConvexTriangles ext (self.model1.getBV b1) self.model1 with
  | error e => simp [hb] at hr
  | ok p =>
    obtain ⟨convex1, convex2⟩ := p
    cases hm : details.shapeDistance ext RTIsIdentity convex1 convex2 self.tf1 self.model2
        self.tf2 n2 with
    | error e => simp [hb, hm] at hr
    | ok m => exact ⟨convex1, convex2, m, rfl, hm⟩

/-- What a returning leaf test does to the node: the request is kept, and either the
contacts are kept or the guard holds and the contact of the leaf is appended. -/
theorem leafCollides_ok_cases {S : Type} (ext : External S) (RTIsIdentity : Bool) (n2 : Vec3f)
    (self self' : HeightFieldShapeCollisionTraversalNode S) (b1 : Nat) (sq : FCL_REAL)
    (convex1 convex2 : Convex Triangle) (m : details.ShapeDistanceResult)
    (hb : details.buildConvexTriangles ext (self.model1.getBV b1) self.model1 = .ok (convex1, convex2))
    (hm : details.shapeDistance ext RTIsIdentity convex1 convex2 self.tf1 self.model2 self.tf2 n2
      = .ok m)
    (hr : leafCollides ext RTIsIdentity n2 self b1 = .ok (self', sq)) :
    self'.request = self.request ∧
      ((contactGuard ext self m ∧
          self'.result.contacts = self.result.contacts ++ [leafContact self b1 m] ∧ sq = 0) ∨
        (¬ contactGuard ext self m ∧ self'.result.contacts = self.result.contacts ∧
          sq = if distToCollision self.request m ≤ self.request.collision_distance_threshold
            then 0 else distToCollision self.request m * distToCollision self.request m)) := by
  rw [leafCollides_of_merge ext RTIsIdentity n2 self b1 convex1 convex2 m hb hm] at hr
  by_cases hg : contactGuard ext self m
  · rw [if_pos hg] at hr
    injection hr with hr
    injection hr with hs hq
    subst hs
    refine ⟨rfl, Or.inl ⟨hg, ?_, hq.symm⟩⟩
    simp [afterLeaf, contacts_updateDistanceLowerBoundFromLeaf, CollisionResult.addContact]
  · rw [if_neg hg] at hr
    by_cases hd : distToCollision self.request m ≤ self.request.collision_distance_threshold
    · rw [if_pos hd] at hr
      by_cases hc : ext.NDEBUG = true ∨ self.result.isCollision = true
      · rw [if_pos hc] at hr
        injection hr with hr
        injection hr with hs hq
        subst hs
        refine ⟨rfl, Or.inr ⟨hg, ?_, ?_⟩⟩
        · simp [afterLeaf, contacts_updateDistanceLowerBoundFromLeaf]
        · rw [if_pos hd]; exact hq.symm
      · rw [if_neg hc] at hr
        cases hr
    · rw [if_neg hd] at hr
      by_cases hc : ext.NDEBUG = true ∨ self.result.isCollision = true ∨
          distToCollision self.request m * distToCollision self.request m > 0
      · rw [if_pos hc] at hr
        injection hr with hr
        injection hr with hs hq
        subst hs
        refine ⟨rfl, Or.inr ⟨hg, ?_, ?_⟩⟩
        · simp [afterLeaf, contacts_updateDistanceLowerBoundFromLeaf]
        · rw [if_neg hd]; exact hq.symm
      · rw [if_neg hc] at hr
        cases hr

/-- In a build with `NDEBUG`, the leaf test returns once its prisms are built and
merged. -/
theorem leafCollides_returns_of_NDEBUG {S : Type} (ext : External S) (RTIsIdentity : Bool)
    (n2 : Vec3f) (self : HeightFieldShapeCollisionTraversalNode S) (b1 : Nat)
    (convex1 convex2 : Convex Triangle) (m : details.ShapeDistanceResult)
    (hN : ext.NDEBUG = true)
    (hb : details.buildConvexTriangles ext (self.model1.getBV b1) self.model1
      = .ok (convex1, convex2))
    (hm : details.shapeDistance ext RTIsIdentity convex1 convex2 self.tf1 self.model2 self.tf2 n2
      = .ok m) :
    ∃ self' sq, leafCollides ext RTIsIdentity n2 self b1 = .ok (self', sq) := by
  rw [leafCollides_of_merge ext RTIsIdentity n2 self b1 convex1 convex2 m hb hm]
  by_cases hg : contactGuard ext self m
  · rw [if_pos hg]; exact ⟨_, _, rfl⟩
  · rw [if_neg hg]
    by_cases hd : distToCollision self.request m ≤ self.request.collision_distance_threshold
    · rw [if_pos hd, if_pos (Or.inl hN)]; exact ⟨_, _, rfl⟩
    · rw [if_neg hd, if_pos (Or.inl hN)]; exact ⟨_, _, rfl⟩

/-- In a build with `NDEBUG`, `binCorrection` returns on every convex with six
points whose top cap is `(3, 5, 4)`. -/
theorem binCorrection_returns_of_NDEBUG {S : Type} (ext : External S) (convex : Convex Triangle)
    (shape : S) (pose : Transform3f) (d : FCL_REAL) (p1 p2 n : Vec3f) (c : Bool)
    (p0' p1' p2' p3' p4' p5' : Vec3f)
    (hN : ext.NDEBUG = true)
    (hpts : convex.points = [p0', p1', p2', p3', p4', p5'])
    (htop : convex.polygons[1]? = some ⟨3, 5, 4⟩) :
    ∃ o, details.binCorrection ext convex shape pose d p1 p2 n c = .ok o := by
  unfold details.binCorrection
  rw [htop, hpts]
  simp only [Triangle.get, List.getElem?_cons_zero, List.getElem?_cons_succ, hN, Bool.not_true,
    Bool.false_and, Bool.false_eq_true, if_false]
  split_ifs <;> exact ⟨_, rfl⟩

/-- In a build with `NDEBUG`, the leaf test returns. -/
theorem leafCollides_total_of_NDEBUG {S : Type} (ext : External S) (RTIsIdentity : Bool)
    (n2 : Vec3f) (self : HeightFieldShapeCollisionTraversalNode S) (b1 : Nat)
    (hN : ext.NDEBUG = true) :
    ∃ self' sq, leafCollides ext RTIsIdentity n2 self b1 = .ok (self', sq) := by
  have hb : ∃ convex1 convex2 p0 p1 p2 p3 p4 p5 q0 q1 q2 q3 q4 q5,
      details.buildConvexTriangles ext (self.model1.getBV b1) self.model1 = .ok (convex1, convex2) ∧
      convex1.points = [p0, p1, p2, p3, p4, p5] ∧ convex1.polygons[1]? = some ⟨3, 5, 4⟩ ∧
      convex2.points = [q0, q1, q2, q3, q4, q5] ∧ convex2.polygons[1]? = some ⟨3, 5, 4⟩ := by
    unfold details.buildConvexTriangles
    simp only [hN, Bool.true_or, if_true]
    exact ⟨_, _, _, _, _, _, _, _, _, _, _, _, _, _, rfl, rfl, rfl, rfl, rfl⟩
  obtain ⟨convex1, convex2, p0, p1, p2, p3, p4, p5, q0, q1, q2, q3, q4, q5, hb, h1, h2, h3, h4⟩ := hb
  obtain ⟨o1, ho1⟩ := binCorrection_returns_of_NDEBUG ext convex1 self.model2 self.tf2
    (details.prismQuery ext RTIsIdentity convex1 self.tf1 self.model2 self.tf2).distance
    (details.prismQuery ext RTIsIdentity convex1 self.tf1 self.model2 self.tf2).p1
    (details.prismQuery ext RTIsIdentity convex1 self.tf1 self.model2 self.tf2).p2
    (details.prismQuery ext RTIsIdentity convex1 self.tf1 self.model2 self.tf2).normal
    (decide ((details.prismQuery ext RTIsIdentity convex1 self.tf1 self.model2 self.tf2).distance
      < 0)) p0 p1 p2 p3 p4 p5 hN h1 h2
  obtain ⟨o2, ho2⟩ := binCorrection_returns_of_NDEBUG ext convex2 self.model2 self.tf2
    (details.prismQuery ext RTIsIdentity convex2 self.tf1 self.model2 self.tf2).distance
    (details.prismQuery ext RTIsIdentity convex2 self.tf1 self.model2 self.tf2).p1
    (details.prismQuery ext RTIsIdentity convex2 self.tf1 self.model2 self.tf2).p2
    (if RTIsIdentity then n2
      else (details.prismQuery ext RTIsIdentity convex2 self.tf1 self.model2 self.tf2).normal)
    (decide ((details.prismQuery ext RTIsIdentity convex2 self.tf1 self.model2 self.tf2).distance
      < 0)) q0 q1 q2 q3 q4 q5 hN h3 h4
  exact leafCollides_returns_of_NDEBUG ext RTIsIdentity n2 self b1 convex1 convex2 _ hN hb
    (details.shapeDistance_of_outcomes ext RTIsIdentity convex1 convex2 self.tf1 self.model2
      self.tf2 n2 o1 o2 ho1 ho2)

/-- C3. When `distToCollision` is strictly greater than the collision distance
threshold, no contact is appended: every leaf test that returns leaves the contact
list as it was, and in a build with `NDEBUG` the leaf test does return. -/
theorem leafCollides_above_threshold_no_contact {S : Type} (ext : External S)
    (RTIsIdentity : Bool) (n2 : Vec3f) (self : HeightFieldShapeCollisionTraversalNode S)
    (b1 : Nat) (convex1 convex2 : Convex Triangle) (m : details.ShapeDistanceResult)
    (hb : details.buildConvexTriangles ext (self.model1.getBV b1) self.model1
      = .ok (convex1, convex2))
    (hm : details.shapeDistance ext RTIsIdentity convex1 convex2 self.tf1 self.model2 self.tf2 n2
      = .ok m)
    (hd : m.distance - self.request.security_margin * (m.normal_top.dot m.normal) >
      self.request.collision_distance_threshold) :
    (∀ self' sq, leafCollides ext RTIsIdentity n2 self b1 = .ok (self', sq) →
        self'.result.contacts = self.result.contacts) ∧
      (ext.NDEBUG = true → ∃ self' sq, leafCollides ext RTIsIdentity n2 self b1 = .ok (self', sq)) := by
  refine ⟨?_, fun hN =>
    leafCollides_returns_of_NDEBUG ext RTIsIdentity n2 self b1 convex1 convex2 m hN hb hm⟩
  intro self' sq hr
  obtain ⟨-, h | h⟩ :=
    leafCollides_ok_cases ext RTIsIdentity n2 self self' b1 sq convex1 convex2 m hb hm hr
  · exact absurd h.1.1 (not_le_of_gt hd)
  · exact h.2.1

/-- C3, at the ball centred at height 3/4 with threshold 0 (scenario B of the
specification, scaled): the leaf test returns and records no contact. -/
theorem leafCollides_above_threshold_no_contact_witness :
    leafCollides Examples.ballExt false Vec3f.zero
        (Examples.ballNode (Examples.requestOne 0) (3 / 4)) 0 =
      .ok (afterLeaf (Examples.ballNode (Examples.requestOne 0) (3 / 4)) Examples.resultFar,
        1 / 16) ∧
    (afterLeaf (Examples.ballNode (Examples.requestOne 0) (3 / 4))
      Examples.resultFar).result.contacts = [] :=
  ⟨by with_unfolding_all rfl,
   (leafCollides_above_threshold_no_contact Examples.ballExt false Vec3f.zero
    (Examples.ballNode (Examples.requestOne 0) (3 / 4)) 0
    Examples.flatPrism1 Examples.flatPrism2 Examples.mergedAbove
    (by with_unfolding_all rfl) (by with_unfolding_all rfl)
    (by with_unfolding_all decide)).1 _ (1 / 16) (by with_unfolding_all rfl)⟩

/-- One returning leaf test keeps the request, keeps the contacts within the
maximum and appends at most one contact. -/
theorem leafCollides_step {S : Type} (ext : External S) (RTIsIdentity : Bool) (n2 : Vec3f)
    (self self' : HeightFieldShapeCollisionTraversalNode S) (b1 : Nat) (sq : FCL_REAL)
    (hr : leafCollides ext RTIsIdentity n2 self b1 = .ok (self', sq))
    (hle : self.result.numContacts ≤ self.request.num_max_contacts) :
    self'.request = self.request ∧
      self'.result.numContacts ≤ self.request.num_max_contacts ∧
      self'.result.numContacts ≤ self.result.numContacts + 1 ∧
      self.result.contacts <+: self'.result.contacts := by
  obtain ⟨convex1, convex2, m, hb, hm⟩ :=
    leafCollides_ok_inv ext RTIsIdentity n2 self self' b1 sq hr
  obtain ⟨hreq, h | h⟩ :=
    leafCollides_ok_cases ext RTIsIdentity n2 self self' b1 sq convex1 convex2 m hb hm hr
  · obtain ⟨hg, hc, -⟩ := h
    have hlt : self.result.numContacts < self.request.num_max_contacts := hg.2.1
    unfold CollisionResult.numContacts at hlt hle ⊢
    rw [hc]
    refine ⟨hreq, ?_, ?_, List.prefix_append _ _⟩
    · simp only [List.length_append, List.length_singleton]; omega
    · simp only [List.length_append, List.length_singleton]; omega
  · obtain ⟨-, hc, -⟩ := h
    unfold CollisionResult.numContacts at hle ⊢
    rw [hc]
    exact ⟨hreq, hle, Nat.le_succ _, List.prefix_refl _⟩

/-- C4. A sequence of leaf tests that starts with at most `num_max_contacts`
contacts (in particular with none) and returns ends with at most `num_max_contacts`
contacts; it only appends to the contacts, at most one per call. -/
theorem leafCollidesAll_contacts_le_max {S : Type} (ext : External S) (RTIsIdentity : Bool)
    (bs : List (Nat × Vec3f)) (self self' : HeightFieldShapeCollisionTraversalNode S)
    (hrun : leafCollidesAll ext RTIsIdentity self bs = .ok self')
    (hle : self.result.numContacts ≤ self.request.num_max_contacts) :
    self'.request = self.request ∧
      self'.result.numContacts ≤ self.request.num_max_contacts ∧
      self'.result.numContacts ≤ self.result.numContacts + bs.length ∧
      self.result.contacts <+: self'.result.contacts := by
  induction bs generalizing self with
  | nil =>
    unfold leafCollidesAll at hrun
    injection hrun with hrun
    subst hrun
    exact ⟨rfl, hle, Nat.le_refl _, List.prefix_refl _⟩
  | cons b bs ih =>
    obtain ⟨b1, n2⟩ := b
    unfold leafCollidesAll at hrun
    cases hstep : leafCollides ext RTIsIdentity n2 self b1 with
    | error e => simp [hstep] at hrun
    | ok p =>
      obtain ⟨mid, sq⟩ := p
      simp only [hstep] at hrun
      obtain ⟨hreq, hmax, hone, hpre⟩ :=
        leafCollides_step ext RTIsIdentity n2 self mid b1 sq hstep hle
      obtain ⟨hreq', hmax', hlen', hpre'⟩ := ih mid hrun (by rw [hreq]; exact hmax)
      refine ⟨hreq'.trans hreq, by rw [← hreq]; exact hmax', ?_, hpre.trans hpre'⟩
      simp only [List.length_cons]
      omega

/-- C4, at two leaf tests in a row on the ball centred at height 3/4 with threshold
1/2 and at most one contact: the first appends a contact, the second does not. -/
theorem leafCollidesAll_contacts_le_max_witness :
    leafCollidesAll Examples.ballExt false
        (Examples.ballNode (Examples.requestOne (1 / 2)) (3 / 4))
        [(0, Vec3f.zero), (0, Vec3f.zero)] =
      .ok (afterLeaf (afterLeaf (Examples.ballNode (Examples.requestOne (1 / 2)) (3 / 4))
        Examples.resultNear) Examples.resultNear) ∧
    (afterLeaf (afterLeaf (Examples.ballNode (Examples.requestOne (1 / 2)) (3 / 4))
        Examples.resultNear) Examples.resultNear).result.numContacts ≤ 1 :=
  ⟨by with_unfolding_all rfl,
   (leafCollidesAll_contacts_le_max Examples.ballExt false [(0, Vec3f.zero), (0, Vec3f.zero)]
    (Examples.ballNode (Examples.requestOne (1 / 2)) (3 / 4)) _
    (by with_unfolding_all rfl) (by with_unfolding_all decide)).2.1⟩

/-- C5. Contact guard of the leaf test: the call returns with a contact appended if
and only if `distToCollision`, that is `distance - security_margin *
normal_top.dot(normal)` of the merged outputs, is at most the collision distance
threshold, the result holds fewer contacts than `num_max_contacts`,
`normal_top.isApprox(normal)` holds for the merged normals, and the merge returned
collision or the witness is not on a bin side. The appended contact is the last of
the list, which is otherwise unchanged. -/
theorem leafCollides_appends_iff_guard {S : Type} (ext : External S) (RTIsIdentity : Bool)
    (n2 : Vec3f) (self : HeightFieldShapeCollisionTraversalNode S) (b1 : Nat)
    (convex1 convex2 : Convex Triangle) (m : details.ShapeDistanceResult)
    (hb : details.buildConvexTriangles ext (self.model1.getBV b1) self.model1 = .ok (convex1, convex2))
    (hm : details.shapeDistance ext RTIsIdentity convex1 convex2 self.tf1 self.model2 self.tf2 n2
      = .ok m) :
    (∃ self' sq c, leafCollides ext RTIsIdentity n2 self b1 = .ok (self', sq) ∧
        self'.result.contacts = self.result.contacts ++ [c]) ↔
      (m.distance - self.request.security_margin *
            (m.normal_top.x * m.normal.x + m.normal_top.y * m.normal.y +
              m.normal_top.z * m.normal.z) ≤ self.request.collision_distance_threshold ∧
        self.result.contacts.length < self.request.num_max_contacts ∧
        ext.isApprox m.normal_top m.normal = true ∧
        (m.collision = true ∨ m.hfield_witness_is_on_bin_side = false)) := by
  constructor
  · rintro ⟨self', sq, c, hr, hc⟩
    obtain ⟨-, h | h⟩ :=
      leafCollides_ok_cases ext RTIsIdentity n2 self self' b1 sq convex1 convex2 m hb hm hr
    · exact h.1
    · have hlen := congrArg List.length (h.2.1.symm.trans hc)
      simp at hlen
  · intro hg
    have hg' : contactGuard ext self m := hg
    refine ⟨afterLeaf self (internal.updateDistanceLowerBoundFromLeaf self.request
      (self.result.addContact (leafContact self b1 m)) (distToCollision self.request m)
      m.c1 m.c2), 0, leafContact self b1 m, ?_, ?_⟩
    · rw [leafCollides_of_merge ext RTIsIdentity n2 self b1 convex1 convex2 m hb hm, if_pos hg']
    · simp [afterLeaf, contacts_updateDistanceLowerBoundFromLeaf, CollisionResult.addContact]

/-- C5, at the ball centred at height 3/4 with security margin 1/4 and threshold 0:
the merged distance is 1/4, `distToCollision` is `1/4 - 1/4 * 1 = 0`, the guard holds
and the leaf test appends a contact. -/
theorem leafCollides_appends_iff_guard_witness :
    Examples.mergedAbove.distance = 1 / 4 ∧
    ∃ self' sq c, leafCollides Examples.ballExt false Vec3f.zero
        (Examples.ballNode ⟨1, 1 / 4, 0⟩ (3 / 4)) 0 = .ok (self', sq) ∧
      self'.result.contacts =
        (Examples.ballNode ⟨1, 1 / 4, 0⟩ (3 / 4)).result.contacts ++ [c] :=
  ⟨rfl, (leafCollides_appends_iff_guard Examples.ballExt false Vec3f.zero
    (Examples.ballNode ⟨1, 1 / 4, 0⟩ (3 / 4)) 0
    Examples.flatPrism1 Examples.flatPrism2 Examples.mergedAbove
    (by with_unfolding_all rfl) (by with_unfolding_all rfl)).2
    (by with_unfolding_all decide)⟩

/-- C6. The squared lower bound reported by the leaf test is 0 when
`distToCollision` is at most the collision distance threshold, whether or not a
contact was appended, and the square of `distToCollision` otherwise: every leaf test
that returns reports that value, and in a build with `NDEBUG` the leaf test does
return. -/
theorem leafCollides_sqrDistLowerBound {S : Type} (ext : External S) (RTIsIdentity : Bool)
    (n2 : Vec3f) (self : HeightFieldShapeCollisionTraversalNode S) (b1 : Nat)
    (convex1 convex2 : Convex Triangle) (m : details.ShapeDistanceResult)
    (hb : details.buildConvexTriangles ext (self.model1.getBV b1) self.model1
      = .ok (convex1, convex2))
    (hm : details.shapeDistance ext RTIsIdentity convex1 convex2 self.tf1 self.model2 self.tf2 n2
      = .ok m) :
    (∀ self' sq, leafCollides ext RTIsIdentity n2 self b1 = .ok (self', sq) →
        sq = (if m.distance - self.request.security_margin * (m.normal_top.dot m.normal) ≤
                self.request.collision_distance_threshold then 0
              else (m.distance - self.request.security_margin *
                (m.normal_top.dot m.normal)) ^ 2)) ∧
      (ext.NDEBUG = true → ∃ self' sq, leafCollides ext RTIsIdentity n2 self b1 = .ok (self', sq)) := by
  refine ⟨?_, fun hN =>
    leafCollides_returns_of_NDEBUG ext RTIsIdentity n2 self b1 convex1 convex2 m hN hb hm⟩
  intro self' sq hr
  obtain ⟨-, h | h⟩ :=
    leafCollides_ok_cases ext RTIsIdentity n2 self self' b1 sq convex1 convex2 m hb hm hr
  · have hd : distToCollision self.request m ≤ self.request.collision_distance_threshold :=
      h.1.1
    unfold distToCollision at hd
    rw [if_pos hd]; exact h.2.2
  · have hq := h.2.2
    unfold distToCollision at hq
    rw [hq, pow_two]

/-- C6, at the ball centred at height 3/4 with threshold 0: the reported bound is
the square of 1/4. -/
theorem leafCollides_sqrDistLowerBound_witness :
    (1 / 16 : FCL_REAL) =
      (if Examples.mergedAbove.distance - (Examples.requestOne 0).security_margin *
            (Examples.mergedAbove.normal_top.dot Examples.mergedAbove.normal) ≤
          (Examples.requestOne 0).collision_distance_threshold then 0
        else (Examples.mergedAbove.distance - (Examples.requestOne 0).security_margin *
            (Examples.mergedAbove.normal_top.dot Examples.mergedAbove.normal)) ^ 2) :=
  (leafCollides_sqrDistLowerBound Examples.ballExt false Vec3f.zero
    (Examples.ballNode (Examples.requestOne 0) (3 / 4)) 0
    Examples.flatPrism1 Examples.flatPrism2 Examples.mergedAbove
    (by with_unfolding_all rfl) (by with_unfolding_all rfl)).1
    (afterLeaf (Examples.ballNode (Examples.requestOne 0) (3 / 4)) Examples.resultFar)
    (1 / 16) (by with_unfolding_all rfl)

/-- C7. The contact a returning leaf test appends carries the height-field model
and the shape as objects, `(int)b1` (the leaf index itself below 2^31) and
`Contact::NONE` as primitive ids, the merged witness points and normal, and the
merged signed distance, not `distToCollision`, as penetration value. -/
theorem leafCollides_contact_record {S : Type} (ext : External S) (RTIsIdentity : Bool)
    (n2 : Vec3f) (self self' : HeightFieldShapeCollisionTraversalNode S) (b1 : Nat)
    (sq : FCL_REAL) (convex1 convex2 : Convex Triangle) (m : details.ShapeDistanceResult)
    (hb : details.buildConvexTriangles ext (self.model1.getBV b1) self.model1 = .ok (convex1, convex2))
    (hm : details.shapeDistance ext RTIsIdentity convex1 convex2 self.tf1 self.model2 self.tf2 n2
      = .ok m)
    (hr : leafCollides ext RTIsIdentity n2 self b1 = .ok (self', sq))
    (happ : self'.result.contacts ≠ self.result.contacts) :
    ∃ c, self'.result.contacts = self.result.contacts ++ [c] ∧
      c.o1 = self.model1 ∧ c.o2 = self.model2 ∧
      c.b1 = int_of_unsigned b1 ∧ (b1 < 2 ^ 31 → c.b1 = (b1 : Int)) ∧
      c.b2 = Contact.NONE ∧
      c.p1 = m.c1 ∧ c.p2 = m.c2 ∧ c.normal = m.normal ∧
      c.penetration_depth = m.distance := by
  obtain ⟨-, h | h⟩ :=
    leafCollides_ok_cases ext RTIsIdentity n2 self self' b1 sq convex1 convex2 m hb hm hr
  · refine ⟨leafContact self b1 m, h.2.1, rfl, rfl, rfl, ?_, rfl, rfl, rfl, rfl, rfl⟩
    intro hlt
    have hmod : b1 % 2 ^ 32 = b1 := Nat.mod_eq_of_lt (by omega)
    simp only [leafContact, int_of_unsigned, hmod, if_pos hlt]
    rfl
  · exact absurd h.2.1 happ

/-- C7, at the ball centred at height 3/4 with threshold 1/2 and security margin 0:
the appended contact has penetration value 1/4, the merged distance. -/
theorem leafCollides_contact_record_witness :
    ∃ c, Examples.resultNear.contacts =
        (Examples.ballNode (Examples.requestOne (1 / 2)) (3 / 4)).result.contacts ++ [c] ∧
      c.b1 = 0 ∧ c.b2 = -1 ∧ c.penetration_depth = 1 / 4 := by
  obtain ⟨c, hc, -, -, -, h1, h2, -, -, -, h3⟩ :=
    leafCollides_contact_record Examples.ballExt false Vec3f.zero
      (Examples.ballNode (Examples.requestOne (1 / 2)) (3 / 4))
      (afterLeaf (Examples.ballNode (Examples.requestOne (1 / 2)) (3 / 4)) Examples.resultNear)
      0 0 Examples.flatPrism1 Examples.flatPrism2 Examples.mergedAbove
      (by with_unfolding_all rfl) (by with_unfolding_all rfl) (by with_unfolding_all rfl)
      (by simp [afterLeaf, Examples.resultNear, Examples.ballNode])
  exact ⟨c, hc, h1 (by norm_num), h2, h3⟩

end HeightFieldShapeCollisionTraversalNode

/-! ## The early-stop predicate of the distance node -/

namespace HeightFieldShapeDistanceTraversalNode

/-- C8. `canStop(c)` is true if and only if `c >= min_distance - abs_err` and
`c * (1 + rel_err) >= min_distance`; it is false as soon as one of the two fails, and
each boundary equality, with the other condition true, yields true. -/
theorem canStop_iff {S : Type} (self : HeightFieldShapeDistanceTraversalNode S) (c : FCL_REAL) :
    (canStop self c = true ↔
        (c ≥ self.result.min_distance - self.abs_err ∧
          c * (1 + self.rel_err) ≥ self.result.min_distance)) ∧
      (c < self.result.min_distance - self.abs_err → canStop self c = false) ∧
      (c * (1 + self.rel_err) < self.result.min_distance → canStop self c = false) ∧
      (c = self.result.min_distance - self.abs_err →
        c * (1 + self.rel_err) ≥ self.result.min_distance → canStop self c = true) ∧
      (c * (1 + self.rel_err) = self.result.min_distance →
        c ≥ self.result.min_distance - self.abs_err → canStop self c = true) := by
  have hiff : canStop self c = true ↔
      (c ≥ self.result.min_distance - self.abs_err ∧
        c * (1 + self.rel_err) ≥ self.result.min_distance) := by
    unfold canStop
    by_cases h1 : c ≥ self.result.min_distance - self.abs_err <;>
      by_cases h2 : c * (1 + self.rel_err) ≥ self.result.min_distance <;>
      simp [h1, h2]
  refine ⟨hiff, ?_, ?_, ?_, ?_⟩
  · intro h
    rw [← Bool.not_eq_true]
    exact fun ht => absurd (hiff.1 ht).1 (not_le_of_gt h)
  · intro h
    rw [← Bool.not_eq_true]
    exact fun ht => absurd (hiff.1 ht).2 (not_le_of_gt h)
  · intro h1 h2
    exact hiff.2 ⟨le_of_eq h1.symm, h2⟩
  · intro h1 h2
    exact hiff.2 ⟨h2, le_of_eq h1.symm⟩

/-- C8, at running minimum 1 with tolerances 1/4 and 1/3: `c = 3/4` sits on both
boundaries and stops the traversal, `c = 1/2` does not. -/
theorem canStop_iff_witness :
    canStop Examples.distanceNode (3 / 4) = true ∧ canStop Examples.distanceNode (1 / 2) = false :=
  ⟨(canStop_iff Examples.distanceNode (3 / 4)).2.2.2.1 (by with_unfolding_all decide)
      (by with_unfolding_all decide),
   (canStop_iff Examples.distanceNode (1 / 2)).2.1 (by with_unfolding_all decide)⟩

end HeightFieldShapeDistanceTraversalNode

/-! ## The decomposition of a cell into two prisms -/

namespace details

/-- The triangle with its right angle at the corner `(x0, y0)` of the cell. -/
theorem inTriangleXY_lower (x0 x1 y0 y1 z0 z1 z2 x y : FCL_REAL) (hx : x0 < x1) (hy : y0 < y1) :
    inTriangleXY ⟨x0, y0, z0⟩ ⟨x0, y1, z1⟩ ⟨x1, y0, z2⟩ x y ↔
      x0 ≤ x ∧ y0 ≤ y ∧
        (x - x0) * (y1 - y0) + (y - y0) * (x1 - x0) ≤ (x1 - x0) * (y1 - y0) := by
  have hdx : 0 < x1 - x0 := sub_pos.2 hx
  have hdy : 0 < y1 - y0 := sub_pos.2 hy
  constructor
  · rintro ⟨u, v, w, hu, hv, hw, hs, rfl, rfl⟩
    have hu' : u = 1 - v - w := by linarith
    subst hu'
    refine ⟨?_, ?_, ?_⟩
    · nlinarith [mul_nonneg hw hdx.le]
    · nlinarith [mul_nonneg hv hdy.le]
    · have h1 : ((1 - v - w) * x0 + v * x0 + w * x1 - x0) * (y1 - y0) +
          ((1 - v - w) * y0 + v * y1 + w * y0 - y0) * (x1 - x0) =
          (v + w) * ((x1 - x0) * (y1 - y0)) := by ring
      rw [h1]
      have : v + w ≤ 1 := by linarith
      nlinarith [mul_pos hdx hdy]
  · rintro ⟨h1, h2, h3⟩
    refine ⟨1 - (y - y0) / (y1 - y0) - (x - x0) / (x1 - x0), (y - y0) / (y1 - y0),
      (x - x0) / (x1 - x0), ?_, ?_, ?_, by ring, ?_, ?_⟩
    · have : (y - y0) / (y1 - y0) + (x - x0) / (x1 - x0) ≤ 1 := by
        rw [div_add_div _ _ hdy.ne' hdx.ne', div_le_one (mul_pos hdy hdx)]
        nlinarith
      linarith
    · exact div_nonneg (by linarith) hdy.le
    · exact div_nonneg (by linarith) hdx.le
    · field_simp
      ring
    · field_simp
      ring

/-- The triangle with its right angle at the corner `(x1, y1)` of the cell, its
vertices in the order of the bottom cap of the second prism. -/
theorem inTriangleXY_upper (x0 x1 y0 y1 z0 z1 z2 x y : FCL_REAL) (hx : x0 < x1) (hy : y0 < y1) :
    inTriangleXY ⟨x1, y0, z0⟩ ⟨x0, y1, z1⟩ ⟨x1, y1, z2⟩ x y ↔
      x ≤ x1 ∧ y ≤ y1 ∧
        (x1 - x0) * (y1 - y0) ≤ (x - x0) * (y1 - y0) + (y - y0) * (x1 - x0) := by
  have hdx : 0 < x1 - x0 := sub_pos.2 hx
  have hdy : 0 < y1 - y0 := sub_pos.2 hy
  constructor
  · rintro ⟨u, v, w, hu, hv, hw, hs, rfl, rfl⟩
    have hw' : w = 1 - u - v := by linarith
    subst hw'
    refine ⟨?_, ?_, ?_⟩
    · nlinarith [mul_nonneg hv hdx.le]
    · nlinarith [mul_nonneg hu hdy.le]
    · have h1 : (u * x1 + v * x0 + (1 - u - v) * x1 - x0) * (y1 - y0) +
          (u * y0 + v * y1 + (1 - u - v) * y1 - y0) * (x1 - x0) =
          (2 - u - v) * ((x1 - x0) * (y1 - y0)) := by ring
      rw [h1]
      have : u + v ≤ 1 := by linarith
      nlinarith [mul_pos hdx hdy]
  · rintro ⟨h1, h2, h3⟩
    refine ⟨(y1 - y) / (y1 - y0), (x1 - x) / (x1 - x0),
      1 - (y1 - y) / (y1 - y0) - (x1 - x) / (x1 - x0), ?_, ?_, ?_, by ring, ?_, ?_⟩
    · exact div_nonneg (by linarith) hdy.le
    · exact div_nonneg (by linarith) hdx.le
    · have : (y1 - y) / (y1 - y0) + (x1 - x) / (x1 - x0) ≤ 1 := by
        rw [div_add_div _ _ hdy.ne' hdx.ne', div_le_one (mul_pos hdy hdx)]
        nlinarith
      linarith
    · field_simp
      ring
    · field_simp
      ring

/-- Inside the lower triangle the point is strictly below the diagonal. -/
theorem insideTriangleXY_lower (x0 x1 y0 y1 z0 z1 z2 x y : FCL_REAL) (hx : x0 < x1)
    (hy : y0 < y1) (h : insideTriangleXY ⟨x0, y0, z0⟩ ⟨x0, y1, z1⟩ ⟨x1, y0, z2⟩ x y) :
    (x - x0) * (y1 - y0) + (y - y0) * (x1 - x0) < (x1 - x0) * (y1 - y0) := by
  have hdx : 0 < x1 - x0 := sub_pos.2 hx
  have hdy : 0 < y1 - y0 := sub_pos.2 hy
  obtain ⟨u, v, w, hu, hv, hw, hs, rfl, rfl⟩ := h
  have hu' : u = 1 - v - w := by linarith
  subst hu'
  have h1 : ((1 - v - w) * x0 + v * x0 + w * x1 - x0) * (y1 - y0) +
      ((1 - v - w) * y0 + v * y1 + w * y0 - y0) * (x1 - x0) =
      (v + w) * ((x1 - x0) * (y1 - y0)) := by ring
  rw [h1]
  have : v + w < 1 := by linarith
  nlinarith [mul_pos hdx hdy]

/-- Inside the upper triangle the point is strictly above the diagonal. -/
theorem insideTriangleXY_upper (x0 x1 y0 y1 z0 z1 z2 x y : FCL_REAL) (hx : x0 < x1)
    (hy : y0 < y1) (h : insideTriangleXY ⟨x1, y0, z0⟩ ⟨x0, y1, z1⟩ ⟨x1, y1, z2⟩ x y) :
    (x1 - x0) * (y1 - y0) < (x - x0) * (y1 - y0) + (y - y0) * (x1 - x0) := by
  have hdx : 0 < x1 - x0 := sub_pos.2 hx
  have hdy : 0 < y1 - y0 := sub_pos.2 hy
  obtain ⟨u, v, w, hu, hv, hw, hs, rfl, rfl⟩ := h
  have hw' : w = 1 - u - v := by linarith
  subst hw'
  have h1 : (u * x1 + v * x0 + (1 - u - v) * x1 - x0) * (y1 - y0) +
      (u * y0 + v * y1 + (1 - u - v) * y1 - y0) * (x1 - x0) =
      (2 - u - v) * ((x1 - x0) * (y1 - y0)) := by ring
  rw [h1]
  have : u + v < 1 := by linarith
  nlinarith [mul_pos hdx hdy]

/-- The prisms `buildConvexTriangles` returns, written out. -/
theorem buildConvexTriangles_ok {S : Type} (ext : External S) (node : HFNode)
    (model : HeightField) (convex1 convex2 : Convex Triangle)
    (hb : buildConvexTriangles ext node model = .ok (convex1, convex2)) :
    convex1 =
      { points := [⟨model.x_grid node.x_id, model.y_grid node.y_id, model.min_height⟩,
          ⟨model.x_grid node.x_id, model.y_grid (node.y_id + 1), model.min_height⟩,
          ⟨model.x_grid (node.x_id + 1), model.y_grid node.y_id, model.min_height⟩,
          ⟨model.x_grid node.x_id, model.y_grid node.y_id,
            model.heights (node.y_id + 0) (node.x_id + 0)⟩,
          ⟨model.x_grid node.x_id, model.y_grid (node.y_id + 1),
            model.heights (node.y_id + 1) (node.x_id + 0)⟩,
          ⟨model.x_grid (node.x_id + 1), model.y_grid node.y_id,
            model.heights (node.y_id + 0) (node.x_id + 1)⟩]
        num_points := 6
        polygons := [⟨0, 1, 2⟩, ⟨3, 5, 4⟩, ⟨0, 3, 1⟩, ⟨3, 4, 1⟩,
                     ⟨1, 5, 2⟩, ⟨1, 4, 5⟩, ⟨0, 2, 5⟩, ⟨5, 3, 0⟩]
        num_polygons := 8 } ∧
    convex2 =
      { points := [⟨model.x_grid node.x_id, model.y_grid (node.y_id + 1), model.min_height⟩,
          ⟨model.x_grid (node.x_id + 1), model.y_grid (node.y_id + 1), model.min_height⟩,
          ⟨model.x_grid (node.x_id + 1), model.y_grid node.y_id, model.min_height⟩,
          ⟨model.x_grid node.x_id, model.y_grid (node.y_id + 1),
            model.heights (node.y_id + 1) (node.x_id + 0)⟩,
          ⟨model.x_grid (node.x_id + 1), model.y_grid (node.y_id + 1),
            model.heights (node.y_id + 1) (node.x_id + 1)⟩,
          ⟨model.x_grid (node.x_id + 1), model.y_grid node.y_id,
            model.heights (node.y_id + 0) (node.x_id + 1)⟩]
        num_points := 6
        polygons := [⟨2, 0, 1⟩, ⟨3, 5, 4⟩, ⟨0, 3, 1⟩, ⟨3, 4, 1⟩,
                     ⟨0, 2, 5⟩, ⟨0, 5, 3⟩, ⟨1, 5, 2⟩, ⟨4, 2, 1⟩]
        num_polygons := 8 } := by
  unfold buildConvexTriangles at hb
  simp only at hb
  split_ifs at hb
  injection hb with hb
  injection hb with h1 h2
  exact ⟨h1.symm, h2.symm⟩

/-- C9. Prism partition of a cell with `x0 < x1` and `y0 < y1`: the footprints of
the two prisms cover exactly the rectangle `[x0, x1] x [y0, y1]`, their interiors
are disjoint, they meet exactly in the diagonal from `(x0, y1)` to `(x1, y0)`, and
the points the two prisms have in common are exactly the four vertices of the
vertical face over that diagonal, stored with identical coordinates in both. -/
theorem buildConvexTriangles_partition {S : Type} (ext : External S) (node : HFNode)
    (model : HeightField) (convex1 convex2 : Convex Triangle)
    (hb : buildConvexTriangles ext node model = .ok (convex1, convex2))
    (hx : model.x_grid node.x_id < model.x_grid (node.x_id + 1))
    (hy : model.y_grid node.y_id < model.y_grid (node.y_id + 1)) :
    (∀ x y, (footprint convex1 x y ∨ footprint convex2 x y) ↔
        (model.x_grid node.x_id ≤ x ∧ x ≤ model.x_grid (node.x_id + 1) ∧
          model.y_grid node.y_id ≤ y ∧ y ≤ model.y_grid (node.y_id + 1))) ∧
      (∀ x y, ¬ (footprintInterior convex1 x y ∧ footprintInterior convex2 x y)) ∧
      (∀ x y, (footprint convex1 x y ∧ footprint convex2 x y) ↔
        ∃ t : FCL_REAL, 0 ≤ t ∧ t ≤ 1 ∧
          x = (1 - t) * model.x_grid node.x_id + t * model.x_grid (node.x_id + 1) ∧
          y = (1 - t) * model.y_grid (node.y_id + 1) + t * model.y_grid node.y_id) ∧
      (∀ p, (p ∈ convex1.points ∧ p ∈ convex2.points) ↔
        p ∈ [(⟨model.x_grid node.x_id, model.y_grid (node.y_id + 1), model.min_height⟩ : Vec3f),
          ⟨model.x_grid (node.x_id + 1), model.y_grid node.y_id, model.min_height⟩,
          ⟨model.x_grid node.x_id, model.y_grid (node.y_id + 1),
            model.heights (node.y_id + 1) node.x_id⟩,
          ⟨model.x_grid (node.x_id + 1), model.y_grid node.y_id,
            model.heights node.y_id (node.x_id + 1)⟩]) ∧
      (convex1.points[1]? = convex2.points[0]? ∧ convex1.points[2]? = convex2.points[2]? ∧
        convex1.points[4]? = convex2.points[3]? ∧ convex1.points[5]? = convex2.points[5]?) := by
  obtain ⟨rfl, rfl⟩ := buildConvexTriangles_ok ext node model convex1 convex2 hb
  clear hb
  generalize model.x_grid node.x_id = x0 at hx ⊢
  generalize model.x_grid (node.x_id + 1) = x1 at hx ⊢
  generalize model.y_grid node.y_id = y0 at hy ⊢
  generalize model.y_grid (node.y_id + 1) = y1 at hy ⊢
  have hdx : 0 < x1 - x0 := sub_pos.2 hx
  have hdy : 0 < y1 - y0 := sub_pos.2 hy
  have hf1 : ∀ x y, footprint
      { points := [⟨x0, y0, model.min_height⟩, ⟨x0, y1, model.min_height⟩,
          ⟨x1, y0, model.min_height⟩,
          ⟨x0, y0, model.heights (node.y_id + 0) (node.x_id + 0)⟩,
          ⟨x0, y1, model.heights (node.y_id + 1) (node.x_id + 0)⟩,
          ⟨x1, y0, model.heights (node.y_id + 0) (node.x_id + 1)⟩]
        num_points := 6
        polygons := [⟨0, 1, 2⟩, ⟨3, 5, 4⟩, ⟨0, 3, 1⟩, ⟨3, 4, 1⟩,
                     ⟨1, 5, 2⟩, ⟨1, 4, 5⟩, ⟨0, 2, 5⟩, ⟨5, 3, 0⟩]
        num_polygons := 8 } x y ↔
      (x0 ≤ x ∧ y0 ≤ y ∧
        (x - x0) * (y1 - y0) + (y - y0) * (x1 - x0) ≤ (x1 - x0) * (y1 - y0)) := by
    intro x y
    rw [← inTriangleXY_lower x0 x1 y0 y1 model.min_height model.min_height model.min_height
      x y hx hy]
    simp only [footprint, polygonPoints, List.getElem?_cons_zero, List.getElem?_cons_succ,
      Option.some.injEq, Prod.mk.injEq]
    constructor
    · rintro ⟨a, b, c, ⟨rfl, rfl, rfl⟩, h⟩
      exact h
    · intro h
      exact ⟨_, _, _, ⟨rfl, rfl, rfl⟩, h⟩
  have hf2 : ∀ x y, footprint
      { points := [⟨x0, y1, model.min_height⟩, ⟨x1, y1, model.min_height⟩,
          ⟨x1, y0, model.min_height⟩,
          ⟨x0, y1, model.heights (node.y_id + 1) (node.x_id + 0)⟩,
          ⟨x1, y1, model.heights (node.y_id + 1) (node.x_id + 1)⟩,
          ⟨x1, y0, model.heights (node.y_id + 0) (node.x_id + 1)⟩]
        num_points := 6
        polygons := [⟨2, 0, 1⟩, ⟨3, 5, 4⟩, ⟨0, 3, 1⟩, ⟨3, 4, 1⟩,
                     ⟨0, 2, 5⟩, ⟨0, 5, 3⟩, ⟨1, 5, 2⟩, ⟨4, 2, 1⟩]
        num_polygons := 8 } x y ↔
      (x ≤ x1 ∧ y ≤ y1 ∧
        (x1 - x0) * (y1 - y0) ≤ (x - x0) * (y1 - y0) + (y - y0) * (x1 - x0)) := by
    intro x y
    rw [← inTriangleXY_upper x0 x1 y0 y1 model.min_height model.min_height model.min_height
      x y hx hy]
    simp only [footprint, polygonPoints, List.getElem?_cons_zero, List.getElem?_cons_succ,
      Option.some.injEq, Prod.mk.injEq]
    constructor
    · rintro ⟨a, b, c, ⟨rfl, rfl, rfl⟩, h⟩
      exact h
    · intro h
      exact ⟨_, _, _, ⟨rfl, rfl, rfl⟩, h⟩
  refine ⟨?_, ?_, ?_, ?_, ?_⟩
  · intro x y
    rw [hf1, hf2]
    constructor
    · rintro (⟨h1, h2, h3⟩ | ⟨h1, h2, h3⟩)
      · refine ⟨h1, ?_, h2, ?_⟩
        · by_contra hc
          push_neg at hc
          nlinarith [mul_nonneg (sub_nonneg.2 h2) hdx.le, mul_pos (sub_pos.2 hc) hdy]
        · by_contra hc
          push_neg at hc
          nlinarith [mul_nonneg (sub_nonneg.2 h1) hdy.le, mul_pos (sub_pos.2 hc) hdx]
      · refine ⟨?_, h1, ?_, h2⟩
        · by_contra hc
          push_neg at hc
          nlinarith [mul_nonneg (sub_nonneg.2 h2) hdx.le, mul_pos (sub_pos.2 hc) hdy]
        · by_contra hc
          push_neg at hc
          nlinarith [mul_nonneg (sub_nonneg.2 h1) hdy.le, mul_pos (sub_pos.2 hc) hdx]
    · rintro ⟨h1, h2, h3, h4⟩
      rcases le_total ((x - x0) * (y1 - y0) + (y - y0) * (x1 - x0)) ((x1 - x0) * (y1 - y0))
        with h | h
      · exact Or.inl ⟨h1, h3, h⟩
      · exact Or.inr ⟨h2, h4, h⟩
  · rintro x y ⟨⟨a, b, c, hp, hin⟩, ⟨a', b', c', hp', hin'⟩⟩
    simp [polygonPoints] at hp hp'
    obtain ⟨rfl, rfl, rfl⟩ := hp
    obtain ⟨rfl, rfl, rfl⟩ := hp'
    have h1 := insideTriangleXY_lower x0 x1 y0 y1 _ _ _ x y hx hy hin
    have h2 := insideTriangleXY_upper x0 x1 y0 y1 _ _ _ x y hx hy hin'
    exact lt_irrefl _ (h1.trans h2)
  · intro x y
    rw [hf1, hf2]
    constructor
    · rintro ⟨⟨h1, h2, h3⟩, ⟨h4, h5, h6⟩⟩
      have he : (x - x0) * (y1 - y0) + (y - y0) * (x1 - x0) = (x1 - x0) * (y1 - y0) :=
        le_antisymm h3 h6
      refine ⟨(x - x0) / (x1 - x0), div_nonneg (by linarith) hdx.le,
        (div_le_one hdx).2 (by linarith), ?_, ?_⟩
      · field_simp
        ring
      · have hy' : (y1 - y) * (x1 - x0) = (x - x0) * (y1 - y0) := by linarith
        have ht : (x - x0) / (x1 - x0) = (y1 - y) / (y1 - y0) := by
          rw [div_eq_div_iff hdx.ne' hdy.ne']
          linarith
        rw [ht]
        field_simp
        ring
    · rintro ⟨t, ht0, ht1, rfl, rfl⟩
      refine ⟨⟨?_, ?_, ?_⟩, ⟨?_, ?_, ?_⟩⟩
      · nlinarith [mul_nonneg ht0 hdx.le]
      · nlinarith [mul_nonneg (sub_nonneg.2 ht1) hdy.le]
      · apply le_of_eq; ring
      · nlinarith [mul_nonneg (sub_nonneg.2 ht1) hdx.le]
      · nlinarith [mul_nonneg ht0 hdy.le]
      · apply le_of_eq; ring
  · intro p
    simp only [List.mem_cons, List.mem_singleton, List.not_mem_nil, or_false, Nat.add_zero]
    constructor
    · rintro ⟨h1, h2⟩
      rcases h1 with rfl | rfl | rfl | rfl | rfl | rfl <;>
        simp [Vec3f.mk.injEq, hx.ne, hy.ne, hx.ne', hy.ne'] at h2 ⊢
    · rintro (rfl | rfl | rfl | rfl) <;> simp
  · simp

/-- C9, at cell (0, 0) of the flat field, `[0, 3] x [0, 4]`: the point `(1, 1)` is
covered, and it is not inside both footprints. -/
theorem buildConvexTriangles_partition_witness :
    (footprint Examples.flatPrism1 1 1 ∨ footprint Examples.flatPrism2 1 1) ∧
      ¬ (footprintInterior Examples.flatPrism1 1 1 ∧
        footprintInterior Examples.flatPrism2 1 1) :=
  have h := buildConvexTriangles_partition Examples.ballExt ⟨0, 0, 0⟩ Examples.flatField
    Examples.flatPrism1 Examples.flatPrism2 (by with_unfolding_all rfl)
    (by with_unfolding_all decide) (by with_unfolding_all decide)
  ⟨(h.1 1 1).2 (by with_unfolding_all decide), h.2.1 1 1⟩

theorem Vec3f.comb_x (u v w : FCL_REAL) (a b c : Vec3f) :
    (u * a + v * b + w * c).x = u * a.x + v * b.x + w * c.x := rfl

theorem Vec3f.comb_y (u v w : FCL_REAL) (a b c : Vec3f) :
    (u * a + v * b + w * c).y = u * a.y + v * b.y + w * c.y := rfl

theorem Vec3f.comb_z (u v w : FCL_REAL) (a b c : Vec3f) :
    (u * a + v * b + w * c).z = u * a.z + v * b.z + w * c.z := rfl

/-- The height of a point of the top triangle of the first prism, against the
bilinear interpolation `b00 (1-s)(1-t) + b01 s (1-t) + b10 (1-s) t + b11 s t`. -/
theorem top1_height (x0 x1 y0 y1 c00 c01 c10 c11 u v w : FCL_REAL) (hx : x0 < x1)
    (hy : y0 < y1) (hs : u + v + w = 1) :
    u * c00 + v * c01 + w * c10 =
      c00 * (1 - (u * x0 + v * x1 + w * x0 - x0) / (x1 - x0)) *
          (1 - (u * y0 + v * y0 + w * y1 - y0) / (y1 - y0)) +
        c01 * ((u * x0 + v * x1 + w * x0 - x0) / (x1 - x0)) *
          (1 - (u * y0 + v * y0 + w * y1 - y0) / (y1 - y0)) +
        c10 * (1 - (u * x0 + v * x1 + w * x0 - x0) / (x1 - x0)) *
          ((u * y0 + v * y0 + w * y1 - y0) / (y1 - y0)) +
        c11 * ((u * x0 + v * x1 + w * x0 - x0) / (x1 - x0)) *
          ((u * y0 + v * y0 + w * y1 - y0) / (y1 - y0)) -
      (c00 - c01 - c10 + c11) * ((u * x0 + v * x1 + w * x0 - x0) / (x1 - x0)) *
        ((u * y0 + v * y0 + w * y1 - y0) / (y1 - y0)) := by
  have hdx : x1 - x0 ≠ 0 := (sub_pos.2 hx).ne'
  have hdy : y1 - y0 ≠ 0 := (sub_pos.2 hy).ne'
  have hu : u = 1 - v - w := by linarith
  subst hu
  have h1 : ((1 - v - w) * x0 + v * x1 + w * x0 - x0) / (x1 - x0) = v := by
    field_simp
    ring
  have h2 : ((1 - v - w) * y0 + v * y0 + w * y1 - y0) / (y1 - y0) = w := by
    field_simp
    ring
  rw [h1, h2]
  ring

/-- The height of a point of the top triangle of the second prism, against the
bilinear interpolation. -/
theorem top2_height (x0 x1 y0 y1 c00 c01 c10 c11 u v w : FCL_REAL) (hx : x0 < x1)
    (hy : y0 < y1) (hs : u + v + w = 1) :
    u * c10 + v * c01 + w * c11 =
      c00 * (1 - (u * x0 + v * x1 + w * x1 - x0) / (x1 - x0)) *
          (1 - (u * y1 + v * y0 + w * y1 - y0) / (y1 - y0)) +
        c01 * ((u * x0 + v * x1 + w * x1 - x0) / (x1 - x0)) *
          (1 - (u * y1 + v * y0 + w * y1 - y0) / (y1 - y0)) +
        c10 * (1 - (u * x0 + v * x1 + w * x1 - x0) / (x1 - x0)) *
          ((u * y1 + v * y0 + w * y1 - y0) / (y1 - y0)) +
        c11 * ((u * x0 + v * x1 + w * x1 - x0) / (x1 - x0)) *
          ((u * y1 + v * y0 + w * y1 - y0) / (y1 - y0)) -
      (c00 - c01 - c10 + c11) * (1 - (u * x0 + v * x1 + w * x1 - x0) / (x1 - x0)) *
        (1 - (u * y1 + v * y0 + w * y1 - y0) / (y1 - y0)) := by
  have hdx : x1 - x0 ≠ 0 := (sub_pos.2 hx).ne'
  have hdy : y1 - y0 ≠ 0 := (sub_pos.2 hy).ne'
  have hw : w = 1 - u - v := by linarith
  subst hw
  have h1 : (u * x0 + v * x1 + (1 - u - v) * x1 - x0) / (x1 - x0) = 1 - u := by
    field_simp
    ring
  have h2 : (u * y1 + v * y0 + (1 - u - v) * y1 - y0) / (y1 - y0) = 1 - v := by
    field_simp
    ring
  rw [h1, h2]
  ring

theorem list_length_six {α : Type} (ws : List α) (h : ws.length = 6) :
    ∃ a b c d e f, ws = [a, b, c, d, e, f] := by
  match ws, h with
  | [a, b, c, d, e, f], _ => exact ⟨a, b, c, d, e, f, rfl⟩

/-- The convex hull of three base points at height `m` and three top points over
them at heights at least `m` is the column over the triangle between `m` and the plane
through the top points. -/
theorem prism_column (ax ay bx b_y cx cy m ha hb hc : FCL_REAL) (Q : Vec3f)
    (h0 : m ≤ ha) (h1 : m ≤ hb) (h2 : m ≤ hc) :
    (∃ ws : List FCL_REAL, ws.length = 6 ∧ (∀ w ∈ ws, 0 ≤ w) ∧ ws.sum = 1 ∧
        Q = combination ws [⟨ax, ay, m⟩, ⟨bx, b_y, m⟩, ⟨cx, cy, m⟩,
          ⟨ax, ay, ha⟩, ⟨bx, b_y, hb⟩, ⟨cx, cy, hc⟩]) ↔
      ∃ u v w : FCL_REAL, 0 ≤ u ∧ 0 ≤ v ∧ 0 ≤ w ∧ u + v + w = 1 ∧
        Q.x = u * ax + v * bx + w * cx ∧ Q.y = u * ay + v * b_y + w * cy ∧
        m ≤ Q.z ∧ Q.z ≤ u * ha + v * hb + w * hc := by
  constructor
  · rintro ⟨ws, hlen, hpos, hsum, hQ⟩
    obtain ⟨l0, l1, l2, l3, l4, l5, rfl⟩ := list_length_six ws hlen
    simp only [List.mem_cons, List.mem_singleton, List.not_mem_nil, or_false, forall_eq_or_imp,
      forall_eq] at hpos
    obtain ⟨p0, p1, p2, p3, p4, p5⟩ := hpos
    simp only [List.sum_cons, List.sum_nil, add_zero] at hsum
    subst hQ
    have hl0 : l0 = 1 - l1 - l2 - l3 - l4 - l5 := by linarith
    subst hl0
    refine ⟨1 - l1 - l2 - l3 - l4 - l5 + l3, l1 + l4, l2 + l5, by linarith, by linarith,
      by linarith, by linarith, ?_, ?_, ?_, ?_⟩
    · show (1 - l1 - l2 - l3 - l4 - l5) * ax + (l1 * bx + (l2 * cx + (l3 * ax + (l4 * bx + (l5 * cx + 0))))) = _
      ring
    · show (1 - l1 - l2 - l3 - l4 - l5) * ay + (l1 * b_y + (l2 * cy + (l3 * ay + (l4 * b_y + (l5 * cy + 0))))) = _
      ring
    · show m ≤ (1 - l1 - l2 - l3 - l4 - l5) * m + (l1 * m + (l2 * m + (l3 * ha + (l4 * hb + (l5 * hc + 0)))))
      nlinarith [mul_nonneg p3 (sub_nonneg.2 h0), mul_nonneg p4 (sub_nonneg.2 h1),
        mul_nonneg p5 (sub_nonneg.2 h2)]
    · show (1 - l1 - l2 - l3 - l4 - l5) * m + (l1 * m + (l2 * m + (l3 * ha + (l4 * hb + (l5 * hc + 0))))) ≤ _
      nlinarith [mul_nonneg p0 (sub_nonneg.2 h0), mul_nonneg p1 (sub_nonneg.2 h1),
        mul_nonneg p2 (sub_nonneg.2 h2)]
  · rintro ⟨u, v, w, hu, hv, hw, hs, hx, hy, hz0, hz1⟩
    obtain ⟨qx, qy, qz⟩ := Q
    simp only at hx hy hz0 hz1
    subst hx hy
    have hH : m ≤ u * ha + v * hb + w * hc := le_trans hz0 hz1
    rcases eq_or_lt_of_le hH with he | hlt
    · have hqz : qz = m := le_antisymm (he ▸ hz1) hz0
      subst hqz
      refine ⟨[u, v, w, 0, 0, 0], rfl, ?_, ?_, ?_⟩
      · simp [hu, hv, hw]
      · simp; linarith
      · show (⟨_, _, _⟩ : Vec3f) = ⟨u * ax + (v * bx + (w * cx + (0 * ax + (0 * bx + (0 * cx + 0))))),
          u * ay + (v * b_y + (w * cy + (0 * ay + (0 * b_y + (0 * cy + 0))))),
          u * qz + (v * qz + (w * qz + (0 * ha + (0 * hb + (0 * hc + 0)))))⟩
        rw [Vec3f.mk.injEq]
        refine ⟨by ring, by ring, ?_⟩
        have : u * qz + (v * qz + (w * qz + (0 * ha + (0 * hb + (0 * hc + 0))))) =
            (u + v + w) * qz := by ring
        rw [this, hs, one_mul]
    · have hd : 0 < u * ha + v * hb + w * hc - m := sub_pos.2 hlt
      have ht0 : 0 ≤ (qz - m) / (u * ha + v * hb + w * hc - m) :=
        div_nonneg (sub_nonneg.2 hz0) hd.le
      have ht1 : (qz - m) / (u * ha + v * hb + w * hc - m) ≤ 1 :=
        (div_le_one hd).2 (by linarith)
      generalize hθ : (qz - m) / (u * ha + v * hb + w * hc - m) = θ at ht0 ht1
      have hqz : qz = (1 - θ) * m + θ * (u * ha + v * hb + w * hc) := by
        rw [← hθ]
        field_simp
        ring
      refine ⟨[(1 - θ) * u, (1 - θ) * v, (1 - θ) * w, θ * u, θ * v, θ * w], rfl, ?_, ?_, ?_⟩
      · have h1θ : 0 ≤ 1 - θ := sub_nonneg.2 ht1
        simp only [List.mem_cons, List.mem_singleton, List.not_mem_nil, or_false,
          forall_eq_or_imp, forall_eq]
        exact ⟨mul_nonneg h1θ hu, mul_nonneg h1θ hv, mul_nonneg h1θ hw, mul_nonneg ht0 hu,
          mul_nonneg ht0 hv, mul_nonneg ht0 hw⟩
      · simp only [List.sum_cons, List.sum_nil, add_zero]
        have : (1 - θ) * u + ((1 - θ) * v + ((1 - θ) * w + (θ * u + (θ * v + θ * w)))) =
            u + v + w := by ring
        rw [this, hs]
      · show (⟨_, _, _⟩ : Vec3f) = ⟨(1 - θ) * u * ax + ((1 - θ) * v * bx + ((1 - θ) * w * cx +
            (θ * u * ax + (θ * v * bx + (θ * w * cx + 0))))),
          (1 - θ) * u * ay + ((1 - θ) * v * b_y + ((1 - θ) * w * cy +
            (θ * u * ay + (θ * v * b_y + (θ * w * cy + 0))))),
          (1 - θ) * u * m + ((1 - θ) * v * m + ((1 - θ) * w * m +
            (θ * u * ha + (θ * v * hb + (θ * w * hc + 0)))))⟩
        rw [Vec3f.mk.injEq]
        refine ⟨by ring, by ring, ?_⟩
        rw [hqz]
        have hw' : w = 1 - u - v := by linarith
        subst hw'
        ring

/-- A convex with three base points at height `m`, three top points over them at
heights at least `m` and top cap `(3, 5, 4)` is the column between `m` and its top
triangle. -/
theorem prism_solid (convex : Convex Triangle) (ax ay bx b_y cx cy m ha hb hc : FCL_REAL)
    (Q : Vec3f)
    (hpts : convex.points = [⟨ax, ay, m⟩, ⟨bx, b_y, m⟩, ⟨cx, cy, m⟩,
      ⟨ax, ay, ha⟩, ⟨bx, b_y, hb⟩, ⟨cx, cy, hc⟩])
    (htop : convex.polygons[1]? = some ⟨3, 5, 4⟩)
    (h0 : m ≤ ha) (h1 : m ≤ hb) (h2 : m ≤ hc) :
    inSolid convex Q ↔
      ∃ P, onTopTriangle convex P ∧ P.x = Q.x ∧ P.y = Q.y ∧ m ≤ Q.z ∧ Q.z ≤ P.z := by
  unfold inSolid onTopTriangle polygonPoints
  rw [hpts, htop]
  simp only [List.length_cons, List.length_nil, List.getElem?_cons_zero, List.getElem?_cons_succ]
  rw [prism_column ax ay bx b_y cx cy m ha hb hc Q h0 h1 h2]
  constructor
  · rintro ⟨u, v, w, hu, hv, hw, hs, hx, hy, hz0, hz1⟩
    refine ⟨u * (⟨ax, ay, ha⟩ : Vec3f) + w * (⟨cx, cy, hc⟩ : Vec3f) + v * (⟨bx, b_y, hb⟩ : Vec3f),
      ⟨_, _, _, rfl, u, w, v, hu, hw, hv, by linarith, rfl⟩, ?_, ?_, hz0, ?_⟩
    · rw [Vec3f.comb_x, hx]; ring
    · rw [Vec3f.comb_y, hy]; ring
    · rw [Vec3f.comb_z]; linarith
  · rintro ⟨P, ⟨a, b, c, hp, u, v, w, hu, hv, hw, hs, rfl⟩, hx, hy, hz0, hz1⟩
    simp only [Option.some.injEq, Prod.mk.injEq] at hp
    obtain ⟨rfl, rfl, rfl⟩ := hp
    rw [Vec3f.comb_x] at hx
    rw [Vec3f.comb_y] at hy
    rw [Vec3f.comb_z] at hz1
    refine ⟨u, w, v, hu, hw, hv, by linarith, ?_, ?_, hz0, ?_⟩
    · rw [← hx]; ring
    · rw [← hy]; ring
    · linarith

/-- The middle of the diagonal of the top of `bumpPrism1` lies on its top triangle. -/
theorem bump_middle_onTopTriangle : onTopTriangle Examples.bumpPrism1 ⟨3 / 2, 2, 0⟩ := by
  refine ⟨⟨0, 0, 0⟩, ⟨3, 0, 0⟩, ⟨0, 4, 0⟩, by with_unfolding_all rfl, 0, 1 / 2, 1 / 2,
    by norm_num, by norm_num, by norm_num, by norm_num, ?_⟩
  with_unfolding_all decide

/-- C10, as stated, fails. On the cell `[0, 3] x [0, 4]` with corner heights 0, 0, 0
and 1 at `(3, 4)`, the middle `(3/2, 2, 0)` of the diagonal lies on the top triangle of
the first prism, at height 0, and the bilinear interpolation there is 1/4. -/
theorem top_surface_bilinear_counterexample :
    buildConvexTriangles Examples.ballExt ⟨0, 0, 1⟩ Examples.bumpField =
        .ok (Examples.bumpPrism1, Examples.bumpPrism2) ∧
      Examples.bumpField.x_grid 0 < Examples.bumpField.x_grid 1 ∧
      Examples.bumpField.y_grid 0 < Examples.bumpField.y_grid 1 ∧
      onTopTriangle Examples.bumpPrism1 ⟨3 / 2, 2, 0⟩ ∧
      footprint Examples.bumpPrism1 (3 / 2) 2 ∧
      bilinear ⟨0, 0, 1⟩ Examples.bumpField (3 / 2) 2 = 1 / 4 ∧
      (⟨3 / 2, 2, 0⟩ : Vec3f).z ≠ bilinear ⟨0, 0, 1⟩ Examples.bumpField (3 / 2) 2 := by
  have hbil : bilinear ⟨0, 0, 1⟩ Examples.bumpField (3 / 2) 2 = 1 / 4 := by
    with_unfolding_all decide
  refine ⟨by with_unfolding_all rfl, by with_unfolding_all decide,
    by with_unfolding_all decide, bump_middle_onTopTriangle, ?_, hbil, ?_⟩
  · refine ⟨⟨0, 0, -1⟩, ⟨0, 4, -1⟩, ⟨3, 0, -1⟩, by with_unfolding_all rfl, 0, 1 / 2, 1 / 2,
      by norm_num, by norm_num, by norm_num, by norm_num, by norm_num, by norm_num⟩
  · rw [hbil]; norm_num

/-- C10, amended. The top surface of the two prisms is piecewise planar: a point
`P` of the top triangle of the first prism is below the bilinear interpolation by
`twist * s * t`, a point of the top triangle of the second prism by
`twist * (1 - s) * (1 - t)`, with `s`, `t` the normalised coordinates of `P` in the
cell. So the top surface meets the bilinear surface exactly over the boundary of the
cell, or everywhere when the four corner heights lie in one plane; over every point
of a footprint there is a point of the top triangle of that prism; and when the four
corner heights are at least `min_height`, the union of the two prisms is the set of
points between `min_height` and a point of a top triangle above them. -/
theorem top_surface_height {S : Type} (ext : External S) (node : HFNode)
    (model : HeightField) (convex1 convex2 : Convex Triangle)
    (hb : buildConvexTriangles ext node model = .ok (convex1, convex2))
    (hx : model.x_grid node.x_id < model.x_grid (node.x_id + 1))
    (hy : model.y_grid node.y_id < model.y_grid (node.y_id + 1)) :
    (∀ P, onTopTriangle convex1 P →
        P.z = bilinear node model P.x P.y -
          twist node model * cellS node model P.x * cellT node model P.y) ∧
      (∀ P, onTopTriangle convex2 P →
        P.z = bilinear node model P.x P.y -
          twist node model * (1 - cellS node model P.x) * (1 - cellT node model P.y)) ∧
      (∀ P, onTopTriangle convex1 P →
        (P.z = bilinear node model P.x P.y ↔
          (twist node model = 0 ∨ P.x = model.x_grid node.x_id ∨
            P.y = model.y_grid node.y_id))) ∧
      (∀ P, onTopTriangle convex2 P →
        (P.z = bilinear node model P.x P.y ↔
          (twist node model = 0 ∨ P.x = model.x_grid (node.x_id + 1) ∨
            P.y = model.y_grid (node.y_id + 1)))) ∧
      (∀ x y, footprint convex1 x y → ∃ P, onTopTriangle convex1 P ∧ P.x = x ∧ P.y = y) ∧
      (∀ x y, footprint convex2 x y → ∃ P, onTopTriangle convex2 P ∧ P.x = x ∧ P.y = y) ∧
      (model.min_height ≤ model.heights node.y_id node.x_id →
        model.min_height ≤ model.heights node.y_id (node.x_id + 1) →
        model.min_height ≤ model.heights (node.y_id + 1) node.x_id →
        model.min_height ≤ model.heights (node.y_id + 1) (node.x_id + 1) →
        ∀ Q, (inSolid convex1 Q ∨ inSolid convex2 Q) ↔
          ∃ P, (onTopTriangle convex1 P ∨ onTopTriangle convex2 P) ∧ P.x = Q.x ∧ P.y = Q.y ∧
            model.min_height ≤ Q.z ∧ Q.z ≤ P.z) := by
  obtain ⟨e1, e2⟩ := buildConvexTriangles_ok ext node model convex1 convex2 hb
  clear hb
  have hsolid : model.min_height ≤ model.heights node.y_id node.x_id →
      model.min_height ≤ model.heights node.y_id (node.x_id + 1) →
      model.min_height ≤ model.heights (node.y_id + 1) node.x_id →
      model.min_height ≤ model.heights (node.y_id + 1) (node.x_id + 1) →
      ∀ Q, (inSolid convex1 Q ∨ inSolid convex2 Q) ↔
        ∃ P, (onTopTriangle convex1 P ∨ onTopTriangle convex2 P) ∧ P.x = Q.x ∧ P.y = Q.y ∧
          model.min_height ≤ Q.z ∧ Q.z ≤ P.z := by
    intro g00 g01 g10 g11 Q
    rw [prism_solid convex1 (model.x_grid node.x_id) (model.y_grid node.y_id)
        (model.x_grid node.x_id) (model.y_grid (node.y_id + 1))
        (model.x_grid (node.x_id + 1)) (model.y_grid node.y_id) model.min_height
        (model.heights node.y_id node.x_id) (model.heights (node.y_id + 1) node.x_id)
        (model.heights node.y_id (node.x_id + 1)) Q
        (congrArg Convex.points e1) (congrArg (fun c => c.polygons[1]?) e1) g00 g10 g01,
      prism_solid convex2 (model.x_grid node.x_id) (model.y_grid (node.y_id + 1))
        (model.x_grid (node.x_id + 1)) (model.y_grid (node.y_id + 1))
        (model.x_grid (node.x_id + 1)) (model.y_grid node.y_id) model.min_height
        (model.heights (node.y_id + 1) node.x_id)
        (model.heights (node.y_id + 1) (node.x_id + 1))
        (model.heights node.y_id (node.x_id + 1)) Q
        (congrArg Convex.points e2) (congrArg (fun c => c.polygons[1]?) e2) g10 g11 g01]
    constructor
    · rintro (⟨P, hP, h⟩ | ⟨P, hP, h⟩)
      · exact ⟨P, Or.inl hP, h⟩
      · exact ⟨P, Or.inr hP, h⟩
    · rintro ⟨P, hP | hP, h⟩
      · exact Or.inl ⟨P, hP, h⟩
      · exact Or.inr ⟨P, hP, h⟩
  subst e1 e2
  have hdx : model.x_grid (node.x_id + 1) - model.x_grid node.x_id ≠ 0 := (sub_pos.2 hx).ne'
  have hdy : model.y_grid (node.y_id + 1) - model.y_grid node.y_id ≠ 0 := (sub_pos.2 hy).ne'
  have h1 : ∀ P, onTopTriangle
      { points := [⟨model.x_grid node.x_id, model.y_grid node.y_id, model.min_height⟩,
          ⟨model.x_grid node.x_id, model.y_grid (node.y_id + 1), model.min_height⟩,
          ⟨model.x_grid (node.x_id + 1), model.y_grid node.y_id, model.min_height⟩,
          ⟨model.x_grid node.x_id, model.y_grid node.y_id,
            model.heights (node.y_id + 0) (node.x_id + 0)⟩,
          ⟨model.x_grid node.x_id, model.y_grid (node.y_id + 1),
            model.heights (node.y_id + 1) (node.x_id + 0)⟩,
          ⟨model.x_grid (node.x_id + 1), model.y_grid node.y_id,
            model.heights (node.y_id + 0) (node.x_id + 1)⟩]
        num_points := 6
        polygons := [⟨0, 1, 2⟩, ⟨3, 5, 4⟩, ⟨0, 3, 1⟩, ⟨3, 4, 1⟩,
                     ⟨1, 5, 2⟩, ⟨1, 4, 5⟩, ⟨0, 2, 5⟩, ⟨5, 3, 0⟩]
        num_polygons := 8 } P →
      P.z = bilinear node model P.x P.y -
        twist node model * cellS node model P.x * cellT node model P.y := by
    rintro P ⟨a, b, c, hp, u, v, w, -, -, -, hs, rfl⟩
    simp only [polygonPoints, List.getElem?_cons_zero, List.getElem?_cons_succ,
      Option.some.injEq, Prod.mk.injEq] at hp
    obtain ⟨rfl, rfl, rfl⟩ := hp
    exact top1_height _ _ _ _ _ _ _ _ u v w hx hy hs
  have h2 : ∀ P, onTopTriangle
      { points := [⟨model.x_grid node.x_id, model.y_grid (node.y_id + 1), model.min_height⟩,
          ⟨model.x_grid (node.x_id + 1), model.y_grid (node.y_id + 1), model.min_height⟩,
          ⟨model.x_grid (node.x_id + 1), model.y_grid node.y_id, model.min_height⟩,
          ⟨model.x_grid node.x_id, model.y_grid (node.y_id + 1),
            model.heights (node.y_id + 1) (node.x_id + 0)⟩,
          ⟨model.x_grid (node.x_id + 1), model.y_grid (node.y_id + 1),
            model.heights (node.y_id + 1) (node.x_id + 1)⟩,
          ⟨model.x_grid (node.x_id + 1), model.y_grid node.y_id,
            model.heights (node.y_id + 0) (node.x_id + 1)⟩]
        num_points := 6
        polygons := [⟨2, 0, 1⟩, ⟨3, 5, 4⟩, ⟨0, 3, 1⟩, ⟨3, 4, 1⟩,
                     ⟨0, 2, 5⟩, ⟨0, 5, 3⟩, ⟨1, 5, 2⟩, ⟨4, 2, 1⟩]
        num_polygons := 8 } P →
      P.z = bilinear node model P.x P.y -
        twist node model * (1 - cellS node model P.x) * (1 - cellT node model P.y) := by
    rintro P ⟨a, b, c, hp, u, v, w, -, -, -, hs, rfl⟩
    simp only [polygonPoints, List.getElem?_cons_zero, List.getElem?_cons_succ,
      Option.some.injEq, Prod.mk.injEq] at hp
    obtain ⟨rfl, rfl, rfl⟩ := hp
    exact top2_height _ _ _ _ _ _ _ _ u v w hx hy hs
  refine ⟨h1, h2, ?_, ?_, ?_, ?_, ?_⟩
  · intro P hP
    rw [h1 P hP]
    have hs : cellS node model P.x = 0 ↔ P.x = model.x_grid node.x_id := by
      unfold cellS
      rw [div_eq_zero_iff, sub_eq_zero]
      simp [hdx]
    have ht : cellT node model P.y = 0 ↔ P.y = model.y_grid node.y_id := by
      unfold cellT
      rw [div_eq_zero_iff, sub_eq_zero]
      simp [hdy]
    rw [← hs, ← ht, sub_eq_self, mul_assoc, mul_eq_zero, mul_eq_zero]
  · intro P hP
    rw [h2 P hP]
    have hs : 1 - cellS node model P.x = 0 ↔ P.x = model.x_grid (node.x_id + 1) := by
      unfold cellS
      rw [sub_eq_zero, eq_comm, div_eq_one_iff_eq hdx]
      constructor <;> intro h <;> linarith
    have ht : 1 - cellT node model P.y = 0 ↔ P.y = model.y_grid (node.y_id + 1) := by
      unfold cellT
      rw [sub_eq_zero, eq_comm, div_eq_one_iff_eq hdy]
      constructor <;> intro h <;> linarith
    rw [← hs, ← ht, sub_eq_self, mul_assoc, mul_eq_zero, mul_eq_zero]
  · rintro x y ⟨a, b, c, hp, u, v, w, hu, hv, hw, hs, rfl, rfl⟩
    simp only [polygonPoints, List.getElem?_cons_zero, List.getElem?_cons_succ,
      Option.some.injEq, Prod.mk.injEq] at hp
    obtain ⟨rfl, rfl, rfl⟩ := hp
    refine ⟨_, ⟨⟨model.x_grid node.x_id, model.y_grid node.y_id,
        model.heights (node.y_id + 0) (node.x_id + 0)⟩,
      ⟨model.x_grid (node.x_id + 1), model.y_grid node.y_id,
        model.heights (node.y_id + 0) (node.x_id + 1)⟩,
      ⟨model.x_grid node.x_id, model.y_grid (node.y_id + 1),
        model.heights (node.y_id + 1) (node.x_id + 0)⟩,
      rfl, u, w, v, hu, hw, hv, by linarith, rfl⟩, ?_, ?_⟩
    · rw [Vec3f.comb_x]; ring
    · rw [Vec3f.comb_y]; ring
  · rintro x y ⟨a, b, c, hp, u, v, w, hu, hv, hw, hs, rfl, rfl⟩
    simp only [polygonPoints, List.getElem?_cons_zero, List.getElem?_cons_succ,
      Option.some.injEq, Prod.mk.injEq] at hp
    obtain ⟨rfl, rfl, rfl⟩ := hp
    refine ⟨_, ⟨⟨model.x_grid node.x_id, model.y_grid (node.y_id + 1),
        model.heights (node.y_id + 1) (node.x_id + 0)⟩,
      ⟨model.x_grid (node.x_id + 1), model.y_grid node.y_id,
        model.heights (node.y_id + 0) (node.x_id + 1)⟩,
      ⟨model.x_grid (node.x_id + 1), model.y_grid (node.y_id + 1),
        model.heights (node.y_id + 1) (node.x_id + 1)⟩,
      rfl, v, u, w, hv, hu, hw, by linarith, rfl⟩, ?_, ?_⟩
    · rw [Vec3f.comb_x]; ring
    · rw [Vec3f.comb_y]; ring
  · exact hsolid

/-- C10 amended, at the cell `[0, 3] x [0, 4]` with corner heights 0, 0, 0 and 1: at
the middle of the diagonal the top surface is at 0, the bilinear interpolation 1/4
minus the twist 1 times 1/2 times 1/2. -/
theorem top_surface_height_witness :
    (⟨3 / 2, 2, 0⟩ : Vec3f).z =
      bilinear ⟨0, 0, 1⟩ Examples.bumpField (3 / 2) 2 -
        twist ⟨0, 0, 1⟩ Examples.bumpField * cellS ⟨0, 0, 1⟩ Examples.bumpField (3 / 2) *
          cellT ⟨0, 0, 1⟩ Examples.bumpField 2 :=
  (top_surface_height Examples.ballExt ⟨0, 0, 1⟩ Examples.bumpField Examples.bumpPrism1
    Examples.bumpPrism2 (by with_unfolding_all rfl) (by with_unfolding_all decide)
    (by with_unfolding_all decide)).1 ⟨3 / 2, 2, 0⟩ bump_middle_onTopTriangle

end details

/-! ## The faces and vertices of the prisms -/

namespace details

/-- The topology of the two prisms of any cell. The triangles of the first prism
form a closed, consistently oriented surface and each of its three walls is split
along a diagonal. The triangles of the second prism do not: its wall over the base
edge `(1, 2)` holds the triangles `(1, 5, 2)` and `(4, 2, 1)`, which share the base
edge and leave out the two top corners. -/
theorem buildConvexTriangles_topology {S : Type} (ext : External S) (node : HFNode)
    (model : HeightField) (convex1 convex2 : Convex Triangle)
    (hb : buildConvexTriangles ext node model = .ok (convex1, convex2)) :
    (convex1.polygons.length = 8 ∧ convex2.polygons.length = 8) ∧
      (closedSurface convex1.polygons = true ∧ wallSplit convex1.polygons 0 1 = true ∧
        wallSplit convex1.polygons 1 2 = true ∧ wallSplit convex1.polygons 0 2 = true) ∧
      (closedSurface convex2.polygons = false ∧ wallSplit convex2.polygons 0 1 = true ∧
        wallSplit convex2.polygons 1 2 = false ∧ wallSplit convex2.polygons 0 2 = true) ∧
      wallTriangles convex2.polygons 1 2 = [⟨1, 5, 2⟩, ⟨4, 2, 1⟩] ∧
      (directedEdges convex2.polygons).count (2, 1) = 2 ∧
      (directedEdges convex2.polygons).count (5, 4) = 1 ∧
      (directedEdges convex2.polygons).count (4, 5) = 0 := by
  obtain ⟨e1, e2⟩ := buildConvexTriangles_ok ext node model convex1 convex2 hb
  have h1 : convex1.polygons = [⟨0, 1, 2⟩, ⟨3, 5, 4⟩, ⟨0, 3, 1⟩, ⟨3, 4, 1⟩,
      ⟨1, 5, 2⟩, ⟨1, 4, 5⟩, ⟨0, 2, 5⟩, ⟨5, 3, 0⟩] := congrArg Convex.polygons e1
  have h2 : convex2.polygons = [⟨2, 0, 1⟩, ⟨3, 5, 4⟩, ⟨0, 3, 1⟩, ⟨3, 4, 1⟩,
      ⟨0, 2, 5⟩, ⟨0, 5, 3⟩, ⟨1, 5, 2⟩, ⟨4, 2, 1⟩] := congrArg Convex.polygons e2
  rw [h1, h2]
  decide

/-- C11 fails on the second prism. At cell (0, 0) of the flat field the first prism
is a closed surface with its three walls split along a diagonal, but in the second
prism the directed edge `2 -> 1` is used by two triangles, the top edge `5 -> 4` has
no reverse, and the wall over the base edge `(1, 2)` is not split along a diagonal. -/
theorem second_prism_surface_not_closed :
    buildConvexTriangles Examples.ballExt ⟨0, 0, 0⟩ Examples.flatField =
        .ok (Examples.flatPrism1, Examples.flatPrism2) ∧
      closedSurface Examples.flatPrism1.polygons = true ∧
      closedSurface Examples.flatPrism2.polygons = false ∧
      wallSplit Examples.flatPrism2.polygons 1 2 = false ∧
      (directedEdges Examples.flatPrism2.polygons).count (2, 1) = 2 ∧
      (directedEdges Examples.flatPrism2.polygons).count (5, 4) = 1 ∧
      (directedEdges Examples.flatPrism2.polygons).count (4, 5) = 0 :=
  ⟨by with_unfolding_all rfl, by decide, by decide, by decide, by decide, by decide, by decide⟩

/-- C13. Each prism has exactly six points: three base corners on the plane
`min_height` followed by the three top corners over them, each at the sampled height
`heights(y_id + j, x_id + i)` of its grid corner `(x_grid[x_id + i], y_grid[y_id + j])`;
the corners are `(0,0), (0,1), (1,0)` for the first prism and `(0,1), (1,1), (1,0)`
for the second. The top cap, polygon 1, is made of the top points 3, 5, 4. When the
grids increase strictly, a top point located at a grid corner has the height sampled
at that corner. -/
theorem buildConvexTriangles_vertices {S : Type} (ext : External S) (node : HFNode)
    (model : HeightField) (convex1 convex2 : Convex Triangle)
    (hb : buildConvexTriangles ext node model = .ok (convex1, convex2)) :
    convex1.points = [(0, 0), (0, 1), (1, 0)].map (baseCorner node model) ++
        [(0, 0), (0, 1), (1, 0)].map (topCorner node model) ∧
      convex2.points = [(0, 1), (1, 1), (1, 0)].map (baseCorner node model) ++
        [(0, 1), (1, 1), (1, 0)].map (topCorner node model) ∧
      (convex1.points.length = 6 ∧ convex1.num_points = 6 ∧
        convex2.points.length = 6 ∧ convex2.num_points = 6) ∧
      (convex1.polygons[1]? = some ⟨3, 5, 4⟩ ∧ convex2.polygons[1]? = some ⟨3, 5, 4⟩) ∧
      (∀ convex ∈ [convex1, convex2], ∀ k, k < 3 →
        ∃ p q, convex.points[k]? = some p ∧ convex.points[k + 3]? = some q ∧
          p.z = model.min_height ∧ q.x = p.x ∧ q.y = p.y) ∧
      (model.x_grid node.x_id < model.x_grid (node.x_id + 1) →
        model.y_grid node.y_id < model.y_grid (node.y_id + 1) →
        ∀ convex ∈ [convex1, convex2], ∀ q ∈ convex.points.drop 3, ∀ i j, i ≤ 1 → j ≤ 1 →
          q.x = model.x_grid (node.x_id + i) → q.y = model.y_grid (node.y_id + j) →
          q.z = model.heights (node.y_id + j) (node.x_id + i)) := by
  obtain ⟨rfl, rfl⟩ := buildConvexTriangles_ok ext node model convex1 convex2 hb
  refine ⟨rfl, rfl, ⟨rfl, rfl, rfl, rfl⟩, ⟨rfl, rfl⟩, ?_, ?_⟩
  · intro convex hc k hk
    simp only [List.mem_cons, List.mem_singleton, List.not_mem_nil, or_false] at hc
    rcases hc with rfl | rfl <;>
      (have hk' : k = 0 ∨ k = 1 ∨ k = 2 := by omega
       rcases hk' with rfl | rfl | rfl <;> exact ⟨_, _, rfl, rfl, rfl, rfl, rfl⟩)
  · intro hx hy convex hc q hq i j hi hj hqx hqy
    have hi' : i = 0 ∨ i = 1 := by omega
    have hj' : j = 0 ∨ j = 1 := by omega
    simp only [List.mem_cons, List.mem_singleton, List.not_mem_nil, or_false] at hc
    rcases hc with rfl | rfl <;>
      simp only [List.drop_succ_cons, List.drop_zero, List.mem_cons, List.mem_singleton,
        List.not_mem_nil, or_false] at hq <;>
      rcases hq with rfl | rfl | rfl <;>
      rcases hi' with rfl | rfl <;> rcases hj' with rfl | rfl <;>
      simp only [Nat.add_zero] at hqx hqy ⊢ <;>
      first
        | rfl
        | exact absurd hqx hx.ne
        | exact absurd hqx hx.ne'
        | exact absurd hqy hy.ne
        | exact absurd hqy hy.ne'

/-- C13, at cell (0, 0) of the flat field: the second prism has six points and its
point 4 is the top corner at grid offsets `(1, 1)`. -/
theorem buildConvexTriangles_vertices_witness :
    Examples.flatPrism2.points.length = 6 ∧
      Examples.flatPrism2.points[4]? = some (topCorner ⟨0, 0, 0⟩ Examples.flatField (1, 1)) :=
  have h := buildConvexTriangles_vertices Examples.ballExt ⟨0, 0, 0⟩ Examples.flatField
    Examples.flatPrism1 Examples.flatPrism2 (by with_unfolding_all rfl)
  ⟨h.2.2.1.2.2.1, by rw [h.2.1]; rfl⟩

/-- C20. In a build with assertions, `buildConvexTriangles` fails for every node
whose `max_height` is at most the `min_height` of the model, without any output, and
for every node with `max_height > min_height` it returns both prisms, each with six
points and eight triangles. -/
theorem buildConvexTriangles_rejects_degenerate {S : Type} (ext : External S) (node : HFNode)
    (model : HeightField) (hN : ext.NDEBUG = false) :
    (node.max_height ≤ model.min_height →
        buildConvexTriangles ext node model =
          .error Abort.max_height_is_lower_than_min_height) ∧
      (node.max_height > model.min_height →
        ∃ convex1 convex2, buildConvexTriangles ext node model = .ok (convex1, convex2) ∧
          convex1.points.length = 6 ∧ convex1.polygons.length = 8 ∧
          convex1.num_points = 6 ∧ convex1.num_polygons = 8 ∧
          convex2.points.length = 6 ∧ convex2.polygons.length = 8 ∧
          convex2.num_points = 6 ∧ convex2.num_polygons = 8) ∧
      ((∃ convex1 convex2, buildConvexTriangles ext node model = .ok (convex1, convex2)) ↔
        node.max_height > model.min_height) := by
  have hbad : node.max_height ≤ model.min_height →
      buildConvexTriangles ext node model =
        .error Abort.max_height_is_lower_than_min_height := by
    intro h
    unfold buildConvexTriangles
    simp [hN, not_lt_of_ge h]
  have hgood : node.max_height > model.min_height →
      ∃ convex1 convex2, buildConvexTriangles ext node model = .ok (convex1, convex2) ∧
        convex1.points.length = 6 ∧ convex1.polygons.length = 8 ∧
        convex1.num_points = 6 ∧ convex1.num_polygons = 8 ∧
        convex2.points.length = 6 ∧ convex2.polygons.length = 8 ∧
        convex2.num_points = 6 ∧ convex2.num_polygons = 8 := by
    intro h
    unfold buildConvexTriangles
    simp only [hN, Bool.false_or, decide_eq_true_eq, h, if_true]
    exact ⟨_, _, rfl, rfl, rfl, rfl, rfl, rfl, rfl, rfl, rfl⟩
  refine ⟨hbad, hgood, ?_, ?_⟩
  · rintro ⟨convex1, convex2, h⟩
    by_contra hc
    rw [hbad (le_of_not_gt hc)] at h
    cases h
  · intro h
    obtain ⟨convex1, convex2, h', -⟩ := hgood h
    exact ⟨convex1, convex2, h'⟩

/-- C20, on the flat field with base plane -1: a node with `max_height = -1` is
rejected and a node with `max_height = 0` gives two prisms. -/
theorem buildConvexTriangles_rejects_degenerate_witness :
    buildConvexTriangles Examples.ballExt ⟨0, 0, -1⟩ Examples.flatField =
        .error Abort.max_height_is_lower_than_min_height ∧
      ∃ convex1 convex2,
        buildConvexTriangles Examples.ballExt ⟨0, 0, 0⟩ Examples.flatField =
          .ok (convex1, convex2) :=
  have h1 := buildConvexTriangles_rejects_degenerate Examples.ballExt ⟨0, 0, -1⟩
    Examples.flatField rfl
  have h2 := buildConvexTriangles_rejects_degenerate Examples.ballExt ⟨0, 0, 0⟩
    Examples.flatField rfl
  ⟨h1.1 (by with_unfolding_all decide), h2.2.2.2 (by with_unfolding_all decide)⟩

/-- A vector with a positive dot product with some vector is not zero. -/
theorem ne_zero_of_dot_pos (n v : Vec3f) (h : 0 < n.dot v) : n ≠ Vec3f.zero := by
  intro hn
  rw [hn] at h
  simp [Vec3f.dot, Vec3f.zero] at h

/-- A positive dot product gives both parts of `outwardFace`. -/
theorem outward_of_dot_pos (n v : Vec3f) (h : 0 < n.dot v) :
    n ≠ Vec3f.zero ∧ 0 < n.dot v :=
  ⟨ne_zero_of_dot_pos n v h, h⟩

theorem vec_sub_x (a b : Vec3f) : (a - b).x = a.x - b.x := rfl
theorem vec_sub_y (a b : Vec3f) : (a - b).y = a.y - b.y := rfl
theorem vec_sub_z (a b : Vec3f) : (a - b).z = a.z - b.z := rfl
theorem vec_add_x (a b : Vec3f) : (a + b).x = a.x + b.x := rfl
theorem vec_add_y (a b : Vec3f) : (a + b).y = a.y + b.y := rfl
theorem vec_add_z (a b : Vec3f) : (a + b).z = a.z + b.z := rfl
theorem vec_smul_x (k : FCL_REAL) (a : Vec3f) : (k * a).x = k * a.x := rfl
theorem vec_smul_y (k : FCL_REAL) (a : Vec3f) : (k * a).y = k * a.y := rfl
theorem vec_smul_z (k : FCL_REAL) (a : Vec3f) : (k * a).z = k * a.z := rfl

/-- C12. Outward winding: in a cell with `x0 < x1`, `y0 < y1` and the four corner
heights strictly above `min_height`, each of the eight triangles `(i, j, k)` of each
prism has a normal `(p_j - p_i) x (p_k - p_i)` that is not zero and has a strictly
positive dot product with `p_i` minus the centroid of the six vertices. -/
theorem buildConvexTriangles_outward {S : Type} (ext : External S) (node : HFNode)
    (model : HeightField) (convex1 convex2 : Convex Triangle)
    (hb : buildConvexTriangles ext node model = .ok (convex1, convex2))
    (hx : model.x_grid node.x_id < model.x_grid (node.x_id + 1))
    (hy : model.y_grid node.y_id < model.y_grid (node.y_id + 1))
    (g00 : model.min_height < model.heights node.y_id node.x_id)
    (g01 : model.min_height < model.heights node.y_id (node.x_id + 1))
    (g10 : model.min_height < model.heights (node.y_id + 1) node.x_id)
    (g11 : model.min_height < model.heights (node.y_id + 1) (node.x_id + 1)) :
    ∀ convex ∈ [convex1, convex2], ∀ t ∈ convex.polygons, outwardFace convex t := by
  obtain ⟨rfl, rfl⟩ := buildConvexTriangles_ok ext node model convex1 convex2 hb
  clear hb
  simp only [Nat.add_zero]
  generalize model.x_grid node.x_id = x0 at hx ⊢
  generalize model.x_grid (node.x_id + 1) = x1 at hx ⊢
  generalize model.y_grid node.y_id = y0 at hy ⊢
  generalize model.y_grid (node.y_id + 1) = y1 at hy ⊢
  generalize model.heights node.y_id node.x_id = h00 at g00 ⊢
  generalize model.heights node.y_id (node.x_id + 1) = h01 at g01 ⊢
  generalize model.heights (node.y_id + 1) node.x_id = h10 at g10 ⊢
  generalize model.heights (node.y_id + 1) (node.x_id + 1) = h11 at g11 ⊢
  generalize model.min_height = m at g00 g01 g10 g11 ⊢
  have hdx : 0 < x1 - x0 := sub_pos.2 hx
  have hdy : 0 < y1 - y0 := sub_pos.2 hy
  have hA := mul_pos hdx hdy
  have k00 := mul_pos hA (sub_pos.2 g00)
  have k01 := mul_pos hA (sub_pos.2 g01)
  have k10 := mul_pos hA (sub_pos.2 g10)
  have k11 := mul_pos hA (sub_pos.2 g11)
  intro convex hc t ht
  simp only [List.mem_cons, List.mem_singleton, List.not_mem_nil, or_false] at hc
  rcases hc with rfl | rfl <;>
    simp only [List.mem_cons, List.mem_singleton, List.not_mem_nil, or_false] at ht <;>
    rcases ht with rfl | rfl | rfl | rfl | rfl | rfl | rfl | rfl <;>
    (simp only [outwardFace, List.getElem?_cons_zero, List.getElem?_cons_succ]
     apply outward_of_dot_pos
     simp only [faceNormal, centroid, Vec3f.dot, Vec3f.cross, vec_sub_x, vec_sub_y, vec_sub_z, vec_add_x, vec_add_y,
       vec_add_z, vec_smul_x, vec_smul_y, vec_smul_z, List.foldr, List.length_cons, List.length_nil,
       Vec3f.zero]
     norm_num
     linarith)

/-- C12, at cell (0, 0) of the flat field: the triangle `(4, 2, 1)` of the second
prism is wound outward. -/
theorem buildConvexTriangles_outward_witness :
    outwardFace Examples.flatPrism2 ⟨4, 2, 1⟩ :=
  buildConvexTriangles_outward Examples.ballExt ⟨0, 0, 0⟩ Examples.flatField
    Examples.flatPrism1 Examples.flatPrism2 (by with_unfolding_all rfl)
    (by with_unfolding_all decide) (by with_unfolding_all decide)
    (by with_unfolding_all decide) (by with_unfolding_all decide)
    (by with_unfolding_all decide) (by with_unfolding_all decide)
    Examples.flatPrism2 (by simp) ⟨4, 2, 1⟩ (by decide)

end details

/-! ## Bin correction -/

namespace details

/-- The top triangle read through `polygonPoints` is the one `binCorrection` reads. -/
theorem polygonPoints_one (convex : Convex Triangle) (A B C : Vec3f)
    (htop : polygonPoints convex 1 = some (A, B, C)) :
    ∃ t, convex.polygons[1]? = some t ∧ convex.points[t.get 0]? = some A ∧
      convex.points[t.get 1]? = some B ∧ convex.points[t.get 2]? = some C := by
  unfold polygonPoints at htop
  cases ht : convex.polygons[1]? with
  | none => simp [ht] at htop
  | some t =>
    simp only [ht] at htop
    cases ha : convex.points[t.v0]? with
    | none => simp [ha] at htop
    | some a =>
      cases hb : convex.points[t.v1]? with
      | none => simp [ha, hb] at htop
      | some b =>
        cases hc : convex.points[t.v2]? with
        | none => simp [ha, hb, hc] at htop
        | some c =>
          simp only [ha, hb, hc, Option.some.injEq, Prod.mk.injEq] at htop
          obtain ⟨rfl, rfl, rfl⟩ := htop
          exact ⟨t, rfl, ha, hb, hc⟩

/-- What `binCorrection` does on a convex whose top triangle is `(A, B, C)`. -/
theorem binCorrection_of_top {S : Type} (ext : External S) (convex : Convex Triangle)
    (shape : S) (shape_pose : Transform3f) (distance : FCL_REAL)
    (contact_1 contact_2 normal : Vec3f) (is_collision : Bool) (A B C : Vec3f)
    (htop : polygonPoints convex 1 = some (A, B, C)) :
    binCorrection ext convex shape shape_pose distance contact_1 contact_2 normal is_collision =
      if (!ext.NDEBUG && ext.isNaN (topNormal ext A B C)) = true then
        .error Abort.normal_top_is_ill_defined
      else if is_collision = true then
        .ok { distance := -(ext.norm
                (projectTriangle ext A B C
                    (worldSupport ext shape shape_pose (topNormal ext A B C) -
                      supportPlaneDistance ext shape shape_pose (topNormal ext A B C) A *
                        topNormal ext A B C) -
                  (projectTriangle ext A B C
                      (worldSupport ext shape shape_pose (topNormal ext A B C) -
                        supportPlaneDistance ext shape shape_pose (topNormal ext A B C) A *
                          topNormal ext A B C) +
                    supportPlaneDistance ext shape shape_pose (topNormal ext A B C) A *
                      topNormal ext A B C)))
              contact_1 := projectTriangle ext A B C
                (worldSupport ext shape shape_pose (topNormal ext A B C) -
                  supportPlaneDistance ext shape shape_pose (topNormal ext A B C) A *
                    topNormal ext A B C)
              contact_2 := projectTriangle ext A B C
                  (worldSupport ext shape shape_pose (topNormal ext A B C) -
                    supportPlaneDistance ext shape shape_pose (topNormal ext A B C) A *
                      topNormal ext A B C) +
                supportPlaneDistance ext shape shape_pose (topNormal ext A B C) A *
                  topNormal ext A B C
              normal := topNormal ext A B C
              normal_top := topNormal ext A B C
              is_collision := is_collision
              hfield_witness_is_on_bin_side :=
                !(ext.isApprox (projectTriangle ext A B C contact_1) contact_1) }
      else
        .ok { distance := distance
              contact_1 := contact_1
              contact_2 := contact_2
              normal := if (!(ext.isApprox (projectTriangle ext A B C contact_1) contact_1)) = true
                then normal else topNormal ext A B C
              normal_top := topNormal ext A B C
              is_collision := is_collision
              hfield_witness_is_on_bin_side :=
                !(ext.isApprox (projectTriangle ext A B C contact_1) contact_1) } := by
  obtain ⟨t, ht, ha, hb, hc⟩ := polygonPoints_one convex A B C htop
  unfold binCorrection
  simp only [ht, ha, hb, hc]
  rfl

/-- C14. Bin correction is a no-op when the witness already lies on the top
triangle: without collision, when `contact_1` equals its projection on the top
triangle `(A, B, C)` (for `isApprox`, which holds in particular when the two are
equal and `isApprox` is reflexive) and `normal_top` passes its assertion,
`binCorrection` returns false, sets the normal to `normal_top` and leaves the
distance, both contacts and the collision flag as they were. -/
theorem binCorrection_noop_on_top {S : Type} (ext : External S) (convex : Convex Triangle)
    (shape : S) (shape_pose : Transform3f) (distance : FCL_REAL)
    (contact_1 contact_2 normal : Vec3f) (A B C : Vec3f)
    (htop : polygonPoints convex 1 = some (A, B, C))
    (hdef : ext.NDEBUG = true ∨ ext.isNaN (topNormal ext A B C) = false)
    (hon : ext.isApprox (projectTriangle ext A B C contact_1) contact_1 = true ∨
      (projectTriangle ext A B C contact_1 = contact_1 ∧ ∀ v, ext.isApprox v v = true)) :
    binCorrection ext convex shape shape_pose distance contact_1 contact_2 normal false =
      .ok { distance := distance
            contact_1 := contact_1
            contact_2 := contact_2
            normal := topNormal ext A B C
            normal_top := topNormal ext A B C
            is_collision := false
            hfield_witness_is_on_bin_side := false } := by
  have hon' : ext.isApprox (projectTriangle ext A B C contact_1) contact_1 = true := by
    rcases hon with h | ⟨h, hrefl⟩
    · exact h
    · rw [h]; exact hrefl contact_1
  have hdef' : (!ext.NDEBUG && ext.isNaN (topNormal ext A B C)) = false := by
    rcases hdef with h | h <;> simp [h]
  rw [binCorrection_of_top ext convex shape shape_pose distance contact_1 contact_2 normal false
    A B C htop, hdef', hon']
  simp

/-- C14, at the first prism of the flat cell with the witness `(1, 1, 0)` on its top:
the normal, here `(1, 0, 0)` before the call, becomes `normal_top = (0, 0, 1)` and the
rest is unchanged. -/
theorem binCorrection_noop_on_top_witness :
    binCorrection Examples.ballExt Examples.flatPrism1 ⟨1 / 2⟩ (Examples.ballPose (3 / 4))
        (1 / 4) ⟨1, 1, 0⟩ ⟨1, 1, 1 / 4⟩ ⟨1, 0, 0⟩ false =
      .ok { distance := 1 / 4
            contact_1 := ⟨1, 1, 0⟩
            contact_2 := ⟨1, 1, 1 / 4⟩
            normal := topNormal Examples.ballExt ⟨0, 0, 0⟩ ⟨3, 0, 0⟩ ⟨0, 4, 0⟩
            normal_top := topNormal Examples.ballExt ⟨0, 0, 0⟩ ⟨3, 0, 0⟩ ⟨0, 4, 0⟩
            is_collision := false
            hfield_witness_is_on_bin_side := false } ∧
      topNormal Examples.ballExt ⟨0, 0, 0⟩ ⟨3, 0, 0⟩ ⟨0, 4, 0⟩ = ⟨0, 0, 1⟩ :=
  ⟨binCorrection_noop_on_top Examples.ballExt Examples.flatPrism1 ⟨1 / 2⟩
    (Examples.ballPose (3 / 4)) (1 / 4) ⟨1, 1, 0⟩ ⟨1, 1, 1 / 4⟩ ⟨1, 0, 0⟩
    ⟨0, 0, 0⟩ ⟨3, 0, 0⟩ ⟨0, 4, 0⟩ (by with_unfolding_all rfl) (Or.inr rfl)
    (Or.inl (by with_unfolding_all decide)),
   by with_unfolding_all decide⟩

/-- Two vectors with the same coordinates are equal. -/
theorem vec_ext (a b : Vec3f) (hx : a.x = b.x) (hy : a.y = b.y) (hz : a.z = b.z) : a = b := by
  cases a
  cases b
  simp only [Vec3f.mk.injEq]
  exact ⟨hx, hy, hz⟩

theorem vec_one_smul (v : Vec3f) : (1 : FCL_REAL) * v = v :=
  vec_ext _ _ (by rw [vec_smul_x, one_mul]) (by rw [vec_smul_y, one_mul])
    (by rw [vec_smul_z, one_mul])

theorem vec_sub_add_smul (c v : Vec3f) (k : FCL_REAL) : c - (c + k * v) = (-k) * v :=
  vec_ext _ _ (by simp only [vec_sub_x, vec_add_x, vec_smul_x]; ring)
    (by simp only [vec_sub_y, vec_add_y, vec_smul_y]; ring)
    (by simp only [vec_sub_z, vec_add_z, vec_smul_z]; ring)

/-- With a unit `normal_top`, the plane distance of the support point is its signed
distance `normal_top . support - normal_top . A` to the plane of the top triangle. -/
theorem supportPlaneDistance_of_unit {S : Type} (ext : External S) (shape : S)
    (shape_pose : Transform3f) (nt A : Vec3f) (hunit : ext.norm nt = 1) :
    supportPlaneDistance ext shape shape_pose nt A =
      nt.dot (worldSupport ext shape shape_pose nt) - nt.dot A := by
  unfold supportPlaneDistance Plane.make Plane.unitNormalTest Plane.signedDistance
  simp only [hunit, gt_iff_lt, zero_lt_one, if_true, div_one, mul_one, vec_one_smul]

/-- Two points whose squared distance is not positive are equal. -/
theorem squaredDistance_nonpos (p q : Vec3f) (h : squaredDistance p q ≤ 0) : p = q := by
  unfold squaredDistance at h
  have hx : (p.x - q.x) * (p.x - q.x) = 0 := by
    nlinarith [mul_self_nonneg (p.x - q.x), mul_self_nonneg (p.y - q.y),
      mul_self_nonneg (p.z - q.z)]
  have hy : (p.y - q.y) * (p.y - q.y) = 0 := by
    nlinarith [mul_self_nonneg (p.x - q.x), mul_self_nonneg (p.y - q.y),
      mul_self_nonneg (p.z - q.z)]
  have hz : (p.z - q.z) * (p.z - q.z) = 0 := by
    nlinarith [mul_self_nonneg (p.x - q.x), mul_self_nonneg (p.y - q.y),
      mul_self_nonneg (p.z - q.z)]
  exact vec_ext _ _ (sub_eq_zero.1 (mul_self_eq_zero.1 hx)) (sub_eq_zero.1 (mul_self_eq_zero.1 hy))
    (sub_eq_zero.1 (mul_self_eq_zero.1 hz))

/-- C15. Bin correction override on collision: with a unit `normal_top` (and a norm
that is absolutely homogeneous), after `binCorrection` on a colliding outcome the
normal is `normal_top`, `contact_1` is the projection into the triangle `(A, B, C)` of
the orthogonal projection `P = support - s * normal_top` of the world-space support
point of the shape for the direction `-normal_top`, `contact_2 = contact_1 + s *
normal_top` with `s` the signed distance of the support point to the top plane, and
the distance is `-norm(contact_1 - contact_2) = -|s|`, never positive. The projection
into the triangle is the combination of `A`, `B`, `C` with the three parameters that
`Project::projectTriangle` returns for `P`: when `normal_top . normal_top = 1` the
point `P` is on the plane of the triangle; when the parameters are not negative and
sum to 1, `contact_1` is a point of the triangle; and when they are those of a point
of the triangle nearest to `P`, `contact_1` is nearest to `P` among the points of the
triangle, and is `P` itself if `P` is in the triangle. -/
theorem binCorrection_collision_override {S : Type} (ext : External S)
    (convex : Convex Triangle) (shape : S) (shape_pose : Transform3f) (distance : FCL_REAL)
    (contact_1 contact_2 normal : Vec3f) (A B C : Vec3f)
    (htop : polygonPoints convex 1 = some (A, B, C))
    (hdef : ext.NDEBUG = true ∨ ext.isNaN (topNormal ext A B C) = false)
    (hunit : ext.norm (topNormal ext A B C) = 1)
    (hhom : ∀ (k : FCL_REAL) (v : Vec3f), ext.norm (k * v) = |k| * ext.norm v) :
    ∃ o, binCorrection ext convex shape shape_pose distance contact_1 contact_2 normal true =
        .ok o ∧
      o.normal = topNormal ext A B C ∧ o.normal_top = topNormal ext A B C ∧
      o.is_collision = true ∧
      o.contact_1 = projectTriangle ext A B C
        (worldSupport ext shape shape_pose (topNormal ext A B C) -
          ((topNormal ext A B C).dot (worldSupport ext shape shape_pose (topNormal ext A B C)) -
            (topNormal ext A B C).dot A) * topNormal ext A B C) ∧
      o.contact_2 = o.contact_1 +
        ((topNormal ext A B C).dot (worldSupport ext shape shape_pose (topNormal ext A B C)) -
          (topNormal ext A B C).dot A) * topNormal ext A B C ∧
      o.distance = -(ext.norm (o.contact_1 - o.contact_2)) ∧
      o.distance =
        -|(topNormal ext A B C).dot (worldSupport ext shape shape_pose (topNormal ext A B C)) -
          (topNormal ext A B C).dot A| ∧
      o.distance ≤ 0 ∧
      ∀ (nt support P : Vec3f) (s u v w : FCL_REAL),
        nt = topNormal ext A B C →
        support = shape_pose.rotation.mulVec
            (ext.getSupport shape (-(shape_pose.rotation.transpose.mulVec nt))) +
          shape_pose.translation →
        s = nt.dot support - nt.dot A →
        P = support - s * nt →
        (u, v, w) = ext.Project_projectTriangle A B C P →
        o.normal = nt ∧ o.normal_top = nt ∧
          o.contact_1 = u * A + v * B + w * C ∧
          o.contact_2 = o.contact_1 + s * nt ∧
          o.distance = -|s| ∧
          (nt.dot nt = 1 → nt.dot P = nt.dot A) ∧
          (0 ≤ u ∧ 0 ≤ v ∧ 0 ≤ w ∧ u + v + w = 1 → onTopTriangle convex o.contact_1) ∧
          ((∀ Q, onTopTriangle convex Q →
              squaredDistance (u * A + v * B + w * C) P ≤ squaredDistance Q P) →
            (∀ Q, onTopTriangle convex Q →
              squaredDistance o.contact_1 P ≤ squaredDistance Q P) ∧
            (onTopTriangle convex P → o.contact_1 = P)) := by
  have hdef' : (!ext.NDEBUG && ext.isNaN (topNormal ext A B C)) = false := by
    rcases hdef with h | h <;> simp [h]
  have hs := supportPlaneDistance_of_unit ext shape shape_pose (topNormal ext A B C) A hunit
  rw [binCorrection_of_top ext convex shape shape_pose distance contact_1 contact_2 normal true
    A B C htop, hdef']
  simp only [Bool.false_eq_true, if_false, if_true]
  refine ⟨_, rfl, rfl, rfl, rfl, ?_, ?_, rfl, ?_, ?_, ?_⟩
  · simp only [hs]
  · simp only [hs]
  · simp only [hs, vec_sub_add_smul, hhom, hunit, mul_one, abs_neg]
  · simp only [hs, vec_sub_add_smul, hhom, hunit, mul_one, abs_neg]
    exact neg_nonpos.2 (abs_nonneg _)
  · intro nt support P s u v w hnt hsupport hsd hP huvw
    subst hnt
    have hsupport' : support = worldSupport ext shape shape_pose (topNormal ext A B C) :=
      hsupport
    subst hsupport'
    subst hsd
    subst hP
    have hc1 : projectTriangle ext A B C
        (worldSupport ext shape shape_pose (topNormal ext A B C) -
          ((topNormal ext A B C).dot (worldSupport ext shape shape_pose (topNormal ext A B C)) -
            (topNormal ext A B C).dot A) * topNormal ext A B C) = u * A + v * B + w * C := by
      unfold projectTriangle
      rw [← huvw]
    refine ⟨rfl, rfl, ?_, ?_, ?_, ?_, ?_, ?_⟩
    · simp only [hs]; exact hc1
    · simp only [hs]
    · simp only [hs, vec_sub_add_smul, hhom, hunit, mul_one, abs_neg]
    · intro h1
      unfold Vec3f.dot at h1 ⊢
      simp only [vec_sub_x, vec_sub_y, vec_sub_z, vec_smul_x, vec_smul_y, vec_smul_z]
      linear_combination
        (-((topNormal ext A B C).x *
              (worldSupport ext shape shape_pose (topNormal ext A B C)).x +
            (topNormal ext A B C).y *
              (worldSupport ext shape shape_pose (topNormal ext A B C)).y +
            (topNormal ext A B C).z *
              (worldSupport ext shape shape_pose (topNormal ext A B C)).z -
            ((topNormal ext A B C).x * A.x + (topNormal ext A B C).y * A.y +
              (topNormal ext A B C).z * A.z))) * h1
    · rintro ⟨hu, hv, hw, hsum⟩
      simp only [hs]
      rw [hc1]
      exact ⟨A, B, C, htop, u, v, w, hu, hv, hw, hsum, rfl⟩
    · intro hnear
      simp only [hs]
      rw [hc1]
      refine ⟨hnear, fun hin => ?_⟩
      have h0 := hnear _ hin
      have hz : squaredDistance
          (worldSupport ext shape shape_pose (topNormal ext A B C) -
            ((topNormal ext A B C).dot
                (worldSupport ext shape shape_pose (topNormal ext A B C)) -
              (topNormal ext A B C).dot A) * topNormal ext A B C)
          (worldSupport ext shape shape_pose (topNormal ext A B C) -
            ((topNormal ext A B C).dot
                (worldSupport ext shape shape_pose (topNormal ext A B C)) -
              (topNormal ext A B C).dot A) * topNormal ext A B C) = 0 := by
        unfold squaredDistance
        ring
      rw [hz] at h0
      exact squaredDistance_nonpos _ _ h0

/-- The norm of the examples is absolutely homogeneous. -/
theorem norm1_smul (k : FCL_REAL) (v : Vec3f) :
    Examples.norm1 (k * v) = |k| * Examples.norm1 v := by
  unfold Examples.norm1
  rw [vec_smul_x, vec_smul_y, vec_smul_z, abs_mul, abs_mul, abs_mul]
  ring

/-- C15, at the first prism of the flat cell and the ball of radius 1/2 centred at
`(1, 1, 1/4)`: the support point is `(1, 1, -1/4)`, its projection on the top plane is
`(1, 1, 0)`, the library parameters are `(5/12, 1/3, 1/4)`, the corrected contacts are
`(1, 1, 0)`, a point of the top triangle, and `(1, 1, -1/4)`, and the corrected
distance is -1/4. -/
theorem binCorrection_collision_override_witness :
    ∃ o, binCorrection Examples.ballExt Examples.flatPrism1 ⟨1 / 2⟩ (Examples.ballPose (1 / 4))
        (-1 / 4) ⟨1, 1, 0⟩ ⟨1, 1, -1 / 4⟩ ⟨0, 0, 1⟩ true = .ok o ∧
      o.distance = -1 / 4 ∧ o.contact_1 = ⟨1, 1, 0⟩ ∧ o.contact_2 = ⟨1, 1, -1 / 4⟩ ∧
      o.contact_1 = (5 / 12 : FCL_REAL) * (⟨0, 0, 0⟩ : Vec3f) +
        (1 / 3 : FCL_REAL) * (⟨3, 0, 0⟩ : Vec3f) + (1 / 4 : FCL_REAL) * (⟨0, 4, 0⟩ : Vec3f) ∧
      onTopTriangle Examples.flatPrism1 o.contact_1 := by
  obtain ⟨o, ho, -, -, -, h1, h2, -, h3, -, hall⟩ :=
    binCorrection_collision_override Examples.ballExt Examples.flatPrism1 ⟨1 / 2⟩
      (Examples.ballPose (1 / 4)) (-1 / 4) ⟨1, 1, 0⟩ ⟨1, 1, -1 / 4⟩ ⟨0, 0, 1⟩
      ⟨0, 0, 0⟩ ⟨3, 0, 0⟩ ⟨0, 4, 0⟩ (by with_unfolding_all rfl) (Or.inr rfl)
      (by with_unfolding_all decide) norm1_smul
  obtain ⟨-, -, hc, -, -, -, hin, -⟩ := hall ⟨0, 0, 1⟩ ⟨1, 1, -1 / 4⟩ ⟨1, 1, 0⟩ (-1 / 4)
    (5 / 12) (1 / 3) (1 / 4) (by with_unfolding_all decide) (by with_unfolding_all decide)
    (by with_unfolding_all decide) (by with_unfolding_all decide)
    (by with_unfolding_all decide)
  refine ⟨o, ho, ?_, ?_, ?_, hc, hin ⟨by norm_num, by norm_num, by norm_num, by norm_num⟩⟩
  · rw [h3]; with_unfolding_all decide
  · rw [h1]; with_unfolding_all decide
  · rw [h2, h1]; with_unfolding_all decide

/-- When the cross product of the edge vectors of the top triangle has a positive
vertical component and `normalized()` scales a non-zero vector by a positive factor
to norm one, the sign flip of `normal_top` is not taken, `normal_top` has norm one
and a positive vertical component. -/
theorem topNormal_of_cross_pos {S : Type} (ext : External S) (A B C : Vec3f)
    (hnormalized : ∀ v : Vec3f, v ≠ Vec3f.zero →
      ∃ k : FCL_REAL, 0 < k ∧ ext.normalized v = k * v ∧ ext.norm (ext.normalized v) = 1)
    (hz : 0 < ((B - A).cross (C - A)).z) :
    (B - A).cross (C - A) ≠ Vec3f.zero ∧
      ¬ (ext.normalized ((B - A).cross (C - A))).z < 0 ∧
      topNormal ext A B C = ext.normalized ((B - A).cross (C - A)) ∧
      ext.norm (topNormal ext A B C) = 1 ∧ 0 < (topNormal ext A B C).z := by
  have hne : (B - A).cross (C - A) ≠ Vec3f.zero := by
    intro h
    rw [h] at hz
    exact lt_irrefl _ hz
  obtain ⟨k, hk, hkv, hn⟩ := hnormalized _ hne
  have hpos : 0 < (ext.normalized ((B - A).cross (C - A))).z := by
    rw [hkv, vec_smul_z]
    exact mul_pos hk hz
  have hflip : ¬ (ext.normalized ((B - A).cross (C - A))).z < 0 := not_lt_of_gt hpos
  have htn : topNormal ext A B C = ext.normalized ((B - A).cross (C - A)) := by
    unfold topNormal
    rw [if_neg hflip]
  refine ⟨hne, hflip, htn, ?_, ?_⟩
  · rw [htn]; exact hn
  · rw [htn]; exact hpos

/-- C16. For both prisms of a cell with `x0 < x1` and `y0 < y1`, whatever the corner
heights: the top triangle `(A, B, C)` read by `binCorrection` is made of the points 3,
5 and 4, its cross product `(B - A) x (C - A)` has vertical component
`(x1 - x0) * (y1 - y0) > 0`, so it is not zero; when `normalized()` scales a non-zero
vector by a positive factor to norm one and a vector of norm one holds no NaN, the
sign flip is not taken, the assertion on `normal_top` holds, and every call of
`binCorrection` returns with an output `normal_top` that is that normalisation, has
norm one, holds no NaN and has a positive vertical component. -/
theorem normal_top_well_defined {S : Type} (ext : External S) (node : HFNode)
    (model : HeightField) (convex1 convex2 : Convex Triangle)
    (hb : buildConvexTriangles ext node model = .ok (convex1, convex2))
    (hx : model.x_grid node.x_id < model.x_grid (node.x_id + 1))
    (hy : model.y_grid node.y_id < model.y_grid (node.y_id + 1))
    (hnormalized : ∀ v : Vec3f, v ≠ Vec3f.zero →
      ∃ k : FCL_REAL, 0 < k ∧ ext.normalized v = k * v ∧ ext.norm (ext.normalized v) = 1)
    (hnan : ∀ v : Vec3f, ext.norm v = 1 → ext.isNaN v = false) :
    ∀ convex ∈ [convex1, convex2], ∃ A B C,
      (convex.points[3]? = some A ∧ convex.points[5]? = some B ∧
        convex.points[4]? = some C) ∧
      polygonPoints convex 1 = some (A, B, C) ∧
      ((B - A).cross (C - A)).z =
        (model.x_grid (node.x_id + 1) - model.x_grid node.x_id) *
          (model.y_grid (node.y_id + 1) - model.y_grid node.y_id) ∧
      0 < (model.x_grid (node.x_id + 1) - model.x_grid node.x_id) *
          (model.y_grid (node.y_id + 1) - model.y_grid node.y_id) ∧
      (B - A).cross (C - A) ≠ Vec3f.zero ∧
      ¬ (ext.normalized ((B - A).cross (C - A))).z < 0 ∧
      topNormal ext A B C = ext.normalized ((B - A).cross (C - A)) ∧
      ext.norm (topNormal ext A B C) = 1 ∧
      ext.isNaN (topNormal ext A B C) = false ∧
      0 < (topNormal ext A B C).z ∧
      ∀ (shape : S) (shape_pose : Transform3f) (d : FCL_REAL) (p1 p2 n : Vec3f) (c : Bool),
        ∃ o, binCorrection ext convex shape shape_pose d p1 p2 n c = .ok o ∧
          o.normal_top = ext.normalized ((B - A).cross (C - A)) ∧
          ext.norm o.normal_top = 1 ∧ ext.isNaN o.normal_top = false ∧
          0 < o.normal_top.z := by
  obtain ⟨rfl, rfl⟩ := buildConvexTriangles_ok ext node model convex1 convex2 hb
  clear hb
  have hD : 0 < (model.x_grid (node.x_id + 1) - model.x_grid node.x_id) *
      (model.y_grid (node.y_id + 1) - model.y_grid node.y_id) :=
    mul_pos (sub_pos.2 hx) (sub_pos.2 hy)
  have main : ∀ (convex : Convex Triangle) (A B C : Vec3f),
      (convex.points[3]? = some A ∧ convex.points[5]? = some B ∧
        convex.points[4]? = some C) →
      polygonPoints convex 1 = some (A, B, C) →
      ((B - A).cross (C - A)).z =
        (model.x_grid (node.x_id + 1) - model.x_grid node.x_id) *
          (model.y_grid (node.y_id + 1) - model.y_grid node.y_id) →
      ∃ A B C,
        (convex.points[3]? = some A ∧ convex.points[5]? = some B ∧
          convex.points[4]? = some C) ∧
        polygonPoints convex 1 = some (A, B, C) ∧
        ((B - A).cross (C - A)).z =
          (model.x_grid (node.x_id + 1) - model.x_grid node.x_id) *
            (model.y_grid (node.y_id + 1) - model.y_grid node.y_id) ∧
        0 < (model.x_grid (node.x_id + 1) - model.x_grid node.x_id) *
            (model.y_grid (node.y_id + 1) - model.y_grid node.y_id) ∧
        (B - A).cross (C - A) ≠ Vec3f.zero ∧
        ¬ (ext.normalized ((B - A).cross (C - A))).z < 0 ∧
        topNormal ext A B C = ext.normalized ((B - A).cross (C - A)) ∧
        ext.norm (topNormal ext A B C) = 1 ∧
        ext.isNaN (topNormal ext A B C) = false ∧
        0 < (topNormal ext A B C).z ∧
        ∀ (shape : S) (shape_pose : Transform3f) (d : FCL_REAL) (p1 p2 n : Vec3f) (c : Bool),
          ∃ o, binCorrection ext convex shape shape_pose d p1 p2 n c = .ok o ∧
            o.normal_top = ext.normalized ((B - A).cross (C - A)) ∧
            ext.norm o.normal_top = 1 ∧ ext.isNaN o.normal_top = false ∧
            0 < o.normal_top.z := by
    intro convex A B C hpts htop hz
    obtain ⟨hne, hflip, htn, hone, hpos⟩ :=
      topNormal_of_cross_pos ext A B C hnormalized (by rw [hz]; exact hD)
    have hok := hnan _ hone
    refine ⟨A, B, C, hpts, htop, hz, hD, hne, hflip, htn, hone, hok, hpos, ?_⟩
    intro shape shape_pose d p1 p2 n c
    rw [binCorrection_of_top ext convex shape shape_pose d p1 p2 n c A B C htop, hok]
    simp only [Bool.and_false, Bool.false_eq_true, if_false]
    split_ifs <;> exact ⟨_, rfl, htn, hone, hok, hpos⟩
  intro convex hc
  simp only [List.mem_cons, List.mem_singleton, List.not_mem_nil, or_false] at hc
  rcases hc with rfl | rfl
  · refine main _ ⟨model.x_grid node.x_id, model.y_grid node.y_id,
        model.heights (node.y_id + 0) (node.x_id + 0)⟩
      ⟨model.x_grid (node.x_id + 1), model.y_grid node.y_id,
        model.heights (node.y_id + 0) (node.x_id + 1)⟩
      ⟨model.x_grid node.x_id, model.y_grid (node.y_id + 1),
        model.heights (node.y_id + 1) (node.x_id + 0)⟩ ⟨rfl, rfl, rfl⟩ rfl ?_
    show (model.x_grid (node.x_id + 1) - model.x_grid node.x_id) *
        (model.y_grid (node.y_id + 1) - model.y_grid node.y_id) -
        (model.y_grid node.y_id - model.y_grid node.y_id) *
          (model.x_grid node.x_id - model.x_grid node.x_id) = _
    ring
  · refine main _ ⟨model.x_grid node.x_id, model.y_grid (node.y_id + 1),
        model.heights (node.y_id + 1) (node.x_id + 0)⟩
      ⟨model.x_grid (node.x_id + 1), model.y_grid node.y_id,
        model.heights (node.y_id + 0) (node.x_id + 1)⟩
      ⟨model.x_grid (node.x_id + 1), model.y_grid (node.y_id + 1),
        model.heights (node.y_id + 1) (node.x_id + 1)⟩ ⟨rfl, rfl, rfl⟩ rfl ?_
    show (model.x_grid (node.x_id + 1) - model.x_grid node.x_id) *
        (model.y_grid (node.y_id + 1) - model.y_grid (node.y_id + 1)) -
        (model.y_grid node.y_id - model.y_grid (node.y_id + 1)) *
          (model.x_grid (node.x_id + 1) - model.x_grid node.x_id) = _
    ring

/-- The norm of the examples vanishes on the zero vector only. -/
theorem norm1_pos (v : Vec3f) (hv : v ≠ Vec3f.zero) : 0 < Examples.norm1 v := by
  unfold Examples.norm1
  by_contra hc
  have h0 : |v.x| + |v.y| + |v.z| = 0 :=
    le_antisymm (not_lt.1 hc) (by positivity)
  have hx : |v.x| = 0 := by linarith [abs_nonneg v.x, abs_nonneg v.y, abs_nonneg v.z]
  have hy : |v.y| = 0 := by linarith [abs_nonneg v.x, abs_nonneg v.y, abs_nonneg v.z]
  have hz : |v.z| = 0 := by linarith [abs_nonneg v.x, abs_nonneg v.y, abs_nonneg v.z]
  exact hv (vec_ext _ _ (abs_eq_zero.1 hx) (abs_eq_zero.1 hy) (abs_eq_zero.1 hz))

/-- The normalisation of the examples scales a non-zero vector by a positive factor
to norm one. -/
theorem normalized1_spec (v : Vec3f) (hv : v ≠ Vec3f.zero) :
    ∃ k : FCL_REAL, 0 < k ∧ Examples.normalized1 v = k * v ∧
      Examples.norm1 (Examples.normalized1 v) = 1 := by
  have hpos := norm1_pos v hv
  have hk : 0 < 1 / Examples.norm1 v := one_div_pos.2 hpos
  have hn : Examples.normalized1 v = (1 / Examples.norm1 v) * v := by
    unfold Examples.normalized1
    rw [if_pos hpos]
  refine ⟨1 / Examples.norm1 v, hk, hn, ?_⟩
  rw [hn, norm1_smul, abs_of_pos hk]
  field_simp

/-- C16, at the second prism of cell (0, 0) of the flat field: its top triangle is
`(0,4,0), (3,0,0), (3,4,0)`, and `binCorrection` returns with a `normal_top` of norm
one and positive vertical component, here `(0, 0, 1)`. -/
theorem normal_top_well_defined_witness :
    ∃ o, binCorrection Examples.ballExt Examples.flatPrism2 ⟨1 / 2⟩ (Examples.ballPose (3 / 4))
        (3 / 4) ⟨9 / 5, 8 / 5, 0⟩ ⟨33 / 25, 31 / 25, 9 / 20⟩ ⟨-16 / 25, -12 / 25, 3 / 5⟩ false =
        .ok o ∧
      o.normal_top = ⟨0, 0, 1⟩ ∧ Examples.ballExt.norm o.normal_top = 1 ∧
      0 < o.normal_top.z := by
  obtain ⟨A, B, C, ⟨hA, hB, hC⟩, -, -, -, -, -, -, -, -, -, hcall⟩ :=
    normal_top_well_defined Examples.ballExt ⟨0, 0, 0⟩ Examples.flatField
      Examples.flatPrism1 Examples.flatPrism2 (by with_unfolding_all rfl)
      (by with_unfolding_all decide) (by with_unfolding_all decide)
      normalized1_spec (fun _ _ => rfl) Examples.flatPrism2 (by simp)
  obtain ⟨o, ho, hn, hone, -, hpos⟩ := hcall ⟨1 / 2⟩ (Examples.ballPose (3 / 4))
    (3 / 4) ⟨9 / 5, 8 / 5, 0⟩ ⟨33 / 25, 31 / 25, 9 / 20⟩ ⟨-16 / 25, -12 / 25, 3 / 5⟩ false
  have eA : A = ⟨0, 4, 0⟩ := (Option.some.inj hA).symm
  have eB : B = ⟨3, 0, 0⟩ := (Option.some.inj hB).symm
  have eC : C = ⟨3, 4, 0⟩ := (Option.some.inj hC).symm
  refine ⟨o, ho, ?_, hone, hpos⟩
  rw [hn, eA, eB, eC]
  with_unfolding_all decide

/-- Bin correction over a horizontal top triangle at height 0 that holds the cell
centre, for a shape whose support point in the direction `(0, 0, -1)` is
`(0, 0, -1/2)` and which is posed without rotation at height 3/10 over the cell
centre. -/
theorem binCorrection_scenarioA {S : Type} (ext : External S) (node : HFNode)
    (model : HeightField) (convex : Convex Triangle) (shape : S) (A B C : Vec3f)
    (D : FCL_REAL) (d : FCL_REAL) (p1 p2 n : Vec3f) (c : Bool)
    (htop : polygonPoints convex 1 = some (A, B, C))
    (hA : A.z = 0)
    (hcross : (B - A).cross (C - A) = ⟨0, 0, D⟩)
    (hnormalized : ext.normalized ⟨0, 0, D⟩ = ⟨0, 0, 1⟩)
    (hnorm1 : ext.norm ⟨0, 0, 1⟩ = 1)
    (hnorm5 : ext.norm ⟨0, 0, 1 / 5⟩ = 1 / 5)
    (hnan : ext.NDEBUG = true ∨ ext.isNaN ⟨0, 0, 1⟩ = false)
    (hsupport : ext.getSupport shape ⟨0, 0, -1⟩ = ⟨0, 0, -1 / 2⟩)
    (hproj : projectTriangle ext A B C (cellCentre node model 0) = cellCentre node model 0) :
    binCorrection ext convex shape ⟨Matrix3f.identity, cellCentre node model (3 / 10)⟩
        d p1 p2 n c =
      if c = true then
        .ok { distance := -1 / 5
              contact_1 := cellCentre node model 0
              contact_2 := cellCentre node model (-1 / 5)
              normal := ⟨0, 0, 1⟩
              normal_top := ⟨0, 0, 1⟩
              is_collision := c
              hfield_witness_is_on_bin_side := !(ext.isApprox (projectTriangle ext A B C p1) p1) }
      else
        .ok { distance := d
              contact_1 := p1
              contact_2 := p2
              normal := if (!(ext.isApprox (projectTriangle ext A B C p1) p1)) = true then n
                else ⟨0, 0, 1⟩
              normal_top := ⟨0, 0, 1⟩
              is_collision := c
              hfield_witness_is_on_bin_side := !(ext.isApprox (projectTriangle ext A B C p1) p1) } := by
  have htn : topNormal ext A B C = ⟨0, 0, 1⟩ := by
    unfold topNormal
    rw [hcross, hnormalized]
    norm_num
  have hdef : (!ext.NDEBUG && ext.isNaN (⟨0, 0, 1⟩ : Vec3f)) = false := by
    rcases hnan with h | h <;> simp [h]
  have hdir : -(Matrix3f.identity.transpose.mulVec (⟨0, 0, 1⟩ : Vec3f)) = ⟨0, 0, -1⟩ := by
    with_unfolding_all decide
  have hws : worldSupport ext shape ⟨Matrix3f.identity, cellCentre node model (3 / 10)⟩
      ⟨0, 0, 1⟩ = cellCentre node model (-1 / 5) := by
    unfold worldSupport
    simp only [hdir, hsupport]
    apply vec_ext
    · simp only [vec_add_x, Matrix3f.mulVec, Matrix3f.identity, Vec3f.dot, cellCentre]; ring
    · simp only [vec_add_y, Matrix3f.mulVec, Matrix3f.identity, Vec3f.dot, cellCentre]; ring
    · simp only [vec_add_z, Matrix3f.mulVec, Matrix3f.identity, Vec3f.dot, cellCentre]; ring
  have hsd : supportPlaneDistance ext shape ⟨Matrix3f.identity, cellCentre node model (3 / 10)⟩
      ⟨0, 0, 1⟩ A = -1 / 5 := by
    rw [supportPlaneDistance_of_unit ext shape _ _ A hnorm1, hws]
    simp only [Vec3f.dot, cellCentre, hA]
    ring
  have hps : cellCentre node model (-1 / 5) - (-1 / 5 : FCL_REAL) * (⟨0, 0, 1⟩ : Vec3f) =
      cellCentre node model 0 := by
    apply vec_ext
    · simp only [vec_sub_x, vec_smul_x, cellCentre]; ring
    · simp only [vec_sub_y, vec_smul_y, cellCentre]; ring
    · simp only [vec_sub_z, vec_smul_z, cellCentre]; ring
  have hc2 : cellCentre node model 0 + (-1 / 5 : FCL_REAL) * (⟨0, 0, 1⟩ : Vec3f) =
      cellCentre node model (-1 / 5) := by
    apply vec_ext
    · simp only [vec_add_x, vec_smul_x, cellCentre]; ring
    · simp only [vec_add_y, vec_smul_y, cellCentre]; ring
    · simp only [vec_add_z, vec_smul_z, cellCentre]; ring
  have hdiff : cellCentre node model 0 - cellCentre node model (-1 / 5) = ⟨0, 0, 1 / 5⟩ := by
    apply vec_ext
    · simp only [vec_sub_x, cellCentre]; ring
    · simp only [vec_sub_y, cellCentre]; ring
    · simp only [vec_sub_z, cellCentre]; ring
  rw [binCorrection_of_top ext convex shape _ d p1 p2 n c A B C htop]
  simp only [htn, hdef, hws, hsd, hps, hproj, hc2, hdiff, hnorm5, Bool.false_eq_true, if_false]
  norm_num

/-- The outcome of `binCorrection_scenarioA` as a record: it exists, its
`normal_top` is vertical, and on collision it holds the corrected values. -/
theorem binCorrection_scenarioA_outcome {S : Type} (ext : External S) (node : HFNode)
    (model : HeightField) (convex : Convex Triangle) (shape : S) (A B C : Vec3f)
    (D : FCL_REAL) (d : FCL_REAL) (p1 p2 n : Vec3f) (c : Bool)
    (htop : polygonPoints convex 1 = some (A, B, C))
    (hA : A.z = 0)
    (hcross : (B - A).cross (C - A) = ⟨0, 0, D⟩)
    (hnormalized : ext.normalized ⟨0, 0, D⟩ = ⟨0, 0, 1⟩)
    (hnorm1 : ext.norm ⟨0, 0, 1⟩ = 1)
    (hnorm5 : ext.norm ⟨0, 0, 1 / 5⟩ = 1 / 5)
    (hnan : ext.NDEBUG = true ∨ ext.isNaN ⟨0, 0, 1⟩ = false)
    (hsupport : ext.getSupport shape ⟨0, 0, -1⟩ = ⟨0, 0, -1 / 2⟩)
    (hproj : projectTriangle ext A B C (cellCentre node model 0) = cellCentre node model 0) :
    ∃ o, binCorrection ext convex shape ⟨Matrix3f.identity, cellCentre node model (3 / 10)⟩
        d p1 p2 n c = .ok o ∧
      o.normal_top = ⟨0, 0, 1⟩ ∧
      (c = true → o.normal = ⟨0, 0, 1⟩ ∧ o.contact_1 = cellCentre node model 0 ∧
        o.contact_2 = cellCentre node model (-1 / 5) ∧ o.distance = -1 / 5) := by
  rw [binCorrection_scenarioA ext node model convex shape A B C D d p1 p2 n c htop hA hcross
    hnormalized hnorm1 hnorm5 hnan hsupport hproj]
  cases c
  · exact ⟨_, rfl, rfl, fun h => absurd h (by decide)⟩
  · exact ⟨_, rfl, rfl, fun _ => ⟨rfl, rfl, rfl, rfl⟩⟩

/-- C17. Scenario A through bin correction. On a flat cell (the four corner heights
0) and a shape posed without rotation at height 3/10 over the cell centre whose
support point in the direction `(0, 0, -1)` is `(0, 0, -1/2)` (a sphere of radius
1/2), with a vertical `normal_top` of norm one and a triangle projection that keeps
the cell centre: whenever the solver signals collision for a prism, `binCorrection`
yields `normal = normal_top = (0, 0, 1)`, `contact_1` the cell centre at height 0,
`contact_2` the cell centre at height -1/5 and the distance -1/5; and when the raw
distance of at least one prism is negative the merge returns collision with these
values. -/
theorem scenarioA_bin_correction {S : Type} (ext : External S) (RTIsIdentity : Bool)
    (node : HFNode) (model : HeightField) (convex1 convex2 : Convex Triangle) (shape : S)
    (tf1 : Transform3f) (n2 : Vec3f)
    (hb : buildConvexTriangles ext node model = .ok (convex1, convex2))
    (h00 : model.heights node.y_id node.x_id = 0)
    (h01 : model.heights node.y_id (node.x_id + 1) = 0)
    (h10 : model.heights (node.y_id + 1) node.x_id = 0)
    (h11 : model.heights (node.y_id + 1) (node.x_id + 1) = 0)
    (hnormalized : ext.normalized ⟨0, 0,
      (model.x_grid (node.x_id + 1) - model.x_grid node.x_id) *
        (model.y_grid (node.y_id + 1) - model.y_grid node.y_id)⟩ = ⟨0, 0, 1⟩)
    (hnorm1 : ext.norm ⟨0, 0, 1⟩ = 1)
    (hnorm5 : ext.norm ⟨0, 0, 1 / 5⟩ = 1 / 5)
    (hnan : ext.NDEBUG = true ∨ ext.isNaN ⟨0, 0, 1⟩ = false)
    (hsupport : ext.getSupport shape ⟨0, 0, -1⟩ = ⟨0, 0, -1 / 2⟩)
    (hproj1 : projectTriangle ext ⟨model.x_grid node.x_id, model.y_grid node.y_id, 0⟩
      ⟨model.x_grid (node.x_id + 1), model.y_grid node.y_id, 0⟩
      ⟨model.x_grid node.x_id, model.y_grid (node.y_id + 1), 0⟩
      (cellCentre node model 0) = cellCentre node model 0)
    (hproj2 : projectTriangle ext ⟨model.x_grid node.x_id, model.y_grid (node.y_id + 1), 0⟩
      ⟨model.x_grid (node.x_id + 1), model.y_grid node.y_id, 0⟩
      ⟨model.x_grid (node.x_id + 1), model.y_grid (node.y_id + 1), 0⟩
      (cellCentre node model 0) = cellCentre node model 0) :
    (∀ convex ∈ [convex1, convex2], ∀ (d : FCL_REAL) (p1 p2 n : Vec3f),
        ∃ o, binCorrection ext convex shape
            ⟨Matrix3f.identity, cellCentre node model (3 / 10)⟩ d p1 p2 n true = .ok o ∧
          o.normal = ⟨0, 0, 1⟩ ∧ o.normal_top = ⟨0, 0, 1⟩ ∧
          o.contact_1 = cellCentre node model 0 ∧
          o.contact_2 = cellCentre node model (-1 / 5) ∧ o.distance = -1 / 5) ∧
      ((prismQuery ext RTIsIdentity convex1 tf1 shape
            ⟨Matrix3f.identity, cellCentre node model (3 / 10)⟩).distance < 0 ∨
          (prismQuery ext RTIsIdentity convex2 tf1 shape
            ⟨Matrix3f.identity, cellCentre node model (3 / 10)⟩).distance < 0 →
        ∃ m, shapeDistance ext RTIsIdentity convex1 convex2 tf1 shape
            ⟨Matrix3f.identity, cellCentre node model (3 / 10)⟩ n2 = .ok m ∧
          m.collision = true ∧ m.distance = -1 / 5 ∧
          m.c1 = cellCentre node model 0 ∧ m.c2 = cellCentre node model (-1 / 5) ∧
          m.normal = ⟨0, 0, 1⟩ ∧ m.normal_top = ⟨0, 0, 1⟩) := by
  obtain ⟨e1, e2⟩ := buildConvexTriangles_ok ext node model convex1 convex2 hb
  clear hb
  simp only [Nat.add_zero, h00, h01, h10, h11] at e1 e2
  have ht1 : polygonPoints convex1 1 =
      some (⟨model.x_grid node.x_id, model.y_grid node.y_id, 0⟩,
        ⟨model.x_grid (node.x_id + 1), model.y_grid node.y_id, 0⟩,
        ⟨model.x_grid node.x_id, model.y_grid (node.y_id + 1), 0⟩) := by
    rw [e1]; rfl
  have ht2 : polygonPoints convex2 1 =
      some (⟨model.x_grid node.x_id, model.y_grid (node.y_id + 1), 0⟩,
        ⟨model.x_grid (node.x_id + 1), model.y_grid node.y_id, 0⟩,
        ⟨model.x_grid (node.x_id + 1), model.y_grid (node.y_id + 1), 0⟩) := by
    rw [e2]; rfl
  have hcross1 : ((⟨model.x_grid (node.x_id + 1), model.y_grid node.y_id, 0⟩ : Vec3f) -
        ⟨model.x_grid node.x_id, model.y_grid node.y_id, 0⟩).cross
      ((⟨model.x_grid node.x_id, model.y_grid (node.y_id + 1), 0⟩ : Vec3f) -
        ⟨model.x_grid node.x_id, model.y_grid node.y_id, 0⟩) =
      ⟨0, 0, (model.x_grid (node.x_id + 1) - model.x_grid node.x_id) *
        (model.y_grid (node.y_id + 1) - model.y_grid node.y_id)⟩ := by
    apply vec_ext
    · simp only [Vec3f.cross, vec_sub_y, vec_sub_z]; ring
    · simp only [Vec3f.cross, vec_sub_x, vec_sub_z]; ring
    · simp only [Vec3f.cross, vec_sub_x, vec_sub_y]; ring
  have hcross2 : ((⟨model.x_grid (node.x_id + 1), model.y_grid node.y_id, 0⟩ : Vec3f) -
        ⟨model.x_grid node.x_id, model.y_grid (node.y_id + 1), 0⟩).cross
      ((⟨model.x_grid (node.x_id + 1), model.y_grid (node.y_id + 1), 0⟩ : Vec3f) -
        ⟨model.x_grid node.x_id, model.y_grid (node.y_id + 1), 0⟩) =
      ⟨0, 0, (model.x_grid (node.x_id + 1) - model.x_grid node.x_id) *
        (model.y_grid (node.y_id + 1) - model.y_grid node.y_id)⟩ := by
    apply vec_ext
    · simp only [Vec3f.cross, vec_sub_y, vec_sub_z]; ring
    · simp only [Vec3f.cross, vec_sub_x, vec_sub_z]; ring
    · simp only [Vec3f.cross, vec_sub_x, vec_sub_y]; ring
  have out1 := fun (d : FCL_REAL) (p1 p2 n : Vec3f) (c : Bool) =>
    binCorrection_scenarioA_outcome ext node model convex1 shape _ _ _ _ d p1 p2 n c
      ht1 rfl hcross1 hnormalized hnorm1 hnorm5 hnan hsupport hproj1
  have out2 := fun (d : FCL_REAL) (p1 p2 n : Vec3f) (c : Bool) =>
    binCorrection_scenarioA_outcome ext node model convex2 shape _ _ _ _ d p1 p2 n c
      ht2 rfl hcross2 hnormalized hnorm1 hnorm5 hnan hsupport hproj2
  refine ⟨?_, ?_⟩
  · intro convex hc d p1 p2 n
    simp only [List.mem_cons, List.mem_singleton, List.not_mem_nil, or_false] at hc
    rcases hc with rfl | rfl
    · obtain ⟨o, ho, hnt, hcc⟩ := out1 d p1 p2 n true
      obtain ⟨a, b, c, e⟩ := hcc rfl
      exact ⟨o, ho, a, hnt, b, c, e⟩
    · obtain ⟨o, ho, hnt, hcc⟩ := out2 d p1 p2 n true
      obtain ⟨a, b, c, e⟩ := hcc rfl
      exact ⟨o, ho, a, hnt, b, c, e⟩
  · intro hcol
    obtain ⟨o1, ho1, hnt1, hc1⟩ := out1
      (prismQuery ext RTIsIdentity convex1 tf1 shape
        ⟨Matrix3f.identity, cellCentre node model (3 / 10)⟩).distance
      (prismQuery ext RTIsIdentity convex1 tf1 shape
        ⟨Matrix3f.identity, cellCentre node model (3 / 10)⟩).p1
      (prismQuery ext RTIsIdentity convex1 tf1 shape
        ⟨Matrix3f.identity, cellCentre node model (3 / 10)⟩).p2
      (prismQuery ext RTIsIdentity convex1 tf1 shape
        ⟨Matrix3f.identity, cellCentre node model (3 / 10)⟩).normal
      (decide ((prismQuery ext RTIsIdentity convex1 tf1 shape
        ⟨Matrix3f.identity, cellCentre node model (3 / 10)⟩).distance < 0))
    obtain ⟨o2, ho2, hnt2, hc2⟩ := out2
      (prismQuery ext RTIsIdentity convex2 tf1 shape
        ⟨Matrix3f.identity, cellCentre node model (3 / 10)⟩).distance
      (prismQuery ext RTIsIdentity convex2 tf1 shape
        ⟨Matrix3f.identity, cellCentre node model (3 / 10)⟩).p1
      (prismQuery ext RTIsIdentity convex2 tf1 shape
        ⟨Matrix3f.identity, cellCentre node model (3 / 10)⟩).p2
      (if RTIsIdentity then n2 else (prismQuery ext RTIsIdentity convex2 tf1 shape
        ⟨Matrix3f.identity, cellCentre node model (3 / 10)⟩).normal)
      (decide ((prismQuery ext RTIsIdentity convex2 tf1 shape
        ⟨Matrix3f.identity, cellCentre node model (3 / 10)⟩).distance < 0))
    rw [shapeDistance_of_outcomes ext RTIsIdentity convex1 convex2 tf1 shape _ n2 o1 o2 ho1 ho2]
    by_cases c1 : (prismQuery ext RTIsIdentity convex1 tf1 shape
        ⟨Matrix3f.identity, cellCentre node model (3 / 10)⟩).distance < 0
    · obtain ⟨a1, b1, g1, d1⟩ := hc1 (decide_eq_true c1)
      by_cases c2 : (prismQuery ext RTIsIdentity convex2 tf1 shape
          ⟨Matrix3f.identity, cellCentre node model (3 / 10)⟩).distance < 0
      · obtain ⟨a2, b2, g2, d2⟩ := hc2 (decide_eq_true c2)
        have hngt : ¬ o1.distance > o2.distance := by rw [d1, d2]; exact lt_irrefl _
        rw [if_pos ⟨c1, c2⟩, if_neg hngt]
        exact ⟨_, rfl, rfl, d1, b1, g1, a1, hnt1⟩
      · rw [if_neg (fun h => c2 h.2), if_pos c1]
        exact ⟨_, rfl, rfl, d1, b1, g1, a1, hnt1⟩
    · have c2 : (prismQuery ext RTIsIdentity convex2 tf1 shape
          ⟨Matrix3f.identity, cellCentre node model (3 / 10)⟩).distance < 0 :=
        hcol.resolve_left c1
      obtain ⟨a2, b2, g2, d2⟩ := hc2 (decide_eq_true c2)
      rw [if_neg (fun h => c1 h.1), if_neg c1, if_pos c2]
      exact ⟨_, rfl, rfl, d2, b2, g2, a2, hnt2⟩

theorem scenarioA_bin_correction_witness :
    cellCentre ⟨0, 0, 0⟩ Examples.flatField (3 / 10) = ⟨3 / 2, 2, 3 / 10⟩ ∧
      cellCentre ⟨0, 0, 0⟩ Examples.flatField 0 = ⟨3 / 2, 2, 0⟩ ∧
      ∃ m, shapeDistance Examples.scenarioAExt false Examples.flatPrism1 Examples.flatPrism2
          Transform3f.Id (⟨1 / 2⟩ : Examples.Ball)
          ⟨Matrix3f.identity, cellCentre ⟨0, 0, 0⟩ Examples.flatField (3 / 10)⟩
          Vec3f.zero = .ok m ∧
        m.collision = true ∧ m.distance = -1 / 5 ∧
        m.c1 = cellCentre ⟨0, 0, 0⟩ Examples.flatField 0 ∧
        m.c2 = cellCentre ⟨0, 0, 0⟩ Examples.flatField (-1 / 5) ∧
        m.normal = ⟨0, 0, 1⟩ ∧ m.normal_top = ⟨0, 0, 1⟩ :=
  ⟨by with_unfolding_all rfl, by with_unfolding_all rfl,
    (scenarioA_bin_correction Examples.scenarioAExt false ⟨0, 0, 0⟩ Examples.flatField
      Examples.flatPrism1 Examples.flatPrism2 (⟨1 / 2⟩ : Examples.Ball) Transform3f.Id
      Vec3f.zero (by with_unfolding_all rfl) rfl rfl rfl rfl
      (by with_unfolding_all rfl) (by with_unfolding_all rfl) (by with_unfolding_all rfl)
      (Or.inr rfl) (by with_unfolding_all rfl) (by with_unfolding_all rfl)
      (by with_unfolding_all rfl)).2 (Or.inl (by with_unfolding_all decide))⟩

/-! ## The merge of the boolean collision query -/

/-- The merge of `shapeCollision` in terms of the two solver answers. -/
theorem shapeCollision_of_answers {S : Type} (ext : External S) (RTIsIdentity : Bool)
    (convex1 convex2 : Convex Triangle) (tf1 : Transform3f) (shape : S) (tf2 : Transform3f) :
    shapeCollision ext RTIsIdentity convex1 convex2 tf1 shape tf2 =
      (let r1 := prismIntersect ext RTIsIdentity convex1 tf1 shape tf2
       let r2 := prismIntersect ext RTIsIdentity convex2 tf1 shape tf2
       if (r1.collision && r2.collision) = true then
         if r1.distance_lower_bound ≠ -FCL_REAL_max ∧
             r2.distance_lower_bound ≠ -FCL_REAL_max then
           if r1.distance_lower_bound > r2.distance_lower_bound then outputsOf true r2
           else outputsOf true r1
         else if r2.distance_lower_bound ≠ -FCL_REAL_max then outputsOf true r2
         else outputsOf true r1
       else if r1.collision = true then outputsOf true r1
       else if r2.collision = true then outputsOf true r2
       else outputsOf false r1) := rfl

/-- C18. The merge of `shapeCollision` when at least one prism collides: it returns
true, with the outputs of prism 1 if only prism 1 collides, of prism 2 if only prism 2
collides; if both collide and neither bound is the sentinel `-FCL_REAL_max`, with the
outputs of the prism of smaller bound (prism 1 on a tie); and if both collide and
exactly one bound is the sentinel, with the outputs of the other prism. -/
theorem shapeCollision_merge {S : Type} (ext : External S) (RTIsIdentity : Bool)
    (convex1 convex2 : Convex Triangle) (tf1 : Transform3f) (shape : S) (tf2 : Transform3f)
    (r1 r2 : SolverIntersect)
    (h1 : prismIntersect ext RTIsIdentity convex1 tf1 shape tf2 = r1)
    (h2 : prismIntersect ext RTIsIdentity convex2 tf1 shape tf2 = r2)
    (hcol : r1.collision = true ∨ r2.collision = true) :
    (shapeCollision ext RTIsIdentity convex1 convex2 tf1 shape tf2).collision = true ∧
      (r1.collision = true → r2.collision = false →
        shapeCollision ext RTIsIdentity convex1 convex2 tf1 shape tf2 = outputsOf true r1) ∧
      (r1.collision = false → r2.collision = true →
        shapeCollision ext RTIsIdentity convex1 convex2 tf1 shape tf2 = outputsOf true r2) ∧
      (r1.collision = true → r2.collision = true →
        r1.distance_lower_bound ≠ -FCL_REAL_max → r2.distance_lower_bound ≠ -FCL_REAL_max →
        (r1.distance_lower_bound ≤ r2.distance_lower_bound →
          shapeCollision ext RTIsIdentity convex1 convex2 tf1 shape tf2 = outputsOf true r1) ∧
        (r2.distance_lower_bound < r1.distance_lower_bound →
          shapeCollision ext RTIsIdentity convex1 convex2 tf1 shape tf2 = outputsOf true r2)) ∧
      (r1.collision = true → r2.collision = true →
        r1.distance_lower_bound = -FCL_REAL_max → r2.distance_lower_bound ≠ -FCL_REAL_max →
        shapeCollision ext RTIsIdentity convex1 convex2 tf1 shape tf2 = outputsOf true r2) ∧
      (r1.collision = true → r2.collision = true →
        r1.distance_lower_bound ≠ -FCL_REAL_max → r2.distance_lower_bound = -FCL_REAL_max →
        shapeCollision ext RTIsIdentity convex1 convex2 tf1 shape tf2 = outputsOf true r1) := by
  rw [shapeCollision_of_answers]
  simp only [h1, h2]
  refine ⟨?_, ?_, ?_, ?_, ?_, ?_⟩
  · rcases hcol with h | h
    · cases hc2 : r2.collision <;> simp only [h, hc2, Bool.and_true, Bool.and_false] <;>
        split_ifs <;> rfl
    · cases hc1 : r1.collision <;> simp only [h, hc1, Bool.true_and, Bool.false_and] <;>
        split_ifs <;> rfl
  · intro a b
    simp [a, b]
  · intro a b
    simp [a, b]
  · intro a b n1 n2
    refine ⟨fun hle => ?_, fun hlt => ?_⟩
    · simp [a, b, n1, n2, not_lt.mpr hle]
    · simp [a, b, n1, n2, hlt]
  · intro a b e1 n2
    simp [a, b, e1, n2]
  · intro a b n1 e2
    simp [a, b, n1, e2]

theorem shapeCollision_merge_witness :
    (Examples.sentinelAnswers Examples.flatPrism2).distance_lower_bound <
        (Examples.sentinelAnswers Examples.flatPrism1).distance_lower_bound ∧
      shapeCollision Examples.sentinelExt false Examples.flatPrism1 Examples.flatPrism2
          Transform3f.Id (⟨1 / 2⟩ : Examples.Ball) (Examples.ballPose (3 / 10)) =
        outputsOf true (Examples.sentinelAnswers Examples.flatPrism1) := by
  have n1 : (Examples.sentinelAnswers Examples.flatPrism1).distance_lower_bound = -1 / 5 := by
    with_unfolding_all rfl
  have e2 : (Examples.sentinelAnswers Examples.flatPrism2).distance_lower_bound =
      -FCL_REAL_max := by
    with_unfolding_all rfl
  have hne : (-1 / 5 : FCL_REAL) ≠ -FCL_REAL_max := by
    unfold FCL_REAL_max FCL_REAL
    norm_num
  refine ⟨?_, ?_⟩
  · rw [n1, e2]
    unfold FCL_REAL_max FCL_REAL
    norm_num
  · exact (shapeCollision_merge Examples.sentinelExt false Examples.flatPrism1
      Examples.flatPrism2 Transform3f.Id (⟨1 / 2⟩ : Examples.Ball) (Examples.ballPose (3 / 10))
      (Examples.sentinelAnswers Examples.flatPrism1)
      (Examples.sentinelAnswers Examples.flatPrism2) rfl rfl
      (Or.inl (by with_unfolding_all rfl))).2.2.2.2.2
      (by with_unfolding_all rfl) (by with_unfolding_all rfl) (by rw [n1]; exact hne) e2

/-- C19. When neither prism collides `shapeCollision` returns false and leaves in its
outputs what the solver wrote for prism 1, without comparing the two bounds: for the
ball of radius 1/2 centred at `(2, 3, 3/4)` over the flat cell, prism 1 gives the bound
3/4 and prism 2 the bound 1/4, and the output bound is 3/4, with the contact point and
the normal of prism 1. -/
theorem shapeCollision_no_collision_keeps_first :
    (prismIntersect Examples.mirrorExt false Examples.flatPrism1 Transform3f.Id
        (⟨1 / 2⟩ : Examples.Ball) Examples.mirrorPose).collision = false ∧
      (prismIntersect Examples.mirrorExt false Examples.flatPrism2 Transform3f.Id
        (⟨1 / 2⟩ : Examples.Ball) Examples.mirrorPose).collision = false ∧
      (prismIntersect Examples.mirrorExt false Examples.flatPrism1 Transform3f.Id
        (⟨1 / 2⟩ : Examples.Ball) Examples.mirrorPose).distance_lower_bound = 3 / 4 ∧
      (prismIntersect Examples.mirrorExt false Examples.flatPrism2 Transform3f.Id
        (⟨1 / 2⟩ : Examples.Ball) Examples.mirrorPose).distance_lower_bound = 1 / 4 ∧
      shapeCollision Examples.mirrorExt false Examples.flatPrism1 Examples.flatPrism2
          Transform3f.Id (⟨1 / 2⟩ : Examples.Ball) Examples.mirrorPose =
        { collision := false, distance_lower_bound := 3 / 4,
          contact_point := ⟨6 / 5, 12 / 5, 0⟩, normal := ⟨16 / 25, 12 / 25, 3 / 5⟩ } :=
  ⟨by with_unfolding_all rfl, by with_unfolding_all rfl, by with_unfolding_all rfl,
    by with_unfolding_all rfl, by with_unfolding_all rfl⟩

end details

/-! ## Serialization of the contact patch request -/

namespace boost.serialization

/-- A saved request holds `max_num_patch` and, under two names, the number of samples
for curved shapes; the patch tolerance is not in the archive. -/
theorem save_items (r : ContactPatchRequest) :
    save r = some { is_loading := false
                    items := [("max_num_patch", r.max_num_patch),
                      ("num_samples_curved_shapes", r.m_num_samples_curved_shapes),
                      ("patch_tolerance", r.m_num_samples_curved_shapes)] } := rfl

/-- Saving then loading returns the number of patches, the number of samples as the
setter stores it, and the patch tolerance of the default-constructed request. -/
theorem roundTrip_eq (r : ContactPatchRequest) :
    roundTrip r = some { max_num_patch := r.max_num_patch
                         m_num_samples_curved_shapes :=
                           if r.m_num_samples_curved_shapes < 3 then 3
                           else r.m_num_samples_curved_shapes
                         m_patch_tolerance := 1 / 1000 } := by
  unfold roundTrip
  rw [save_items]
  simp only [Option.some_bind, load, serialize, Archive.nvp, if_true,
    ContactPatchRequest.getNumSamplesCurvedShapes, ContactPatchRequest.getPatchTolerance,
    ContactPatchRequest.default, ContactPatchRequest.setNumSamplesCurvedShapes,
    ContactPatchRequest.setPatchTolerance, Option.map_some']
  have h : ¬ ((1 : FCL_REAL) / 1000 < 0) := by norm_num
  split_ifs <;> simp_all

/-- C21 fails on the patch tolerance. The request with 4 patches, 32 samples and
tolerance 1/100 is saved as the three numbers 4, 32, 32, and loading them into a
default-constructed request gives 4 patches, 32 samples and the tolerance 1/1000 of
the default request. -/
theorem roundTrip_loses_patch_tolerance :
    save Examples.patchRequest =
        some { is_loading := false
               items := [("max_num_patch", 4), ("num_samples_curved_shapes", 32),
                 ("patch_tolerance", 32)] } ∧
      roundTrip Examples.patchRequest =
        some { max_num_patch := 4, m_num_samples_curved_shapes := 32,
               m_patch_tolerance := 1 / 1000 } ∧
      Examples.patchRequest.getPatchTolerance = 1 / 100 ∧
      roundTrip Examples.patchRequest ≠ some Examples.patchRequest :=
  ⟨rfl, by with_unfolding_all rfl, rfl, by with_unfolding_all decide⟩

end boost.serialization

/-! ## The quadrilateral convex of a cell -/

namespace details

/-- The convex `buildConvexQuadrilateral` returns, when it returns. -/
theorem buildConvexQuadrilateral_ok {S : Type} (ext : External S) (node : HFNode)
    (model : HeightField) (convex : Convex Quadrilateral)
    (hb : buildConvexQuadrilateral ext node model = .ok convex) :
    convex =
      { points := [(0, 0), (0, 1), (1, 1), (1, 0)].map (baseCorner node model) ++
          [(0, 0), (0, 1), (1, 1), (1, 0)].map (topCorner node model)
        num_points := 8
        polygons := [⟨0, 3, 2, 1⟩, ⟨0, 1, 5, 4⟩, ⟨1, 2, 6, 5⟩, ⟨2, 3, 7, 6⟩,
                     ⟨3, 0, 4, 7⟩, ⟨4, 5, 6, 7⟩]
        num_polygons := 6 } := by
  unfold buildConvexQuadrilateral at hb
  simp only at hb
  split_ifs at hb
  injection hb with hb
  rw [← hb]
  rfl

/-- C22. `buildConvexQuadrilateral` returns when assertions are compiled out or the
largest of the four corner heights is above `min_height`, and what it returns has
exactly 8 points, the four footprint corners `(x0,y0), (x0,y1), (x1,y1), (x1,y0)` at
`min_height` followed by the same corners at their sampled heights
`heights(y_id + j, x_id + i)`, and exactly 6 quadrilaterals that form a closed,
consistently oriented surface: every directed edge occurs once, its reverse once, and
every edge is used by exactly two faces. -/
theorem buildConvexQuadrilateral_closed {S : Type} (ext : External S) (node : HFNode)
    (model : HeightField)
    (hret : ext.NDEBUG = true ∨
      max (max (model.heights node.y_id node.x_id) (model.heights node.y_id (node.x_id + 1)))
          (max (model.heights (node.y_id + 1) node.x_id)
            (model.heights (node.y_id + 1) (node.x_id + 1))) > model.min_height) :
    ∃ convex, buildConvexQuadrilateral ext node model = .ok convex ∧
      convex.points = [(0, 0), (0, 1), (1, 1), (1, 0)].map (baseCorner node model) ++
        [(0, 0), (0, 1), (1, 1), (1, 0)].map (topCorner node model) ∧
      convex.points.length = 8 ∧ convex.num_points = 8 ∧
      convex.polygons.length = 6 ∧ convex.num_polygons = 6 ∧
      (∀ ij ∈ [(0, 0), (0, 1), (1, 1), (1, 0)],
        (baseCorner node model ij).z = model.min_height ∧
        (topCorner node model ij).z = model.heights (node.y_id + ij.2) (node.x_id + ij.1) ∧
        (topCorner node model ij).x = (baseCorner node model ij).x ∧
        (topCorner node model ij).y = (baseCorner node model ij).y) ∧
      closedQuadrilateralSurface convex.polygons = true ∧
      (∀ e ∈ directedEdgesOfQuadrilaterals convex.polygons,
        (directedEdgesOfQuadrilaterals convex.polygons).count e = 1 ∧
        (directedEdgesOfQuadrilaterals convex.polygons).count (e.2, e.1) = 1 ∧
        facesOnEdge convex.polygons e.1 e.2 = 2) := by
  have hex : ∃ convex, buildConvexQuadrilateral ext node model = .ok convex := by
    unfold buildConvexQuadrilateral
    have hc : (ext.NDEBUG || decide (max (max (model.heights (node.y_id + 0) (node.x_id + 0))
        (model.heights (node.y_id + 0) (node.x_id + 1)))
        (max (model.heights (node.y_id + 1) (node.x_id + 0))
          (model.heights (node.y_id + 1) (node.x_id + 1))) > model.min_height)) = true := by
      rcases hret with h | h
      · simp [h]
      · simp only [Nat.add_zero, Bool.or_eq_true, decide_eq_true_eq]
        exact Or.inr h
    simp only [hc, if_true]
    exact ⟨_, rfl⟩
  obtain ⟨convex, hb⟩ := hex
  have e := buildConvexQuadrilateral_ok ext node model convex hb
  have hp : convex.polygons = [⟨0, 3, 2, 1⟩, ⟨0, 1, 5, 4⟩, ⟨1, 2, 6, 5⟩, ⟨2, 3, 7, 6⟩,
      ⟨3, 0, 4, 7⟩, ⟨4, 5, 6, 7⟩] := congrArg Convex.polygons e
  refine ⟨convex, hb, congrArg Convex.points e, ?_, congrArg Convex.num_points e, ?_,
    congrArg Convex.num_polygons e, ?_, ?_, ?_⟩
  · rw [congrArg Convex.points e]; rfl
  · rw [hp]; rfl
  · intro ij _
    exact ⟨rfl, rfl, rfl, rfl⟩
  · rw [hp]; decide
  · rw [hp]; decide

theorem buildConvexQuadrilateral_closed_witness :
    ∃ convex, buildConvexQuadrilateral Examples.ballExt ⟨0, 0, 0⟩ Examples.bumpField =
        .ok convex ∧
      convex.points = [⟨0, 0, -1⟩, ⟨0, 4, -1⟩, ⟨3, 4, -1⟩, ⟨3, 0, -1⟩,
        ⟨0, 0, 0⟩, ⟨0, 4, 0⟩, ⟨3, 4, 1⟩, ⟨3, 0, 0⟩] ∧
      closedQuadrilateralSurface convex.polygons = true := by
  obtain ⟨convex, hb, hpts, -, -, -, -, -, hclosed, -⟩ :=
    buildConvexQuadrilateral_closed Examples.ballExt ⟨0, 0, 0⟩ Examples.bumpField
      (Or.inr (by with_unfolding_all decide))
  refine ⟨convex, hb, ?_, hclosed⟩
  rw [hpts]
  with_unfolding_all decide

end details

/-! ## Normalisation of planes and half-spaces -/

theorem dot_smul_left (k : FCL_REAL) (a b : Vec3f) : (k * a).dot b = k * a.dot b := by
  unfold Vec3f.dot
  rw [details.vec_smul_x, details.vec_smul_y, details.vec_smul_z]
  ring

/-- A norm that is absolutely homogeneous vanishes at the zero vector. -/
theorem norm_zero_of_hom (norm : Vec3f → FCL_REAL)
    (hhom : ∀ (k : FCL_REAL) (v : Vec3f), norm (k * v) = |k| * norm v) :
    norm Vec3f.zero = 0 := by
  have h := hhom 0 Vec3f.zero
  have e : (0 : FCL_REAL) * Vec3f.zero = Vec3f.zero :=
    details.vec_ext _ _ (by rw [details.vec_smul_x, zero_mul]; rfl)
      (by rw [details.vec_smul_y, zero_mul]; rfl) (by rw [details.vec_smul_z, zero_mul]; rfl)
  rw [e, abs_zero, zero_mul] at h
  exact h

/-- The two normalisations on a normal of positive norm. -/
theorem unitNormalTest_of_pos (norm : Vec3f → FCL_REAL) (n : Vec3f) (d : FCL_REAL)
    (hl : 0 < norm n) :
    Plane.unitNormalTest norm ⟨n, d⟩ = ⟨(1 / norm n) * n, d * (1 / norm n)⟩ ∧
      Halfspace.unitNormalTest norm ⟨n, d⟩ = ⟨(1 / norm n) * n, d * (1 / norm n)⟩ := by
  unfold Plane.unitNormalTest Halfspace.unitNormalTest
  simp only [gt_iff_lt, hl, if_true, and_self]

/-- The two normalisations on a normal of norm zero. -/
theorem unitNormalTest_of_zero (norm : Vec3f → FCL_REAL) (n : Vec3f) (d : FCL_REAL)
    (hl : norm n = 0) :
    Plane.unitNormalTest norm ⟨n, d⟩ = ⟨⟨1, 0, 0⟩, 0⟩ ∧
      Halfspace.unitNormalTest norm ⟨n, d⟩ = ⟨⟨1, 0, 0⟩, 0⟩ := by
  unfold Plane.unitNormalTest Halfspace.unitNormalTest
  simp only [gt_iff_lt, hl, lt_irrefl, if_false, and_self]

/-- C27. `Plane::unitNormalTest` and `Halfspace::unitNormalTest`, for a norm that is
positive on non-zero vectors, absolutely homogeneous and 1 at `(1, 0, 0)`: for every
normal `n != 0` and offset `d` the call scales `n` and `d` by the same positive factor
`1 / norm n`, after which `n` has norm one and the represented set is the same
(`n . x = d` for the plane, `n . x <= d` for the half-space); for `n = 0` the call
sets `n = (1, 0, 0)` and `d = 0`; and a second call changes nothing. -/
theorem unitNormalTest_normalises (norm : Vec3f → FCL_REAL)
    (hpos : ∀ v : Vec3f, v ≠ Vec3f.zero → 0 < norm v)
    (hhom : ∀ (k : FCL_REAL) (v : Vec3f), norm (k * v) = |k| * norm v)
    (hunit : norm ⟨1, 0, 0⟩ = 1) (n : Vec3f) (d : FCL_REAL) :
    (n ≠ Vec3f.zero →
        0 < 1 / norm n ∧
        Plane.unitNormalTest norm ⟨n, d⟩ = ⟨(1 / norm n) * n, d * (1 / norm n)⟩ ∧
        Halfspace.unitNormalTest norm ⟨n, d⟩ = ⟨(1 / norm n) * n, d * (1 / norm n)⟩ ∧
        norm (Plane.unitNormalTest norm ⟨n, d⟩).n = 1 ∧
        norm (Halfspace.unitNormalTest norm ⟨n, d⟩).n = 1 ∧
        (∀ x, (Plane.unitNormalTest norm ⟨n, d⟩).contains x ↔ Plane.contains ⟨n, d⟩ x) ∧
        (∀ x, (Halfspace.unitNormalTest norm ⟨n, d⟩).contains x ↔
          Halfspace.contains ⟨n, d⟩ x)) ∧
      (Plane.unitNormalTest norm ⟨Vec3f.zero, d⟩ = ⟨⟨1, 0, 0⟩, 0⟩ ∧
        Halfspace.unitNormalTest norm ⟨Vec3f.zero, d⟩ = ⟨⟨1, 0, 0⟩, 0⟩) ∧
      (Plane.unitNormalTest norm (Plane.unitNormalTest norm ⟨n, d⟩) =
          Plane.unitNormalTest norm ⟨n, d⟩ ∧
        Halfspace.unitNormalTest norm (Halfspace.unitNormalTest norm ⟨n, d⟩) =
          Halfspace.unitNormalTest norm ⟨n, d⟩) := by
  have hz := norm_zero_of_hom norm hhom
  have hone : ∀ (v : Vec3f) (c : FCL_REAL), norm v = 1 →
      Plane.unitNormalTest norm ⟨v, c⟩ = ⟨v, c⟩ ∧
        Halfspace.unitNormalTest norm ⟨v, c⟩ = ⟨v, c⟩ := by
    intro v c hv
    have h := unitNormalTest_of_pos norm v c (by rw [hv]; exact zero_lt_one)
    rw [hv, div_one, mul_one, details.vec_one_smul] at h
    exact h
  have hscaled : 0 < norm n → norm ((1 / norm n) * n) = 1 := by
    intro hl
    rw [hhom, abs_of_pos (one_div_pos.2 hl)]
    exact one_div_mul_cancel (ne_of_gt hl)
  refine ⟨?_, unitNormalTest_of_zero norm Vec3f.zero d hz, ?_⟩
  · intro hn
    have hl := hpos n hn
    have hk : 0 < 1 / norm n := one_div_pos.2 hl
    obtain ⟨eP, eH⟩ := unitNormalTest_of_pos norm n d hl
    refine ⟨hk, eP, eH, ?_, ?_, ?_, ?_⟩
    · rw [eP]; exact hscaled hl
    · rw [eH]; exact hscaled hl
    · intro x
      rw [eP]
      unfold Plane.contains
      simp only [dot_smul_left]
      rw [mul_comm d]
      exact mul_right_inj' (ne_of_gt hk)
    · intro x
      rw [eH]
      unfold Halfspace.contains
      simp only [dot_smul_left]
      rw [mul_comm d]
      exact mul_le_mul_left hk
  · by_cases hn : n = Vec3f.zero
    · obtain ⟨eP, eH⟩ := unitNormalTest_of_zero norm n d (by rw [hn]; exact hz)
      rw [eP, eH]
      exact ⟨(hone _ _ hunit).1, (hone _ _ hunit).2⟩
    · have hl := hpos n hn
      obtain ⟨eP, eH⟩ := unitNormalTest_of_pos norm n d hl
      rw [eP, eH]
      exact ⟨(hone _ _ (hscaled hl)).1, (hone _ _ (hscaled hl)).2⟩

theorem unitNormalTest_normalises_witness :
    Plane.unitNormalTest Examples.norm1 ⟨⟨0, 0, 2⟩, 4⟩ = ⟨⟨0, 0, 1⟩, 2⟩ ∧
      Halfspace.unitNormalTest Examples.norm1 ⟨⟨0, 0, 2⟩, 4⟩ = ⟨⟨0, 0, 1⟩, 2⟩ ∧
      Examples.norm1 (Plane.unitNormalTest Examples.norm1 ⟨⟨0, 0, 2⟩, 4⟩).n = 1 ∧
      ((Halfspace.unitNormalTest Examples.norm1 ⟨⟨0, 0, 2⟩, 4⟩).contains ⟨5, 7, 1⟩ ↔
        Halfspace.contains ⟨⟨0, 0, 2⟩, 4⟩ ⟨5, 7, 1⟩) := by
  have h := (unitNormalTest_normalises Examples.norm1 details.norm1_pos details.norm1_smul
    (by with_unfolding_all decide) ⟨0, 0, 2⟩ 4).1 (by with_unfolding_all decide)
  exact ⟨by with_unfolding_all decide, by with_unfolding_all decide, h.2.2.2.1,
    h.2.2.2.2.2.2 ⟨5, 7, 1⟩⟩

/-! ## The two pose paths of the signed-distance merge -/

namespace details

/-- C23 fails on the normal. For the ball of radius 1/2 centred at `(4, 2, -1/2)`
beside the flat cell, with `tf1` the identity, the second prism is the closer one, it
does not collide and its witness `(3, 2, -1/2)` is on a side wall. The general path
outputs the normal `(1, 0, 0)` the solver gave for that prism; the identity path
outputs the content of its local `normal2`, which it never writes, whatever that
content is. The other outputs are the same. -/
theorem shapeDistance_identity_path_normal :
    ∀ normal2 : Vec3f,
      shapeDistance Examples.sideExt false Examples.flatPrism1 Examples.flatPrism2
          Transform3f.Id (⟨1 / 2⟩ : Examples.Ball) Examples.sidePose normal2 =
        .ok { collision := false, distance := 1 / 2, c1 := ⟨3, 2, -1 / 2⟩,
              c2 := ⟨7 / 2, 2, -1 / 2⟩, normal := ⟨1, 0, 0⟩, normal_top := ⟨0, 0, 1⟩,
              hfield_witness_is_on_bin_side := true } ∧
      shapeDistance Examples.sideExt true Examples.flatPrism1 Examples.flatPrism2
          Transform3f.Id (⟨1 / 2⟩ : Examples.Ball) Examples.sidePose normal2 =
        .ok { collision := false, distance := 1 / 2, c1 := ⟨3, 2, -1 / 2⟩,
              c2 := ⟨7 / 2, 2, -1 / 2⟩, normal := normal2, normal_top := ⟨0, 0, 1⟩,
              hfield_witness_is_on_bin_side := true } :=
  fun _ => ⟨by with_unfolding_all rfl, by with_unfolding_all rfl⟩

end details

/-! ## The closing assertion of the leaf test -/

namespace HeightFieldShapeCollisionTraversalNode

/-- C26 fails. For the ball of radius 1/2 centred at `(4, 2, -1/2)` beside the flat
cell, a request for one contact with collision distance threshold 1 and an empty
result: the merged distance 1/2 is within the threshold, so `sqrDistLowerBound` is 0,
and no contact is added because the normal `(1, 0, 0)` is not `normal_top`. In a build
with assertions the closing assertion aborts the call; in a build with `NDEBUG` the
call returns with no contact and `sqrDistLowerBound = 0`. -/
theorem leafCollides_closing_assertion_fails :
    leafCollides Examples.sideExt false Vec3f.zero (Examples.sideNode (Examples.requestOne 1)) 0
        = .error Abort.no_collision_and_no_positive_lower_bound ∧
      ∃ self', leafCollides Examples.sideExtRelease false Vec3f.zero
          (Examples.sideNode (Examples.requestOne 1)) 0 = .ok (self', 0) ∧
        self'.result.contacts.length = 0 ∧ self'.result.isCollision = false :=
  ⟨by with_unfolding_all rfl,
    afterLeaf (Examples.sideNode (Examples.requestOne 1))
      (internal.updateDistanceLowerBoundFromLeaf (Examples.requestOne 1)
        (Examples.sideNode (Examples.requestOne 1)).result (1 / 2) ⟨3, 2, -1 / 2⟩
        ⟨7 / 2, 2, -1 / 2⟩),
    by with_unfolding_all rfl, by with_unfolding_all rfl, by with_unfolding_all rfl⟩

end HeightFieldShapeCollisionTraversalNode

/-! ## The merged distance and the top-face guard -/

namespace details

/-- What a returning `binCorrection` leaves in its outputs: on a collision the normal
is `normal_top` and the distance is minus the norm of the difference of the two
contacts; without collision the distance is the one given. -/
theorem binCorrection_ok_facts {S : Type} (ext : External S) (convex : Convex Triangle)
    (shape : S) (shape_pose : Transform3f) (distance : FCL_REAL)
    (contact_1 contact_2 normal : Vec3f) (is_collision : Bool) (o : BinCorrected)
    (h : binCorrection ext convex shape shape_pose distance contact_1 contact_2 normal
      is_collision = .ok o) :
    (is_collision = true →
        o.normal = o.normal_top ∧ o.distance = -(ext.norm (o.contact_1 - o.contact_2))) ∧
      (is_collision = false → o.distance = distance) := by
  unfold binCorrection at h
  cases ht : convex.polygons[1]? with
  | none => simp [ht] at h
  | some t =>
    simp only [ht] at h
    cases ha : convex.points[t.get 0]? with
    | none => simp [ha] at h
    | some a =>
      cases hb : convex.points[t.get 1]? with
      | none => simp [ha, hb] at h
      | some b =>
        cases hc : convex.points[t.get 2]? with
        | none => simp [ha, hb, hc] at h
        | some c =>
          simp only [ha, hb, hc] at h
          split_ifs at h <;> cases h <;> simp_all

/-- The outputs built from a prism outcome are taken from it. -/
theorem takenFrom_keep (collision : Bool) (o : BinCorrected) :
    takenFrom (keep collision o) o := by
  unfold takenFrom keep
  exact ⟨rfl, rfl, rfl, rfl, rfl, rfl⟩

/-- A returning `shapeDistance` has corrected both prisms. -/
theorem shapeDistance_ok_inv {S : Type} (ext : External S) (RTIsIdentity : Bool)
    (convex1 convex2 : Convex Triangle) (tf1 : Transform3f) (shape : S) (tf2 : Transform3f)
    (n2 : Vec3f) (m : ShapeDistanceResult)
    (hm : shapeDistance ext RTIsIdentity convex1 convex2 tf1 shape tf2 n2 = .ok m) :
    ∃ o1 o2, prism1Outcome ext RTIsIdentity convex1 tf1 shape tf2 = .ok o1 ∧
      prism2Outcome ext RTIsIdentity convex2 tf1 shape tf2 n2 = .ok o2 := by
  cases h1 : prism1Outcome ext RTIsIdentity convex1 tf1 shape tf2 with
  | error e =>
    unfold prism1Outcome prismQuery at h1
    unfold shapeDistance at hm
    cases RTIsIdentity <;> simp_all
  | ok o1 =>
    cases h2 : prism2Outcome ext RTIsIdentity convex2 tf1 shape tf2 n2 with
    | error e =>
      unfold prism1Outcome prismQuery at h1
      unfold prism2Outcome prismQuery at h2
      unfold shapeDistance at hm
      cases RTIsIdentity <;> simp_all
    | ok o2 => exact ⟨o1, o2, rfl, rfl⟩

/-- The sign of the corrected distance of each prism, for a norm without negative
values: not positive when the raw distance is negative, the raw distance otherwise. -/
theorem prismOutcome_sign {S : Type} (ext : External S) (RTIsIdentity : Bool)
    (convex1 convex2 : Convex Triangle) (tf1 : Transform3f) (shape : S) (tf2 : Transform3f)
    (n2 : Vec3f) (o1 o2 : BinCorrected)
    (h1 : prism1Outcome ext RTIsIdentity convex1 tf1 shape tf2 = .ok o1)
    (h2 : prism2Outcome ext RTIsIdentity convex2 tf1 shape tf2 n2 = .ok o2)
    (hnorm : ∀ v : Vec3f, 0 ≤ ext.norm v) :
    ((prismQuery ext RTIsIdentity convex1 tf1 shape tf2).distance < 0 →
        o1.distance ≤ 0 ∧ o1.normal = o1.normal_top) ∧
      (¬ (prismQuery ext RTIsIdentity convex1 tf1 shape tf2).distance < 0 → 0 ≤ o1.distance) ∧
      ((prismQuery ext RTIsIdentity convex2 tf1 shape tf2).distance < 0 →
        o2.distance ≤ 0 ∧ o2.normal = o2.normal_top) ∧
      (¬ (prismQuery ext RTIsIdentity convex2 tf1 shape tf2).distance < 0 → 0 ≤ o2.distance) := by
  unfold prism1Outcome at h1
  unfold prism2Outcome at h2
  obtain ⟨a1, b1⟩ := binCorrection_ok_facts ext _ _ _ _ _ _ _ _ _ h1
  obtain ⟨a2, b2⟩ := binCorrection_ok_facts ext _ _ _ _ _ _ _ _ _ h2
  refine ⟨fun h => ?_, fun h => ?_, fun h => ?_, fun h => ?_⟩
  · obtain ⟨e, d⟩ := a1 (decide_eq_true h)
    exact ⟨by rw [d]; exact neg_nonpos.2 (hnorm _), e⟩
  · rw [b1 (decide_eq_false h)]; exact not_lt.1 h
  · obtain ⟨e, d⟩ := a2 (decide_eq_true h)
    exact ⟨by rw [d]; exact neg_nonpos.2 (hnorm _), e⟩
  · rw [b2 (decide_eq_false h)]; exact not_lt.1 h

/-- A prism whose raw distance is negative comes out of `binCorrection` with its
normal equal to its `normal_top`. -/
theorem prismOutcome_normal {S : Type} (ext : External S) (RTIsIdentity : Bool)
    (convex1 convex2 : Convex Triangle) (tf1 : Transform3f) (shape : S) (tf2 : Transform3f)
    (n2 : Vec3f) (o1 o2 : BinCorrected)
    (h1 : prism1Outcome ext RTIsIdentity convex1 tf1 shape tf2 = .ok o1)
    (h2 : prism2Outcome ext RTIsIdentity convex2 tf1 shape tf2 n2 = .ok o2) :
    ((prismQuery ext RTIsIdentity convex1 tf1 shape tf2).distance < 0 →
        o1.normal = o1.normal_top) ∧
      ((prismQuery ext RTIsIdentity convex2 tf1 shape tf2).distance < 0 →
        o2.normal = o2.normal_top) := by
  unfold prism1Outcome at h1
  unfold prism2Outcome at h2
  obtain ⟨a1, -⟩ := binCorrection_ok_facts ext _ _ _ _ _ _ _ _ _ h1
  obtain ⟨a2, -⟩ := binCorrection_ok_facts ext _ _ _ _ _ _ _ _ _ h2
  exact ⟨fun h => (a1 (decide_eq_true h)).1, fun h => (a2 (decide_eq_true h)).1⟩

/-- The norm of the examples has no negative value. -/
theorem norm1_nonneg (v : Vec3f) : 0 ≤ Examples.norm1 v := by
  unfold Examples.norm1
  exact add_nonneg (add_nonneg (abs_nonneg _) (abs_nonneg _)) (abs_nonneg _)

/-- C24 fails on its tie rule. For the ball resting on the flat cell and a solver that
reports distance 0 for the first prism and a penetration of 1/1000 for the second,
both corrected distances are 0, only the second prism collides, and the merge keeps
the outcome of the second prism: it returns true with the bin-side flag of the second
prism, which is not that of the first. -/
theorem shapeDistance_tie_counterexample :
    prism1Outcome Examples.restExt false Examples.flatPrism1 Transform3f.Id
        (⟨1 / 2⟩ : Examples.Ball) Examples.restPose =
      .ok ⟨0, ⟨3 / 2, 2, 0⟩, ⟨3 / 2, 2, 0⟩, ⟨0, 0, 1⟩, ⟨0, 0, 1⟩, false, false⟩ ∧
    prism2Outcome Examples.restExt false Examples.flatPrism2 Transform3f.Id
        (⟨1 / 2⟩ : Examples.Ball) Examples.restPose Vec3f.zero =
      .ok ⟨0, ⟨3 / 2, 2, 0⟩, ⟨3 / 2, 2, 0⟩, ⟨0, 0, 1⟩, ⟨0, 0, 1⟩, true, true⟩ ∧
    shapeDistance Examples.restExt false Examples.flatPrism1 Examples.flatPrism2
        Transform3f.Id (⟨1 / 2⟩ : Examples.Ball) Examples.restPose Vec3f.zero =
      .ok (keep true ⟨0, ⟨3 / 2, 2, 0⟩, ⟨3 / 2, 2, 0⟩, ⟨0, 0, 1⟩, ⟨0, 0, 1⟩, true, true⟩) ∧
    ¬ takenFrom (keep true ⟨0, ⟨3 / 2, 2, 0⟩, ⟨3 / 2, 2, 0⟩, ⟨0, 0, 1⟩, ⟨0, 0, 1⟩, true, true⟩)
      ⟨0, ⟨3 / 2, 2, 0⟩, ⟨3 / 2, 2, 0⟩, ⟨0, 0, 1⟩, ⟨0, 0, 1⟩, false, false⟩ :=
  ⟨by with_unfolding_all rfl, by with_unfolding_all rfl, by with_unfolding_all rfl,
    by with_unfolding_all decide⟩

/-- C24, amended. For a norm without negative values, the distance output by
`shapeDistance` is the minimum of the two corrected distances, it is not positive
when the call returns true and not negative when it returns false; and when the two
corrected distances are equal the outcome of prism 1 is kept, except when only
prism 2 collides: then both distances are 0 and the outcome of prism 2 is kept. -/
theorem shapeDistance_distance_min {S : Type} (ext : External S) (RTIsIdentity : Bool)
    (convex1 convex2 : Convex Triangle) (tf1 : Transform3f) (shape : S) (tf2 : Transform3f)
    (n2 : Vec3f) (o1 o2 : BinCorrected)
    (h1 : prism1Outcome ext RTIsIdentity convex1 tf1 shape tf2 = .ok o1)
    (h2 : prism2Outcome ext RTIsIdentity convex2 tf1 shape tf2 n2 = .ok o2)
    (hnorm : ∀ v : Vec3f, 0 ≤ ext.norm v) :
    ∃ m, shapeDistance ext RTIsIdentity convex1 convex2 tf1 shape tf2 n2 = .ok m ∧
      m.distance = min o1.distance o2.distance ∧
      (m.collision = true → m.distance ≤ 0) ∧
      (m.collision = false → 0 ≤ m.distance) ∧
      (o1.distance = o2.distance →
        (¬ (¬ (prismQuery ext RTIsIdentity convex1 tf1 shape tf2).distance < 0 ∧
            (prismQuery ext RTIsIdentity convex2 tf1 shape tf2).distance < 0) →
          takenFrom m o1) ∧
        (¬ (prismQuery ext RTIsIdentity convex1 tf1 shape tf2).distance < 0 ∧
            (prismQuery ext RTIsIdentity convex2 tf1 shape tf2).distance < 0 →
          takenFrom m o2 ∧ m.collision = true ∧ m.distance = 0)) := by
  obtain ⟨s1, t1, s2, t2⟩ := prismOutcome_sign ext RTIsIdentity convex1 convex2 tf1 shape tf2
    n2 o1 o2 h1 h2 hnorm
  refine ⟨_, shapeDistance_of_outcomes ext RTIsIdentity convex1 convex2 tf1 shape tf2 n2 o1 o2
    h1 h2, ?_⟩
  by_cases c1 : (prismQuery ext RTIsIdentity convex1 tf1 shape tf2).distance < 0
  · have d1 := (s1 c1).1
    by_cases c2 : (prismQuery ext RTIsIdentity convex2 tf1 shape tf2).distance < 0
    · have d2 := (s2 c2).1
      rw [if_pos ⟨c1, c2⟩]
      by_cases hgt : o1.distance > o2.distance
      · rw [if_pos hgt]
        exact ⟨(min_eq_right (le_of_lt hgt)).symm, fun _ => d2, fun h => Bool.noConfusion h,
          fun he => absurd he (ne_of_gt hgt)⟩
      · rw [if_neg hgt]
        exact ⟨(min_eq_left (not_lt.1 hgt)).symm, fun _ => d1, fun h => Bool.noConfusion h,
          fun _ => ⟨fun _ => takenFrom_keep true o1, fun h => absurd c1 h.1⟩⟩
    · have d2 := t2 c2
      rw [if_neg (fun h => c2 h.2), if_pos c1]
      exact ⟨(min_eq_left (le_trans d1 d2)).symm, fun _ => d1, fun h => Bool.noConfusion h,
        fun _ => ⟨fun _ => takenFrom_keep true o1, fun h => absurd c1 h.1⟩⟩
  · have d1 := t1 c1
    by_cases c2 : (prismQuery ext RTIsIdentity convex2 tf1 shape tf2).distance < 0
    · have d2 := (s2 c2).1
      rw [if_neg (fun h => c1 h.1), if_neg c1, if_pos c2]
      exact ⟨(min_eq_right (le_trans d2 d1)).symm, fun _ => d2, fun h => Bool.noConfusion h,
        fun he => ⟨fun h => absurd ⟨c1, c2⟩ h,
          fun _ => ⟨takenFrom_keep true o2, rfl, le_antisymm d2 (le_of_le_of_eq d1 he)⟩⟩⟩
    · have d2 := t2 c2
      rw [if_neg (fun h => c1 h.1), if_neg c1, if_neg c2]
      by_cases hgt : o1.distance > o2.distance
      · rw [if_pos hgt]
        exact ⟨(min_eq_right (le_of_lt hgt)).symm, fun h => Bool.noConfusion h, fun _ => d2,
          fun he => absurd he (ne_of_gt hgt)⟩
      · rw [if_neg hgt]
        exact ⟨(min_eq_left (not_lt.1 hgt)).symm, fun h => Bool.noConfusion h, fun _ => d1,
          fun _ => ⟨fun _ => takenFrom_keep false o1, fun h => absurd h.2 c2⟩⟩

theorem shapeDistance_distance_min_witness :
    ∃ m, shapeDistance Examples.restExt false Examples.flatPrism1 Examples.flatPrism2
        Transform3f.Id (⟨1 / 2⟩ : Examples.Ball) Examples.restPose Vec3f.zero = .ok m ∧
      m.distance = 0 ∧ m.collision = true ∧
      takenFrom m ⟨0, ⟨3 / 2, 2, 0⟩, ⟨3 / 2, 2, 0⟩, ⟨0, 0, 1⟩, ⟨0, 0, 1⟩, true, true⟩ := by
  obtain ⟨m, hm, -, -, -, htie⟩ :=
    shapeDistance_distance_min Examples.restExt false Examples.flatPrism1 Examples.flatPrism2
      Transform3f.Id (⟨1 / 2⟩ : Examples.Ball) Examples.restPose Vec3f.zero
      ⟨0, ⟨3 / 2, 2, 0⟩, ⟨3 / 2, 2, 0⟩, ⟨0, 0, 1⟩, ⟨0, 0, 1⟩, false, false⟩
      ⟨0, ⟨3 / 2, 2, 0⟩, ⟨3 / 2, 2, 0⟩, ⟨0, 0, 1⟩, ⟨0, 0, 1⟩, true, true⟩
      (by with_unfolding_all rfl) (by with_unfolding_all rfl) norm1_nonneg
  obtain ⟨t, c, d⟩ := (htie rfl).2 ⟨by with_unfolding_all decide, by with_unfolding_all decide⟩
  exact ⟨m, hm, d, c, t⟩

end details

namespace HeightFieldShapeCollisionTraversalNode

/-- C25. The top-face guard does not reject a collision. Whenever `shapeDistance`
returns true (either pose path), its output normal is equal to its output
`normal_top`. Hence, for an `isApprox` that holds between a vector and itself, a leaf
test whose merge signals collision, with `distToCollision` within the collision
distance threshold and fewer than `num_max_contacts` contacts in the result, returns
with the contact of the leaf appended; and when `normal_top . normal_top = 1`,
`distToCollision` is `distance - security_margin`. -/
theorem leafCollides_collision_appends {S : Type} (ext : External S) (RTIsIdentity : Bool)
    (n2 : Vec3f) (self : HeightFieldShapeCollisionTraversalNode S) (b1 : Nat)
    (convex1 convex2 : Convex Triangle) (m : details.ShapeDistanceResult)
    (hb : details.buildConvexTriangles ext (self.model1.getBV b1) self.model1 =
      .ok (convex1, convex2))
    (hm : details.shapeDistance ext RTIsIdentity convex1 convex2 self.tf1 self.model2 self.tf2 n2
      = .ok m)
    (hcol : m.collision = true)
    (hrefl : ∀ v : Vec3f, ext.isApprox v v = true) :
    m.normal = m.normal_top ∧
      (distToCollision self.request m ≤ self.request.collision_distance_threshold →
        self.result.numContacts < self.request.num_max_contacts →
        ∃ self', leafCollides ext RTIsIdentity n2 self b1 = .ok (self', 0) ∧
          self'.result.contacts = self.result.contacts ++ [leafContact self b1 m]) ∧
      (m.normal_top.dot m.normal_top = 1 →
        distToCollision self.request m = m.distance - self.request.security_margin) := by
  have hn : m.normal = m.normal_top := by
    obtain ⟨o1, o2, h1, h2⟩ := details.shapeDistance_ok_inv ext RTIsIdentity convex1 convex2
      self.tf1 self.model2 self.tf2 n2 m hm
    obtain ⟨a1, a2⟩ := details.prismOutcome_normal ext RTIsIdentity convex1 convex2 self.tf1
      self.model2 self.tf2 n2 o1 o2 h1 h2
    rw [details.shapeDistance_of_outcomes ext RTIsIdentity convex1 convex2 self.tf1 self.model2
      self.tf2 n2 o1 o2 h1 h2] at hm
    injection hm with hm
    subst hm
    by_cases c1 : (details.prismQuery ext RTIsIdentity convex1 self.tf1 self.model2
        self.tf2).distance < 0
    · by_cases c2 : (details.prismQuery ext RTIsIdentity convex2 self.tf1 self.model2
          self.tf2).distance < 0
      · rw [if_pos ⟨c1, c2⟩]
        by_cases hgt : o1.distance > o2.distance
        · rw [if_pos hgt]; exact a2 c2
        · rw [if_neg hgt]; exact a1 c1
      · rw [if_neg (fun h => c2 h.2), if_pos c1]; exact a1 c1
    · by_cases c2 : (details.prismQuery ext RTIsIdentity convex2 self.tf1 self.model2
          self.tf2).distance < 0
      · rw [if_neg (fun h => c1 h.1), if_neg c1, if_pos c2]; exact a2 c2
      · rw [if_neg (fun h => c1 h.1), if_neg c1, if_neg c2] at hcol
        by_cases hgt : o1.distance > o2.distance
        · rw [if_pos hgt] at hcol; exact Bool.noConfusion hcol
        · rw [if_neg hgt] at hcol; exact Bool.noConfusion hcol
  refine ⟨hn, ?_, ?_⟩
  · intro hd hlt
    have hg : contactGuard ext self m :=
      ⟨hd, hlt, by rw [hn]; exact hrefl _, Or.inl hcol⟩
    rw [leafCollides_of_merge ext RTIsIdentity n2 self b1 convex1 convex2 m hb hm, if_pos hg]
    refine ⟨_, rfl, ?_⟩
    simp [afterLeaf, contacts_updateDistanceLowerBoundFromLeaf, CollisionResult.addContact]
  · intro hunit
    unfold distToCollision
    rw [hn, hunit, mul_one]

theorem leafCollides_collision_appends_witness :
    ∃ self', leafCollides Examples.ballExt false Vec3f.zero
        (Examples.ballNode (Examples.requestOne 0) (1 / 4)) 0 = .ok (self', 0) ∧
      self'.result.contacts.length = 1 := by
  obtain ⟨self', h, hc⟩ :=
    (leafCollides_collision_appends Examples.ballExt false Vec3f.zero
      (Examples.ballNode (Examples.requestOne 0) (1 / 4)) 0 Examples.flatPrism1
      Examples.flatPrism2
      (details.keep true ⟨-1 / 4, ⟨1, 1, 0⟩, ⟨1, 1, -1 / 4⟩, ⟨0, 0, 1⟩, ⟨0, 0, 1⟩, true, false⟩)
      (by with_unfolding_all rfl) (by with_unfolding_all rfl) rfl
      (fun v => decide_eq_true rfl)).2.1
      (by with_unfolding_all decide) (by with_unfolding_all decide)
  exact ⟨self', h, by rw [hc]; rfl⟩

end HeightFieldShapeCollisionTraversalNode

end hpp.fcl
